import Mathlib

/-!
# Breakout simulation core (src/8.2d_game/breakout/main.cpp)

A shallow embedding of the simulation layer of the Breakout game: the entity
records, the collision engine, ball motion, brick and paddle collision
response, the particle trail and the power-up effect state machine.

Conventions of the embedding.

* The C++ `float` is modelled by an arbitrary linearly ordered field `F`
  (exact arithmetic, no rounding, no NaN or infinity).  Every definition is
  computable at `F = ℚ`.
* The square root used by `glm::length` and `glm::normalize` is a library
  function; it is a parameter `sqrt : F → F` of every definition that reaches
  it.  Theorems state what they need of it at the points where it is used.
* A quotient by zero is 0 in the field, where the `float` of the source is an
  infinity or NaN.  A property that passes through such a quotient is stated
  where the divisor is not zero (`normalizeDefined`, a paddle of non-zero
  width).
* `rand()` is modelled by a stream of naturals `Rand`; a call reads the head
  of the stream and leaves the tail.
* A scalar member that the source leaves uninitialised is an explicit extra
  argument of the creating function (an indeterminate value).
* Handles of graphics resources (sprites, shaders, vertex arrays) are numbers;
  the window handle and the OpenGL calls are not part of the embedding.
-/

namespace Breakout

/-! ## Vectors (glm) -/

/-- Two component vector, `glm::vec2`. -/
structure Vec2 (F : Type) where
  x : F
  y : F
deriving DecidableEq, Repr

/-- Three component vector, `glm::vec3` (colours). -/
structure Vec3 (F : Type) where
  x : F
  y : F
  z : F
deriving DecidableEq, Repr

/-- Four component vector, `glm::vec4` (colour with alpha, `a` is the fade channel). -/
structure Vec4 (F : Type) where
  r : F
  g : F
  b : F
  a : F
deriving DecidableEq, Repr

section Glm

variable {F : Type} [LinearOrderedField F]

/-- Component-wise sum, `a + b` on `glm::vec2`. -/
def Vec2.add (a b : Vec2 F) : Vec2 F := ⟨a.x + b.x, a.y + b.y⟩

/-- Component-wise difference, `a - b` on `glm::vec2`. -/
def Vec2.sub (a b : Vec2 F) : Vec2 F := ⟨a.x - b.x, a.y - b.y⟩

/-- Negation, `-a` on `glm::vec2`. -/
def Vec2.neg (a : Vec2 F) : Vec2 F := ⟨-a.x, -a.y⟩

/-- Component-wise product, `a * b` on `glm::vec2`. -/
def Vec2.mul (a b : Vec2 F) : Vec2 F := ⟨a.x * b.x, a.y * b.y⟩

/-- Scalar times vector, `k * v`. -/
def Vec2.smul (k : F) (v : Vec2 F) : Vec2 F := ⟨k * v.x, k * v.y⟩

/-- Vector times scalar, `v * k`. -/
def Vec2.muls (v : Vec2 F) (k : F) : Vec2 F := ⟨v.x * k, v.y * k⟩

/-- Vector divided by scalar, `v / k`. -/
def Vec2.divs (v : Vec2 F) (k : F) : Vec2 F := ⟨v.x / k, v.y / k⟩

/-- Vector plus scalar, `v + k` (the scalar is added to both components). -/
def Vec2.adds (v : Vec2 F) (k : F) : Vec2 F := ⟨v.x + k, v.y + k⟩

/-- The vector with both components equal, `glm::vec2(k)`. -/
def Vec2.splat (k : F) : Vec2 F := ⟨k, k⟩

/-- Dot product, `glm::dot`. -/
def dot (a b : Vec2 F) : F := a.x * b.x + a.y * b.y

/-- Euclidean norm, `glm::length(v) = sqrt(dot(v, v))`. -/
def length (sqrt : F → F) (v : Vec2 F) : F := sqrt (dot v v)

/-- Unit vector, `glm::normalize(v) = v * inversesqrt(dot(v, v))`. -/
def normalize (sqrt : F → F) (v : Vec2 F) : Vec2 F := v.muls (1 / sqrt (dot v v))

/-- Scalar clamp, `glm::clamp(x, lo, hi) = min(max(x, lo), hi)`. -/
def clampScalar (x lo hi : F) : F := min (max x lo) hi

/-- Component-wise clamp, `glm::clamp` on `glm::vec2`. -/
def clamp (v lo hi : Vec2 F) : Vec2 F :=
  ⟨clampScalar v.x lo.x hi.x, clampScalar v.y lo.y hi.y⟩

/-- Scalar clamp of the standard library,
`std::clamp(v, lo, hi) = (v < lo) ? lo : (hi < v) ? hi : v`. -/
def stdClamp (v lo hi : F) : F := if v < lo then lo else if hi < v then hi else v

end Glm

/-! ## Entity model -/

/-- Handle of a sprite (texture and vertex buffers live in the renderer). -/
abbrev Sprite := Nat

/-- Handle of the particle mesh. -/
abbrev Particle := Nat

/-- The flags of `struct PostProcessor` that the simulation writes; the
buffers and kernels of the record belong to the renderer. -/
structure PostProcessor where
  confuse : Bool
  chaos : Bool
  shake : Bool
deriving DecidableEq, Repr

structure ShakeEffectConfig (F : Type) where
  duration : F
deriving DecidableEq, Repr

structure ShakeEffect (F : Type) where
  ttl : F
deriving DecidableEq, Repr

inductive TileType where
  | solid
  | empty
  | destroyable
deriving DecidableEq, Repr

structure Tile (F : Type) where
  type : TileType
  color : Vec3 F
deriving DecidableEq, Repr

structure TileMap (F : Type) where
  grid : List (List (Tile F))
deriving DecidableEq, Repr

/-- `enum Direction`, in the order of its enumerators. -/
inductive Direction where
  | up
  | down
  | left
  | right
deriving DecidableEq, Repr

structure Collision (F : Type) where
  direction : Direction
  difference : Vec2 F
deriving DecidableEq, Repr

structure AabbCollisionBox (F : Type) where
  topLeft : Vec2 F
  bottomRight : Vec2 F
deriving DecidableEq, Repr

structure AabbCollisionCircle (F : Type) where
  radius : F
  center : Vec2 F
deriving DecidableEq, Repr

inductive GameObjectBodyType where
  | solid
  | destroyable
deriving DecidableEq, Repr

inductive GameObjectStatus where
  | alive
  | destroyed
deriving DecidableEq, Repr

structure GameObject (F : Type) where
  position : Vec2 F
  size : Vec2 F
  rotation : F
  color : Vec3 F
  bodyType : GameObjectBodyType
  status : GameObjectStatus
  sprite : Sprite
deriving DecidableEq, Repr

structure ParticleObject (F : Type) where
  position : Vec2 F
  velocity : Vec2 F
  color : Vec4 F
  life : F
deriving DecidableEq, Repr

inductive BallObjectSurfaceType where
  | sticky
  | reflect
deriving DecidableEq, Repr

inductive BallObjectCollisionType where
  | default
  | passThrough
deriving DecidableEq, Repr

structure BallConfig (F : Type) where
  speed : F
  radius : F
  color : Vec3 F
  sprite : Sprite
  particleCount : Nat
  particleModel : Particle
deriving DecidableEq, Repr

structure BallObject (F : Type) extends GameObject F where
  speed : F
  radius : F
  velocity : Vec2 F
  surfaceType : BallObjectSurfaceType
  collisionType : BallObjectCollisionType
  particles : List (ParticleObject F)
  particleModel : Particle
deriving DecidableEq, Repr

structure PlayerConfig (F : Type) where
  velocity : F
  size : Vec2 F
  color : Vec3 F
  sprite : Sprite
deriving DecidableEq, Repr

structure PlayerObject (F : Type) extends GameObject F where
  velocity : F
deriving DecidableEq, Repr

inductive PowerUpType where
  | speed
  | sticky
  | passThrough
  | paddleSizeUp
  | confusion
  | chaos
deriving DecidableEq, Repr

structure PowerUpConfig (F : Type) where
  type : PowerUpType
  chance : Int
  ttl : F
  sprite : Sprite
  velocity : Vec2 F
  size : Vec2 F
  color : Vec3 F
deriving DecidableEq, Repr

structure PowerUpObject (F : Type) extends GameObject F where
  type : PowerUpType
  velocity : Vec2 F
deriving DecidableEq, Repr

/-- `enum PowerUpEffectStatus`, in the order of its enumerators. -/
inductive PowerUpEffectStatus where
  | idle
  | activate
  | activated
  | deactivate
  | deactivated
deriving DecidableEq, Repr

structure PowerUpEffect (F : Type) where
  type : PowerUpType
  ttl : F
  status : PowerUpEffectStatus
deriving DecidableEq, Repr

structure GameLevelConfig (F : Type) where
  tileMap : TileMap F
  width : Nat
  height : Nat
  playerConfig : PlayerConfig F
  ballConfig : BallConfig F
  shakeEffectConfig : ShakeEffectConfig F
  powerUpConfigs : List (PowerUpConfig F)
  background : Sprite
  blockSolid : Sprite
  blockDestroyable : Sprite
  spriteShader : Nat
  particleShader : Nat
  postProcessorShader : Nat
deriving DecidableEq, Repr

/-- `struct GameLevelMap` without the projection matrix of the renderer. -/
structure GameLevelMap (F : Type) where
  width : Nat
  height : Nat
  bricks : List (GameObject F)
  background : Sprite
deriving DecidableEq, Repr

structure GameLevel (F : Type) where
  config : GameLevelConfig F
  map : GameLevelMap F
  player : PlayerObject F
  ball : BallObject F
  postProcessor : PostProcessor
  shakeEffect : ShakeEffect F
  powerUps : List (PowerUpObject F)
  powerUpEffects : List (PowerUpEffect F)
deriving DecidableEq, Repr

/-- The state of `rand()`: the stream of numbers the next calls return. -/
abbrev Rand := Nat → Nat

/-- One call of `rand()`: the value returned and the state left. -/
def rand (s : Rand) : Nat × Rand := (s 0, fun n => s (n + 1))

section Operations

variable {F : Type} [LinearOrderedField F]

/-! ## Level construction -/

def createPowerUp (powerUpConfig : PowerUpConfig F) (position : Vec2 F) : PowerUpObject F :=
  { type := powerUpConfig.type
    velocity := powerUpConfig.velocity
    position := position
    size := powerUpConfig.size
    rotation := 0
    color := powerUpConfig.color
    bodyType := GameObjectBodyType.destroyable
    status := GameObjectStatus.alive
    sprite := powerUpConfig.sprite }

def createPowerUpEffect (powerUpConfig : PowerUpConfig F) : PowerUpEffect F :=
  { type := powerUpConfig.type
    ttl := powerUpConfig.ttl
    status := PowerUpEffectStatus.activate }

/-- The three post-process flags as `createPostProcessor` initialises them. -/
def createPostProcessor : PostProcessor :=
  { confuse := false, chaos := false, shake := false }

/-- Tile of a tile code.  For a code above 5 the source leaves the colour of
the default-initialised `Tile` unassigned; `indeterminate` is the value it
happens to hold. -/
def createTile (indeterminate : Vec3 F) (tileData : Nat) : Tile F :=
  if tileData = 1 then
    { type := TileType.solid, color := ⟨4 / 5, 4 / 5, 7 / 10⟩ }
  else if tileData > 1 then
    { type := TileType.destroyable
      color :=
        if tileData = 2 then ⟨1 / 5, 3 / 5, 1⟩
        else if tileData = 3 then ⟨0, 7 / 10, 0⟩
        else if tileData = 4 then ⟨4 / 5, 4 / 5, 2 / 5⟩
        else if tileData = 5 then ⟨1, 1 / 2, 0⟩
        else indeterminate }
  else
    { type := TileType.empty, color := ⟨1, 1, 1⟩ }

/-- The inner loop of `createTileMap` from column `x` on; `indeterminate x` is
the unassigned colour of the tile made for column `x`. -/
def createTileMapRow (indeterminate : Nat → Vec3 F) : Nat → List Nat → List (Tile F)
  | _, [] => []
  | x, tileColumn :: tileRow =>
    createTile (indeterminate x) tileColumn :: createTileMapRow indeterminate (x + 1) tileRow

/-- The outer loop of `createTileMap` from row `y` on. -/
def createTileMapRows (indeterminate : Nat → Nat → Vec3 F) :
    Nat → List (List Nat) → List (List (Tile F))
  | _, [] => []
  | y, tileRow :: tileData =>
    createTileMapRow (indeterminate y) 0 tileRow
      :: createTileMapRows indeterminate (y + 1) tileData

def createTileMap (indeterminate : Nat → Nat → Vec3 F) (tileData : List (List Nat)) :
    TileMap F :=
  { grid := createTileMapRows indeterminate 0 tileData }

/-- The inner loop of `createGameLevelMap` from column `x` on: the bricks of
the rest `row` of tile row `y`, in column order. -/
def createRowBricks (gameLevelConfig : GameLevelConfig F) (size : Vec2 F) (y : Nat) :
    Nat → List (Tile F) → List (GameObject F)
  | _, [] => []
  | x, tile :: row =>
    let position : Vec2 F := size.mul ⟨(x : F), (y : F)⟩
    let rest := createRowBricks gameLevelConfig size y (x + 1) row
    if tile.type = TileType.solid then
      { position := position, size := size, rotation := 0, color := tile.color,
        bodyType := GameObjectBodyType.solid, status := GameObjectStatus.alive,
        sprite := gameLevelConfig.blockSolid } :: rest
    else if tile.type = TileType.destroyable then
      { position := position, size := size, rotation := 0, color := tile.color,
        bodyType := GameObjectBodyType.destroyable, status := GameObjectStatus.alive,
        sprite := gameLevelConfig.blockDestroyable } :: rest
    else rest

/-- The outer loop of `createGameLevelMap` from row `y` on. -/
def createGridBricks (gameLevelConfig : GameLevelConfig F) (size : Vec2 F) :
    Nat → List (List (Tile F)) → List (GameObject F)
  | _, [] => []
  | y, row :: rows =>
    createRowBricks gameLevelConfig size y 0 row
      ++ createGridBricks gameLevelConfig size (y + 1) rows

/-- Brick layout of a level.  `grid[0]` of an empty grid is outside the vector
in the source; the embedding takes the column count to be 0 there (the loops
do not run on an empty grid). -/
def createGameLevelMap (gameLevelConfig : GameLevelConfig F) : GameLevelMap F :=
  let width : Nat := (gameLevelConfig.tileMap.grid.head?.map List.length).getD 0
  let height : Nat := gameLevelConfig.tileMap.grid.length
  let blockWidth : F := (gameLevelConfig.width : F) / (width : F)
  let blockHeight : F := ((gameLevelConfig.height : F) / 2) / (height : F)
  { width := gameLevelConfig.width
    height := gameLevelConfig.height
    background := gameLevelConfig.background
    bricks := createGridBricks gameLevelConfig ⟨blockWidth, blockHeight⟩ 0
      gameLevelConfig.tileMap.grid }

/-- The ball of a fresh level.  The source never assigns `collisionType` of
the default-initialised `BallObject`; `indeterminate` is the value the member
happens to hold. -/
def createBallObject (indeterminate : BallObjectCollisionType) (_gameLevelMap : GameLevelMap F)
    (ballConfig : BallConfig F) (playerObject : PlayerObject F) : BallObject F :=
  { particles := List.replicate ballConfig.particleCount
      { position := Vec2.splat 0, velocity := Vec2.splat 0, color := ⟨0, 0, 0, 0⟩, life := 0 }
    particleModel := ballConfig.particleModel
    speed := ballConfig.speed
    surfaceType := BallObjectSurfaceType.sticky
    collisionType := indeterminate
    radius := ballConfig.radius
    velocity := Vec2.splat 0
    size := Vec2.splat (ballConfig.radius * 2)
    position := playerObject.position.add
      ⟨playerObject.size.x / 2 - ballConfig.radius, -ballConfig.radius * 2⟩
    rotation := 0
    color := ballConfig.color
    bodyType := GameObjectBodyType.solid
    status := GameObjectStatus.alive
    sprite := ballConfig.sprite }

def createPlayerObject (gameLevelMap : GameLevelMap F) (playerConfig : PlayerConfig F) :
    PlayerObject F :=
  { velocity := playerConfig.velocity
    position := ⟨max ((gameLevelMap.width : F) / 2 - playerConfig.size.x / 2) 0,
      (gameLevelMap.height : F) - playerConfig.size.y⟩
    size := playerConfig.size
    rotation := 0
    color := playerConfig.color
    bodyType := GameObjectBodyType.solid
    status := GameObjectStatus.alive
    sprite := playerConfig.sprite }

/-- A fresh level.  The initialiser of the source names no `powerUpEffects`,
which leaves that vector empty. -/
def createGameLevel (indeterminate : BallObjectCollisionType) (config : GameLevelConfig F) :
    GameLevel F :=
  let gameLevelMap := createGameLevelMap config
  let playerObject := createPlayerObject gameLevelMap config.playerConfig
  let ballObject := createBallObject indeterminate gameLevelMap config.ballConfig playerObject
  { map := gameLevelMap
    player := playerObject
    ball := ballObject
    config := config
    postProcessor := createPostProcessor
    shakeEffect := { ttl := 0 }
    powerUps := []
    powerUpEffects := [] }

/-! ## Collision engine -/

def gameObjectToAabbCollisionBox (gameObject : GameObject F) : AabbCollisionBox F :=
  { topLeft := gameObject.position
    bottomRight := gameObject.position.add gameObject.size }

def ballObjectToAabbCollisionCircle (ballObject : BallObject F) : AabbCollisionCircle F :=
  { radius := ballObject.radius
    center := ballObject.position.add (Vec2.splat ballObject.radius) }

/-- The table of `directionFromTarget`, in the order the loop visits it. -/
def directionByPositions : List (Direction × Vec2 F) :=
  [(Direction.up, ⟨0, 1⟩), (Direction.right, ⟨1, 0⟩),
   (Direction.down, ⟨0, -1⟩), (Direction.left, ⟨-1, 0⟩)]

/-- The loop of `directionFromTarget` over the table, from `max = 0` and
`bestMatch = up`. -/
def bestMatchLoop (normalized : Vec2 F) : Direction :=
  (directionByPositions.foldl
    (fun (acc : F × Direction) (directionByPosition : Direction × Vec2 F) =>
      let scale := dot normalized directionByPosition.2
      if scale > acc.1 then (scale, directionByPosition.1) else acc)
    ((0 : F), Direction.up)).2

def directionFromTarget (sqrt : F → F) (target : Vec2 F) : Direction :=
  bestMatchLoop (normalize sqrt target)

/-- The closest point of `box` to the centre of `circle`, as
`checkCircleToBoxCollision` computes it. -/
def closestPoint (circle : AabbCollisionCircle F) (box : AabbCollisionBox F) : Vec2 F :=
  let halfExtent := (box.bottomRight.sub box.topLeft).divs 2
  let center := box.topLeft.add halfExtent
  center.add (clamp (circle.center.sub center) halfExtent.neg halfExtent)

def checkCircleToBoxCollision (sqrt : F → F) (circle : AabbCollisionCircle F)
    (box : AabbCollisionBox F) : Option (Collision F) :=
  let closest := closestPoint circle box
  let difference := closest.sub circle.center
  if length sqrt difference > circle.radius then none
  else some { direction := directionFromTarget sqrt difference, difference := difference }

def checkBoxToBoxCollision (sqrt : F → F) (boxA boxB : AabbCollisionBox F) :
    Option (Collision F) :=
  let collisionX : Bool :=
    boxB.topLeft.x ≤ boxA.bottomRight.x && boxA.topLeft.x ≤ boxB.bottomRight.x
  let collisionY : Bool :=
    boxB.topLeft.y ≤ boxA.bottomRight.y && boxA.topLeft.y ≤ boxB.bottomRight.y
  if collisionX && collisionY then
    let difference := (boxA.topLeft.add boxA.bottomRight).sub (boxB.topLeft.add boxB.bottomRight)
    some { direction := directionFromTarget sqrt difference, difference := difference }
  else none

/-! ## Ball motion -/

/-- Ball motion and the boundary chain.  `dt` is `renderState.deltaTime`;
`indeterminate` is handed on to `createGameLevel`. -/
def handleBallObjectMovement (indeterminate : BallObjectCollisionType) (dt : F)
    (gameLevel : GameLevel F) : GameLevel F :=
  let position := gameLevel.ball.position.add (Vec2.smul dt gameLevel.ball.velocity)
  let ball : BallObject F := { gameLevel.ball with position := position }
  if position.x ≤ 0 then
    { gameLevel with
      ball := { ball with
        velocity := ⟨ball.velocity.x * -1, ball.velocity.y⟩
        position := ⟨0, position.y⟩ } }
  else if position.x + ball.size.x ≥ (gameLevel.map.width : F) then
    { gameLevel with
      ball := { ball with
        velocity := ⟨ball.velocity.x * -1, ball.velocity.y⟩
        position := ⟨(gameLevel.map.width : F) - ball.size.x, position.y⟩ } }
  else if position.y ≤ 0 then
    { gameLevel with
      ball := { ball with
        velocity := ⟨ball.velocity.x, ball.velocity.y * -1⟩
        position := ⟨position.x, 0⟩ } }
  else if position.y + ball.size.y ≥ (gameLevel.map.height : F) then
    createGameLevel indeterminate gameLevel.config
  else
    { gameLevel with ball := ball }

/-! ## Particle trail -/

def respawnBallObjectParticle (ballObject : BallObject F) (particle : ParticleObject F)
    (s : Rand) : ParticleObject F × Rand :=
  let offset : Vec2 F := Vec2.splat (ballObject.radius / 2)
  let r1 := rand s
  let random : F := (((r1.1 % 100 : Nat) : Int) - 50 : Int) / 10
  let r2 := rand r1.2
  let rColor : F := 1 / 2 + ((r2.1 % 100 : Nat) : F) / 100
  ({ particle with
      position := (ballObject.position.adds random).add offset
      color := ⟨rColor, rColor, rColor, 1⟩
      life := 1
      velocity := ballObject.velocity.muls (1 / 10) }, r2.2)

/-- The inner loop of the respawn phase of `handleBallObjectParticles`: the
first particle with `life ≤ 0` is respawned and the loop is left. -/
def respawnFirstDead (ballObject : BallObject F) :
    List (ParticleObject F) → Rand → List (ParticleObject F) × Rand
  | [], s => ([], s)
  | particle :: rest, s =>
    if particle.life ≤ 0 then
      let r := respawnBallObjectParticle ballObject particle s
      (r.1 :: rest, r.2)
    else
      let r := respawnFirstDead ballObject rest s
      (particle :: r.1, r.2)

/-- The outer loop of the respawn phase, `count` rounds (2 in the source). -/
def respawnRounds (ballObject : BallObject F) :
    Nat → List (ParticleObject F) → Rand → List (ParticleObject F) × Rand
  | 0, particles, s => (particles, s)
  | count + 1, particles, s =>
    let r := respawnFirstDead ballObject particles s
    respawnRounds ballObject count r.1 r.2

/-- The body of the ageing loop of `handleBallObjectParticles`. -/
def ageParticle (dt : F) (particle : ParticleObject F) : ParticleObject F :=
  let life := particle.life - dt
  if life > 0 then
    { particle with
      life := life
      position := particle.position.sub (particle.velocity.muls dt)
      color := { particle.color with a := particle.color.a - dt * (5 / 2) } }
  else
    { particle with life := life }

def handleBallObjectParticles (dt : F) (gameLevel : GameLevel F) (s : Rand) :
    GameLevel F × Rand :=
  let r := respawnRounds gameLevel.ball 2 gameLevel.ball.particles s
  ({ gameLevel with ball := { gameLevel.ball with particles := r.1.map (ageParticle dt) } }, r.2)

/-! ## Power-ups -/

/-- Spawn of one power-up.  `rand() % chance` is the remainder of truncated
division; for `chance = 0`, where the source divides by zero, the embedding
takes the remainder to be the dividend. -/
def spawnPowerUp (config : PowerUpConfig F) (position : Vec2 F) (gameLevel : GameLevel F)
    (s : Rand) : GameLevel F × Rand :=
  let r := rand s
  if Int.tmod (r.1 : Int) config.chance = 0 then
    ({ gameLevel with powerUps := gameLevel.powerUps ++ [createPowerUp config position] }, r.2)
  else
    (gameLevel, r.2)

/-- The loop of `spawnPowerUps` over the rest `configs` of the configured power-ups. -/
def spawnPowerUpsLoop (position : Vec2 F) :
    List (PowerUpConfig F) → GameLevel F → Rand → GameLevel F × Rand
  | [], gameLevel, s => (gameLevel, s)
  | config :: configs, gameLevel, s =>
    let r := spawnPowerUp config position gameLevel s
    spawnPowerUpsLoop position configs r.1 r.2

def spawnPowerUps (position : Vec2 F) (gameLevel : GameLevel F) (s : Rand) :
    GameLevel F × Rand :=
  spawnPowerUpsLoop position gameLevel.config.powerUpConfigs gameLevel s

def activatePowerUp (powerUp : PowerUpEffect F) (gameLevel : GameLevel F) : GameLevel F :=
  match powerUp.type with
  | PowerUpType.speed =>
    { gameLevel with
      player := { gameLevel.player with velocity := gameLevel.player.velocity * (6 / 5) } }
  | PowerUpType.sticky =>
    { gameLevel with
      ball := { gameLevel.ball with
        surfaceType := BallObjectSurfaceType.sticky
        color := ⟨1, 1 / 2, 1⟩ } }
  | PowerUpType.passThrough =>
    { gameLevel with
      ball := { gameLevel.ball with
        collisionType := BallObjectCollisionType.passThrough
        color := ⟨1, 1 / 2, 1 / 2⟩ } }
  | PowerUpType.paddleSizeUp =>
    { gameLevel with
      player := { gameLevel.player with
        size := ⟨gameLevel.player.size.x + 50, gameLevel.player.size.y⟩ } }
  | PowerUpType.confusion =>
    { gameLevel with postProcessor := { gameLevel.postProcessor with confuse := true } }
  | PowerUpType.chaos =>
    { gameLevel with postProcessor := { gameLevel.postProcessor with chaos := true } }

def deactivatePowerUp (powerUp : PowerUpEffect F) (gameLevel : GameLevel F) : GameLevel F :=
  match powerUp.type with
  | PowerUpType.speed =>
    { gameLevel with
      player := { gameLevel.player with velocity := gameLevel.config.playerConfig.velocity } }
  | PowerUpType.sticky =>
    { gameLevel with
      ball := { gameLevel.ball with
        surfaceType := BallObjectSurfaceType.reflect
        color := gameLevel.config.ballConfig.color } }
  | PowerUpType.passThrough =>
    { gameLevel with
      ball := { gameLevel.ball with
        collisionType := BallObjectCollisionType.default
        color := gameLevel.config.ballConfig.color } }
  | PowerUpType.paddleSizeUp =>
    { gameLevel with
      player := { gameLevel.player with size := gameLevel.config.playerConfig.size } }
  | PowerUpType.confusion =>
    { gameLevel with postProcessor := { gameLevel.postProcessor with confuse := false } }
  | PowerUpType.chaos =>
    { gameLevel with postProcessor := { gameLevel.postProcessor with chaos := false } }

/-! ## Brick and paddle collision -/

/-- The response block of `handleGameLevelBrickCollision` (the two branches
on `collision.direction`): the velocity component across the hit face is
negated and the ball is moved by the penetration depth. -/
def brickCollisionResponse (collision : Collision F) (ball : BallObject F) : BallObject F :=
  if collision.direction = Direction.left ∨ collision.direction = Direction.right then
    let penetration := ball.radius - |collision.difference.x|
    { ball with
      velocity := ⟨ball.velocity.x * -1, ball.velocity.y⟩
      position :=
        if collision.direction = Direction.left then
          ⟨ball.position.x + penetration, ball.position.y⟩
        else
          ⟨ball.position.x - penetration, ball.position.y⟩ }
  else if collision.direction = Direction.up ∨ collision.direction = Direction.down then
    let penetration := ball.radius - |collision.difference.y|
    { ball with
      velocity := ⟨ball.velocity.x, ball.velocity.y * -1⟩
      position :=
        if collision.direction = Direction.up then
          ⟨ball.position.x, ball.position.y - penetration⟩
        else
          ⟨ball.position.x, ball.position.y + penetration⟩ }
  else ball

/-- The body of the loop of `handleGameLevelBrickCollision` for one brick:
the brick, the level and the random state it leaves.  `ballCollisionCircle`
is the circle computed before the loop. -/
def brickCollisionBody (sqrt : F → F) (ballCollisionCircle : AabbCollisionCircle F)
    (brick : GameObject F) (gameLevel : GameLevel F) (s : Rand) :
    GameObject F × GameLevel F × Rand :=
  if brick.status ≠ GameObjectStatus.alive then (brick, gameLevel, s)
  else
    match checkCircleToBoxCollision sqrt ballCollisionCircle
        (gameObjectToAabbCollisionBox brick) with
    | none => (brick, gameLevel, s)
    | some collision =>
      if brick.bodyType = GameObjectBodyType.destroyable then
        let r := spawnPowerUps brick.position gameLevel s
        ({ brick with status := GameObjectStatus.destroyed },
          { r.1 with ball := brickCollisionResponse collision r.1.ball }, r.2)
      else if brick.bodyType = GameObjectBodyType.solid then
        if gameLevel.ball.collisionType = BallObjectCollisionType.passThrough then
          (brick, gameLevel, s)
        else
          (brick,
            { gameLevel with
              shakeEffect := { gameLevel.shakeEffect with
                ttl := gameLevel.config.shakeEffectConfig.duration }
              ball := brickCollisionResponse collision gameLevel.ball }, s)
      else
        (brick, { gameLevel with ball := brickCollisionResponse collision gameLevel.ball }, s)

/-- The loop of `handleGameLevelBrickCollision` over the rest `bricks` of the
brick list. -/
def brickCollisionLoop (sqrt : F → F) (ballCollisionCircle : AabbCollisionCircle F) :
    List (GameObject F) → GameLevel F → Rand → List (GameObject F) × GameLevel F × Rand
  | [], gameLevel, s => ([], gameLevel, s)
  | brick :: bricks, gameLevel, s =>
    let r := brickCollisionBody sqrt ballCollisionCircle brick gameLevel s
    let rs := brickCollisionLoop sqrt ballCollisionCircle bricks r.2.1 r.2.2
    (r.1 :: rs.1, rs.2.1, rs.2.2)

def handleGameLevelBrickCollision (sqrt : F → F) (gameLevel : GameLevel F) (s : Rand) :
    GameLevel F × Rand :=
  let ballCollisionCircle := ballObjectToAabbCollisionCircle gameLevel.ball
  let r := brickCollisionLoop sqrt ballCollisionCircle gameLevel.map.bricks gameLevel s
  ({ r.2.1 with map := { r.2.1.map with bricks := r.1 } }, r.2.2)

/-- Paddle collision.  The unqualified `abs` of the source is the absolute
value of a `float`. -/
def handleGameLevelPlayerCollision (sqrt : F → F) (gameLevel : GameLevel F) : GameLevel F :=
  match checkCircleToBoxCollision sqrt (ballObjectToAabbCollisionCircle gameLevel.ball)
      (gameObjectToAabbCollisionBox gameLevel.player.toGameObject) with
  | none => gameLevel
  | some collision =>
    let position : Vec2 F :=
      if collision.direction = Direction.up then
        ⟨gameLevel.ball.position.x, gameLevel.player.position.y - gameLevel.ball.size.y⟩
      else if collision.direction = Direction.down then
        ⟨gameLevel.ball.position.x, gameLevel.player.position.y + gameLevel.player.size.y⟩
      else if collision.direction = Direction.left then
        ⟨gameLevel.player.position.x - gameLevel.ball.size.x, gameLevel.ball.position.y⟩
      else if collision.direction = Direction.right then
        ⟨gameLevel.player.position.x + gameLevel.player.size.x, gameLevel.ball.position.y⟩
      else gameLevel.ball.position
    let ball : BallObject F := { gameLevel.ball with position := position }
    if ball.surfaceType = BallObjectSurfaceType.sticky then
      { gameLevel with ball := { ball with velocity := Vec2.splat 0 } }
    else
      let half := gameLevel.player.size.divs 2
      let center := gameLevel.player.position.add half
      let distance := (ball.position.x + ball.radius) - center.x
      let percentage := distance / half.x
      let strength : F := 2
      let velocity := ball.velocity
      let redirected : Vec2 F := ⟨ball.speed * percentage * strength, ball.velocity.y⟩
      let rescaled := (normalize sqrt redirected).muls (length sqrt velocity)
      { gameLevel with ball := { ball with velocity := ⟨rescaled.x, -1 * |rescaled.y|⟩ } }

/-! ## Power-up effects -/

/-- The loop of `handleUpdatePowerUpEffect` over the rest `effects` of the
effect list: the effects kept and the level left. -/
def handleUpdatePowerUpEffectLoop (dt : F) :
    List (PowerUpEffect F) → GameLevel F → List (PowerUpEffect F) × GameLevel F
  | [], gameLevel => ([], gameLevel)
  | powerUpEffect :: effects, gameLevel =>
    if powerUpEffect.status = PowerUpEffectStatus.deactivated then
      handleUpdatePowerUpEffectLoop dt effects gameLevel
    else
      let aged : PowerUpEffect F := { powerUpEffect with ttl := max (powerUpEffect.ttl - dt) 0 }
      if aged.status = PowerUpEffectStatus.activated ∧ aged.ttl ≤ 0 then
        let r := handleUpdatePowerUpEffectLoop dt effects gameLevel
        ({ aged with status := PowerUpEffectStatus.deactivate } :: r.1, r.2)
      else if aged.status = PowerUpEffectStatus.activate then
        let r := handleUpdatePowerUpEffectLoop dt effects (activatePowerUp aged gameLevel)
        ({ aged with status := PowerUpEffectStatus.activated } :: r.1, r.2)
      else if aged.status = PowerUpEffectStatus.deactivate then
        let r := handleUpdatePowerUpEffectLoop dt effects (deactivatePowerUp aged gameLevel)
        ({ aged with status := PowerUpEffectStatus.deactivated } :: r.1, r.2)
      else
        let r := handleUpdatePowerUpEffectLoop dt effects gameLevel
        (aged :: r.1, r.2)

def handleUpdatePowerUpEffect (dt : F) (gameLevel : GameLevel F) : GameLevel F :=
  let r := handleUpdatePowerUpEffectLoop dt gameLevel.powerUpEffects gameLevel
  { r.2 with powerUpEffects := r.1 }

/-! ## Paddle motion and input -/

def movePlayerObject (sqrt : F → F) (gameLevel : GameLevel F) (travel : F) : GameLevel F :=
  let x := gameLevel.player.position.x
  let maxX := max 0 ((gameLevel.map.width : F) - gameLevel.player.size.x)
  let moved : GameLevel F :=
    { gameLevel with
      player := { gameLevel.player with
        position := ⟨stdClamp (x + travel) 0 maxX, gameLevel.player.position.y⟩ } }
  if moved.ball.surfaceType ≠ BallObjectSurfaceType.sticky then moved
  else
    match checkCircleToBoxCollision sqrt (ballObjectToAabbCollisionCircle moved.ball)
        (gameObjectToAabbCollisionBox moved.player.toGameObject) with
    | none => moved
    | some _ =>
      let xdiff := moved.player.position.x - x
      { moved with
        ball := { moved.ball with
          position := ⟨moved.ball.position.x + xdiff, moved.ball.position.y⟩ } }

/-- Input handling.  `keyA`, `keyD` and `keySpace` tell whether the key is
pressed in this frame. -/
def handlePlayerInput (sqrt : F → F) (keyA keyD keySpace : Bool) (dt : F)
    (gameLevel : GameLevel F) : GameLevel F :=
  let travel := gameLevel.player.velocity * dt
  let afterA := if keyA then movePlayerObject sqrt gameLevel (travel * -1) else gameLevel
  let afterD := if keyD then movePlayerObject sqrt afterA travel else afterA
  if keySpace then
    if afterD.ball.surfaceType = BallObjectSurfaceType.sticky then
      match checkCircleToBoxCollision sqrt (ballObjectToAabbCollisionCircle afterD.ball)
          (gameObjectToAabbCollisionBox afterD.player.toGameObject) with
      | some _ =>
        { afterD with
          ball := { afterD.ball with
            surfaceType := BallObjectSurfaceType.reflect
            velocity := Vec2.smul afterD.ball.speed (normalize sqrt (Vec2.splat 1)) } }
      | none => afterD
    else afterD
  else afterD

/-! ## Falling power-ups -/

/-- The inner loop of `handleUpdatePowerUpObject`: an effect is enqueued for
every configured power-up of the type picked up. -/
def enqueuePowerUpEffects (type : PowerUpType) :
    List (PowerUpConfig F) → List (PowerUpEffect F) → List (PowerUpEffect F)
  | [], effects => effects
  | config :: configs, effects =>
    if config.type ≠ type then enqueuePowerUpEffects type configs effects
    else enqueuePowerUpEffects type configs (effects ++ [createPowerUpEffect config])

/-- The loop of `handleUpdatePowerUpObject` over the rest `powerUps` of the
power-up list: the power-ups kept and the effect list left. -/
def handleUpdatePowerUpObjectLoop (sqrt : F → F) (dt : F) (gameLevel : GameLevel F)
    (playerCollisionBox : AabbCollisionBox F) :
    List (PowerUpObject F) → List (PowerUpEffect F) →
      List (PowerUpObject F) × List (PowerUpEffect F)
  | [], effects => ([], effects)
  | powerUp :: powerUps, effects =>
    let moved : PowerUpObject F :=
      { powerUp with position := powerUp.position.add (Vec2.smul dt powerUp.velocity) }
    if moved.position.y + moved.size.y ≥ (gameLevel.map.height : F) then
      handleUpdatePowerUpObjectLoop sqrt dt gameLevel playerCollisionBox powerUps effects
    else
      match checkBoxToBoxCollision sqrt (gameObjectToAabbCollisionBox moved.toGameObject)
          playerCollisionBox with
      | some _ =>
        handleUpdatePowerUpObjectLoop sqrt dt gameLevel playerCollisionBox powerUps
          (enqueuePowerUpEffects moved.type gameLevel.config.powerUpConfigs effects)
      | none =>
        let r := handleUpdatePowerUpObjectLoop sqrt dt gameLevel playerCollisionBox
          powerUps effects
        (moved :: r.1, r.2)

def handleUpdatePowerUpObject (sqrt : F → F) (dt : F) (gameLevel : GameLevel F) : GameLevel F :=
  let playerCollisionBox := gameObjectToAabbCollisionBox gameLevel.player.toGameObject
  let r := handleUpdatePowerUpObjectLoop sqrt dt gameLevel playerCollisionBox
    gameLevel.powerUps gameLevel.powerUpEffects
  { gameLevel with powerUps := r.1, powerUpEffects := r.2 }

/-! ## Frame -/

def handleShakeEffect (dt : F) (gameLevel : GameLevel F) : GameLevel F :=
  { gameLevel with
    postProcessor := { gameLevel.postProcessor with
      shake := decide (gameLevel.shakeEffect.ttl > 0) }
    shakeEffect := { gameLevel.shakeEffect with ttl := max (gameLevel.shakeEffect.ttl - dt) 0 } }

def handleGameLevelCollision (sqrt : F → F) (gameLevel : GameLevel F) (s : Rand) :
    GameLevel F × Rand :=
  let r := handleGameLevelBrickCollision sqrt gameLevel s
  (handleGameLevelPlayerCollision sqrt r.1, r.2)

/-- One frame of a level: `dt` is the frame delta, the three booleans are the
keys pressed, `s` is the state of `rand()`. -/
def updateGameLevel (sqrt : F → F) (indeterminate : BallObjectCollisionType)
    (keyA keyD keySpace : Bool) (dt : F) (gameLevel : GameLevel F) (s : Rand) :
    GameLevel F × Rand :=
  let afterInput := handlePlayerInput sqrt keyA keyD keySpace dt gameLevel
  let afterMovement := handleBallObjectMovement indeterminate dt afterInput
  let afterCollision := handleGameLevelCollision sqrt afterMovement s
  let afterParticles := handleBallObjectParticles dt afterCollision.1 afterCollision.2
  let afterPowerUps := handleUpdatePowerUpObject sqrt dt afterParticles.1
  let afterEffects := handleUpdatePowerUpEffect dt afterPowerUps
  (handleShakeEffect dt afterEffects, afterParticles.2)

end Operations

/-! ## Specification vocabulary -/

section Vocabulary

variable {F : Type} [LinearOrderedField F]

/-- The number `r` is the non-negative square root of `s`. -/
def IsSqrtOf (s r : F) : Prop := 0 ≤ r ∧ r * r = s

/-- Squared Euclidean distance between two points. -/
def distSq (a b : Vec2 F) : F := dot (b.sub a) (b.sub a)

/-- The point `p` lies in the closed box. -/
def inBox (box : AabbCollisionBox F) (p : Vec2 F) : Prop :=
  box.topLeft.x ≤ p.x ∧ p.x ≤ box.bottomRight.x ∧ box.topLeft.y ≤ p.y ∧ p.y ≤ box.bottomRight.y

/-- Unit axis of a cardinal direction, as in the table of `directionFromTarget`. -/
def axisOf : Direction → Vec2 F
  | Direction.up => ⟨0, 1⟩
  | Direction.right => ⟨1, 0⟩
  | Direction.down => ⟨0, -1⟩
  | Direction.left => ⟨-1, 0⟩

/-- Each component of `w` is the matching component of `v` or its negation. -/
def SameUpToSign (v w : Vec2 F) : Prop :=
  (w.x = v.x ∨ w.x = -v.x) ∧ (w.y = v.y ∨ w.y = -v.y)

/-- The guard of the last branch of `handleBallObjectMovement`: after the
position update no wall condition holds and the bottom edge of the ball has
reached the level height, so the level is recreated. -/
def reachesBottom (dt : F) (gameLevel : GameLevel F) : Prop :=
  ¬ (gameLevel.ball.position.x + dt * gameLevel.ball.velocity.x ≤ 0) ∧
  ¬ (gameLevel.ball.position.x + dt * gameLevel.ball.velocity.x + gameLevel.ball.size.x
      ≥ (gameLevel.map.width : F)) ∧
  ¬ (gameLevel.ball.position.y + dt * gameLevel.ball.velocity.y ≤ 0) ∧
  gameLevel.ball.position.y + dt * gameLevel.ball.velocity.y + gameLevel.ball.size.y
    ≥ (gameLevel.map.height : F)

/-- The ball position `handleGameLevelPlayerCollision` sets before it deals
with the velocity: flush against the paddle edge the collision is classified
for. -/
def paddleRepositioned (gameLevel : GameLevel F) (collision : Collision F) : Vec2 F :=
  if collision.direction = Direction.up then
    ⟨gameLevel.ball.position.x, gameLevel.player.position.y - gameLevel.ball.size.y⟩
  else if collision.direction = Direction.down then
    ⟨gameLevel.ball.position.x, gameLevel.player.position.y + gameLevel.player.size.y⟩
  else if collision.direction = Direction.left then
    ⟨gameLevel.player.position.x - gameLevel.ball.size.x, gameLevel.ball.position.y⟩
  else
    ⟨gameLevel.player.position.x + gameLevel.player.size.x, gameLevel.ball.position.y⟩

/-- The `percentage` of a paddle bounce: (ball centre x - paddle centre x) /
(paddle width / 2), the ball centre being that of the repositioned ball. -/
def paddlePercentage (gameLevel : GameLevel F) (collision : Collision F) : F :=
  (((paddleRepositioned gameLevel collision).x + gameLevel.ball.radius)
      - (gameLevel.player.position.x + gameLevel.player.size.x / 2))
    / (gameLevel.player.size.x / 2)

/-- The intermediate vector of a paddle bounce,
(speed * percentage * 2.0, velocity.y). -/
def paddleRedirected (gameLevel : GameLevel F) (collision : Collision F) : Vec2 F :=
  ⟨gameLevel.ball.speed * paddlePercentage gameLevel collision * 2, gameLevel.ball.velocity.y⟩

/-- The two calls `handleUpdatePowerUpEffect` makes for an effect. -/
inductive PowerUpCall where
  | activate
  | deactivate
deriving DecidableEq, Repr

/-- The successor of a status in the order Activate, Activated, Deactivate,
Deactivated (the last one and Idle have none). -/
def nextStatus : PowerUpEffectStatus → Option PowerUpEffectStatus
  | PowerUpEffectStatus.activate => some PowerUpEffectStatus.activated
  | PowerUpEffectStatus.activated => some PowerUpEffectStatus.deactivate
  | PowerUpEffectStatus.deactivate => some PowerUpEffectStatus.deactivated
  | PowerUpEffectStatus.deactivated => none
  | PowerUpEffectStatus.idle => none

/-- What one pass of the loop body of `handleUpdatePowerUpEffect` does with a
single effect, read off the branches of the body: the effect it leaves in the
list (`none` when it erases it) and the call it makes for it. -/
def powerUpEffectStep (dt : F) (powerUpEffect : PowerUpEffect F) :
    Option (PowerUpEffect F) × Option PowerUpCall :=
  if powerUpEffect.status = PowerUpEffectStatus.deactivated then (none, none)
  else
    let aged : PowerUpEffect F := { powerUpEffect with ttl := max (powerUpEffect.ttl - dt) 0 }
    if aged.status = PowerUpEffectStatus.activated ∧ aged.ttl ≤ 0 then
      (some { aged with status := PowerUpEffectStatus.deactivate }, none)
    else if aged.status = PowerUpEffectStatus.activate then
      (some { aged with status := PowerUpEffectStatus.activated }, some PowerUpCall.activate)
    else if aged.status = PowerUpEffectStatus.deactivate then
      (some { aged with status := PowerUpEffectStatus.deactivated }, some PowerUpCall.deactivate)
    else (some aged, none)

/-- The level after the call the loop body makes for an effect (the effect is
passed with its time-to-live already aged by `dt`). -/
def applyPowerUpCall (dt : F) (powerUpEffect : PowerUpEffect F) (gameLevel : GameLevel F) :
    Option PowerUpCall → GameLevel F
  | none => gameLevel
  | some PowerUpCall.activate =>
    activatePowerUp { powerUpEffect with ttl := max (powerUpEffect.ttl - dt) 0 } gameLevel
  | some PowerUpCall.deactivate =>
    deactivatePowerUp { powerUpEffect with ttl := max (powerUpEffect.ttl - dt) 0 } gameLevel

/-- The history of one effect over successive frames with the deltas `dts`:
the effect left at the end (`none` once it is erased) and the calls made for
it, in order. -/
def powerUpEffectRun : List F → PowerUpEffect F → Option (PowerUpEffect F) × List PowerUpCall
  | [], powerUpEffect => (some powerUpEffect, [])
  | dt :: dts, powerUpEffect =>
    match (powerUpEffectStep dt powerUpEffect).1 with
    | none => (none, [])
    | some next =>
      ((powerUpEffectRun dts next).1,
        (powerUpEffectStep dt powerUpEffect).2.toList ++ (powerUpEffectRun dts next).2)

/-- The calls still due for an effect of a given status. -/
def remainingCalls : PowerUpEffectStatus → List PowerUpCall
  | PowerUpEffectStatus.activate => [PowerUpCall.activate, PowerUpCall.deactivate]
  | PowerUpEffectStatus.activated => [PowerUpCall.deactivate]
  | PowerUpEffectStatus.deactivate => [PowerUpCall.deactivate]
  | PowerUpEffectStatus.deactivated => []
  | PowerUpEffectStatus.idle => []

/-- An effect whose countdown is over: Activated with no time left,
Deactivate or Deactivated. -/
def Expiring (powerUpEffect : PowerUpEffect F) : Prop :=
  (powerUpEffect.status = PowerUpEffectStatus.activated ∧ powerUpEffect.ttl ≤ 0) ∨
  powerUpEffect.status = PowerUpEffectStatus.deactivate ∨
  powerUpEffect.status = PowerUpEffectStatus.deactivated

/-- The brick the tile-to-brick mapping assigns to the tile code `code` of
grid cell (column `x`, row `y`): none for code 0, a Solid brick for code 1, a
Destroyable brick for every other code; Alive, of size (`bw`, `bh`), at
(`x * bw`, `y * bh`).  `indeterminate` is the colour of a tile whose code has
no colour assigned. -/
def specBrick (blockSolid blockDestroyable : Sprite) (indeterminate : Vec3 F) (bw bh : F)
    (y x code : Nat) : Option (GameObject F) :=
  if code = 0 then none
  else
    some
      { position := ⟨(x : F) * bw, (y : F) * bh⟩
        size := ⟨bw, bh⟩
        rotation := 0
        color := (createTile indeterminate code).color
        bodyType :=
          if code = 1 then GameObjectBodyType.solid else GameObjectBodyType.destroyable
        status := GameObjectStatus.alive
        sprite := if code = 1 then blockSolid else blockDestroyable }

/-- The bricks of a grid of tile codes, row by row and column by column. -/
def specBricks (blockSolid blockDestroyable : Sprite) (indeterminate : Nat → Nat → Vec3 F)
    (bw bh : F) (tileData : List (List Nat)) : List (GameObject F) :=
  (tileData.enumFrom 0).flatMap (fun row =>
    (row.2.enumFrom 0).filterMap (fun cell =>
      specBrick blockSolid blockDestroyable (indeterminate row.1 cell.1) bw bh
        row.1 cell.1 cell.2))

/-- A power-up after its fall in a frame: the position advanced by
`dt * velocity`. -/
def fallenPowerUp (dt : F) (powerUp : PowerUpObject F) : PowerUpObject F :=
  { powerUp with position := powerUp.position.add (Vec2.smul dt powerUp.velocity) }

/-- What becomes of a falling power-up in a frame. -/
inductive PowerUpOutcome where
  | lost
  | pickedUp
  | kept
deriving DecidableEq, Repr

/-- The outcome for one power-up: lost when its new bottom edge has reached
the level height; otherwise picked up when its new box overlaps the paddle box
according to `checkBoxToBoxCollision`; otherwise kept. -/
def powerUpOutcome (sqrt : F → F) (dt : F) (gameLevel : GameLevel F)
    (powerUp : PowerUpObject F) : PowerUpOutcome :=
  if (fallenPowerUp dt powerUp).position.y + (fallenPowerUp dt powerUp).size.y
      ≥ (gameLevel.map.height : F) then PowerUpOutcome.lost
  else if (checkBoxToBoxCollision sqrt
      (gameObjectToAabbCollisionBox (fallenPowerUp dt powerUp).toGameObject)
      (gameObjectToAabbCollisionBox gameLevel.player.toGameObject)).isSome
    then PowerUpOutcome.pickedUp
  else PowerUpOutcome.kept

/-- The effects appended for a power-up of type `type`: one for each
configured power-up entry of that type, in the order of the configuration. -/
def effectsOfType (configs : List (PowerUpConfig F)) (type : PowerUpType) :
    List (PowerUpEffect F) :=
  (configs.filter (fun config => decide (config.type = type))).map createPowerUpEffect

/-- A brick after the brick loop: an Alive Destroyable brick that the ball's
circle collides with is Destroyed, every other brick is as it was. -/
def brickAfterCollision (sqrt : F → F) (ballCollisionCircle : AabbCollisionCircle F)
    (brick : GameObject F) : GameObject F :=
  if brick.status = GameObjectStatus.alive ∧
      brick.bodyType = GameObjectBodyType.destroyable ∧
      (checkCircleToBoxCollision sqrt ballCollisionCircle
        (gameObjectToAabbCollisionBox brick)).isSome = true
  then { brick with status := GameObjectStatus.destroyed }
  else brick

/-- The attribute that power-ups of type `type` change is at its baseline:
the configured paddle velocity (Speed), a Reflect ball of the configured
colour (Sticky), a Default-mode ball of the configured colour (PassThrough),
the configured paddle size (PaddleSizeUp), the flag cleared (Confusion,
Chaos). -/
def atBaseline (type : PowerUpType) (gameLevel : GameLevel F) : Prop :=
  match type with
  | PowerUpType.speed => gameLevel.player.velocity = gameLevel.config.playerConfig.velocity
  | PowerUpType.sticky =>
    gameLevel.ball.surfaceType = BallObjectSurfaceType.reflect ∧
      gameLevel.ball.color = gameLevel.config.ballConfig.color
  | PowerUpType.passThrough =>
    gameLevel.ball.collisionType = BallObjectCollisionType.default ∧
      gameLevel.ball.color = gameLevel.config.ballConfig.color
  | PowerUpType.paddleSizeUp => gameLevel.player.size = gameLevel.config.playerConfig.size
  | PowerUpType.confusion => gameLevel.postProcessor.confuse = false
  | PowerUpType.chaos => gameLevel.postProcessor.chaos = false

/-- The respawn phase as the specification words it: one walk over the pool
in pool order that respawns the first `count` particles with `life ≤ 0` and
leaves every other particle as it is. -/
def respawnFirstDeadParticles (ballObject : BallObject F) :
    Nat → List (ParticleObject F) → Rand → List (ParticleObject F) × Rand
  | _, [], s => ([], s)
  | 0, particle :: rest, s => (particle :: rest, s)
  | count + 1, particle :: rest, s =>
    if particle.life ≤ 0 then
      let r := respawnBallObjectParticle ballObject particle s
      let rs := respawnFirstDeadParticles ballObject count rest r.2
      (r.1 :: rs.1, rs.2)
    else
      let rs := respawnFirstDeadParticles ballObject (count + 1) rest s
      (particle :: rs.1, rs.2)

/-- The number of particles of the pool with `life ≤ 0`. -/
def deadCount (particles : List (ParticleObject F)) : Nat :=
  particles.countP (fun particle => decide (particle.life ≤ 0))

/-- The collisions of the brick pass, in brick order: for each Alive brick
that the circle collides with, the collision `checkCircleToBoxCollision`
returns. -/
def brickHits (sqrt : F → F) (ballCollisionCircle : AabbCollisionCircle F)
    (bricks : List (GameObject F)) : List (Collision F) :=
  bricks.filterMap (fun brick =>
    if brick.status = GameObjectStatus.alive then
      checkCircleToBoxCollision sqrt ballCollisionCircle (gameObjectToAabbCollisionBox brick)
    else none)

/-- The signed penetration of an Up/Down collision: the amount added to
position.y (negative for Up, positive for Down). -/
def verticalShift (radius : F) (collision : Collision F) : F :=
  if collision.direction = Direction.up then -(radius - |collision.difference.y|)
  else radius - |collision.difference.y|

/-- The signed penetration of a Left/Right collision: the amount added to
position.x (positive for Left, negative for Right). -/
def horizontalShift (radius : F) (collision : Collision F) : F :=
  if collision.direction = Direction.left then radius - |collision.difference.x|
  else -(radius - |collision.difference.x|)

/-- The level on which `updateGameLevel` calls `handleGameLevelPlayerCollision`:
the level after input handling, ball movement and the brick pass. -/
def beforePlayerCollision (sqrt : F → F) (indeterminate : BallObjectCollisionType)
    (keyA keyD keySpace : Bool) (dt : F) (gameLevel : GameLevel F) (s : Rand) : GameLevel F :=
  (handleGameLevelBrickCollision sqrt
    (handleBallObjectMovement indeterminate dt
      (handlePlayerInput sqrt keyA keyD keySpace dt gameLevel)) s).1

/-- The divisor of `glm::normalize(v)`, `sqrt(dot(v, v))`, is not zero.  Where
it is zero the source computes `v * inversesqrt(0)`, which in float arithmetic
is 0 * infinity = NaN; the field operations of the embedding give 0 there. -/
def normalizeDefined (sqrt : F → F) (v : Vec2 F) : Prop := sqrt (dot v v) ≠ 0

end Vocabulary

/-! ## Concrete data -/

section Examples

/-- The configuration of `main`, with a one-row tile map. -/
def exampleConfig : GameLevelConfig ℚ :=
  { tileMap := ⟨[[⟨TileType.solid, ⟨4 / 5, 4 / 5, 7 / 10⟩⟩, ⟨TileType.empty, ⟨1, 1, 1⟩⟩,
      ⟨TileType.destroyable, ⟨1 / 5, 3 / 5, 1⟩⟩]]⟩
    width := 800
    height := 600
    playerConfig := { velocity := 500, size := ⟨100, 20⟩, color := ⟨1, 1, 1⟩, sprite := 1 }
    ballConfig :=
      { speed := 400, radius := 25 / 2, color := ⟨1, 1, 1⟩, sprite := 2, particleCount := 3,
        particleModel := 3 }
    shakeEffectConfig := { duration := 1 / 20 }
    powerUpConfigs :=
      [{ type := PowerUpType.speed, chance := 2, ttl := 10, sprite := 4,
         velocity := ⟨0, 120⟩, size := ⟨20, 20⟩, color := ⟨1 / 2, 1 / 2, 1⟩ }]
    background := 5
    blockSolid := 6
    blockDestroyable := 7
    spriteShader := 8
    particleShader := 9
    postProcessorShader := 10 }

/-- The fresh level of `exampleConfig`: the paddle spans (350, 580)-(450, 600)
and the Sticky ball rests on its middle. -/
def exampleLevel : GameLevel ℚ := createGameLevel BallObjectCollisionType.default exampleConfig

/-- The example level with the ball placed at `position`, moving with
`velocity`, in surface mode `surfaceType`. -/
def exampleLevelWithBall (position velocity : Vec2 ℚ) (surfaceType : BallObjectSurfaceType) :
    GameLevel ℚ :=
  { exampleLevel with
    ball := { exampleLevel.ball with
      position := position, velocity := velocity, surfaceType := surfaceType } }

/-- The example level with the particle pool `particles` and the ball moving
with `velocity`. -/
def exampleLevelWithParticles (velocity : Vec2 ℚ) (particles : List (ParticleObject ℚ)) :
    GameLevel ℚ :=
  { exampleLevel with
    ball := { exampleLevel.ball with velocity := velocity, particles := particles } }

/-- A configuration over any field: level 800 x 600, the paddle, ball and
power-up values of `main`, no tiles. -/
def scenarioConfig (F : Type) [LinearOrderedField F] : GameLevelConfig F :=
  { tileMap := ⟨[]⟩
    width := 800
    height := 600
    playerConfig := { velocity := 500, size := ⟨100, 20⟩, color := ⟨1, 1, 1⟩, sprite := 1 }
    ballConfig :=
      { speed := 400, radius := 25 / 2, color := ⟨1, 1, 1⟩, sprite := 2, particleCount := 0,
        particleModel := 3 }
    shakeEffectConfig := { duration := 1 / 20 }
    powerUpConfigs :=
      [{ type := PowerUpType.speed, chance := 2, ttl := 10, sprite := 4,
         velocity := ⟨0, 120⟩, size := ⟨20, 20⟩, color := ⟨1 / 2, 1 / 2, 1⟩ }]
    background := 5
    blockSolid := 6
    blockDestroyable := 7
    spriteShader := 8
    particleShader := 9
    postProcessorShader := 10 }

/-- The fresh level of `scenarioConfig` with the bricks `bricks` and the ball
placed at `position`, moving with `velocity`, in collision mode
`collisionType` and surface mode Reflect. -/
def scenarioLevel (F : Type) [LinearOrderedField F] (position velocity : Vec2 F)
    (collisionType : BallObjectCollisionType) (bricks : List (GameObject F)) : GameLevel F :=
  let fresh := createGameLevel BallObjectCollisionType.default (scenarioConfig F)
  { fresh with
    map := { fresh.map with bricks := bricks }
    ball := { fresh.ball with
      position := position, velocity := velocity, collisionType := collisionType,
      surfaceType := BallObjectSurfaceType.reflect } }

/-- The example level with the falling power-ups `powerUps`. -/
def exampleLevelWithPowerUps (powerUps : List (PowerUpObject ℚ)) : GameLevel ℚ :=
  { exampleLevel with powerUps := powerUps }

/-- A small level whose single Destroyable brick reaches down to the resting
ball: level 100 x 100, one tile, paddle 80 x 35, ball radius 10, and one
PaddleSizeUp power-up that every destroyed brick spawns (chance 1). -/
def wideningConfig : GameLevelConfig ℚ :=
  { tileMap := ⟨[[⟨TileType.destroyable, ⟨1 / 5, 3 / 5, 1⟩⟩]]⟩
    width := 100
    height := 100
    playerConfig := { velocity := 500, size := ⟨80, 35⟩, color := ⟨1, 1, 1⟩, sprite := 1 }
    ballConfig :=
      { speed := 400, radius := 10, color := ⟨1, 1, 1⟩, sprite := 2, particleCount := 0,
        particleModel := 3 }
    shakeEffectConfig := { duration := 1 / 20 }
    powerUpConfigs :=
      [{ type := PowerUpType.paddleSizeUp, chance := 1, ttl := 10, sprite := 4,
         velocity := ⟨0, 60⟩, size := ⟨40, 83⟩, color := ⟨1, 3 / 5, 2 / 5⟩ }]
    background := 5
    blockSolid := 6
    blockDestroyable := 7
    spriteShader := 8
    particleShader := 9
    postProcessorShader := 10 }

/-- The level of `scenarioConfig` without bricks, with a Reflect ball at rest
on the middle of the paddle, where the ball of a fresh level sits. -/
def restingLevel : GameLevel ℚ :=
  scenarioLevel ℚ ⟨775 / 2, 555⟩ ⟨0, 0⟩ BallObjectCollisionType.default []

end Examples

/-! ## Collision engine: lemmas -/

section CollisionLemmas

variable {F : Type} [LinearOrderedField F]

theorem clampScalar_center (lo hi c : F) (h : lo ≤ hi) :
    lo + (hi - lo) / 2 + clampScalar (c - (lo + (hi - lo) / 2)) (-((hi - lo) / 2)) ((hi - lo) / 2)
      = if c < lo then lo else if hi < c then hi else c := by
  unfold clampScalar
  split_ifs with h1 h2
  · rw [max_eq_right (by linarith), min_eq_left (by linarith)]; ring
  · rw [max_eq_left (by linarith), min_eq_right (by linarith)]; ring
  · rw [max_eq_left (by linarith), min_eq_left (by linarith)]; ring

theorem closestPoint_x (circle : AabbCollisionCircle F) (box : AabbCollisionBox F)
    (h : box.topLeft.x ≤ box.bottomRight.x) :
    (closestPoint circle box).x =
      if circle.center.x < box.topLeft.x then box.topLeft.x
      else if box.bottomRight.x < circle.center.x then box.bottomRight.x
      else circle.center.x := by
  simpa [closestPoint, Vec2.add, Vec2.sub, Vec2.divs, Vec2.neg, clamp] using
    clampScalar_center box.topLeft.x box.bottomRight.x circle.center.x h

theorem closestPoint_y (circle : AabbCollisionCircle F) (box : AabbCollisionBox F)
    (h : box.topLeft.y ≤ box.bottomRight.y) :
    (closestPoint circle box).y =
      if circle.center.y < box.topLeft.y then box.topLeft.y
      else if box.bottomRight.y < circle.center.y then box.bottomRight.y
      else circle.center.y := by
  simpa [closestPoint, Vec2.add, Vec2.sub, Vec2.divs, Vec2.neg, clamp] using
    clampScalar_center box.topLeft.y box.bottomRight.y circle.center.y h

/-- One axis of the nearest-point property: the clamped coordinate lies in
the interval and is at least as close to `c` as any point of the interval. -/
theorem nearest_on_axis (lo hi c q : F) (h : lo ≤ hi)
    (hq : q = if c < lo then lo else if hi < c then hi else c) :
    lo ≤ q ∧ q ≤ hi ∧ ∀ p, lo ≤ p → p ≤ hi → (q - c) * (q - c) ≤ (p - c) * (p - c) := by
  split_ifs at hq with h1 h2
  · subst hq
    refine ⟨le_refl _, h, fun p hp _ => ?_⟩
    nlinarith [mul_nonneg (sub_nonneg.2 hp) (sub_nonneg.2 hp),
      mul_nonneg (sub_nonneg.2 hp) (sub_nonneg.2 h1.le)]
  · subst hq
    refine ⟨h, le_refl _, fun p _ hp => ?_⟩
    nlinarith [mul_nonneg (sub_nonneg.2 hp) (sub_nonneg.2 hp),
      mul_nonneg (sub_nonneg.2 hp) (sub_nonneg.2 h2.le)]
  · rw [hq]
    refine ⟨not_lt.1 h1, not_lt.1 h2, fun p _ _ => ?_⟩
    nlinarith [mul_self_nonneg (p - c)]

theorem closestPoint_inBox (circle : AabbCollisionCircle F) (box : AabbCollisionBox F)
    (hx : box.topLeft.x ≤ box.bottomRight.x) (hy : box.topLeft.y ≤ box.bottomRight.y) :
    inBox box (closestPoint circle box) := by
  obtain ⟨a, b, _⟩ := nearest_on_axis _ _ _ _ hx (closestPoint_x circle box hx)
  obtain ⟨c, d, _⟩ := nearest_on_axis _ _ _ _ hy (closestPoint_y circle box hy)
  exact ⟨a, b, c, d⟩

theorem closestPoint_nearest (circle : AabbCollisionCircle F) (box : AabbCollisionBox F)
    (hx : box.topLeft.x ≤ box.bottomRight.x) (hy : box.topLeft.y ≤ box.bottomRight.y)
    (p : Vec2 F) (hp : inBox box p) :
    distSq circle.center (closestPoint circle box) ≤ distSq circle.center p := by
  obtain ⟨_, _, a⟩ := nearest_on_axis _ _ _ _ hx (closestPoint_x circle box hx)
  obtain ⟨_, _, b⟩ := nearest_on_axis _ _ _ _ hy (closestPoint_y circle box hy)
  have h1 := a p.x hp.1 hp.2.1
  have h2 := b p.y hp.2.2.1 hp.2.2.2
  simp only [distSq, dot, Vec2.sub]
  linarith

theorem checkCircleToBoxCollision_isSome (sqrt : F → F) (circle : AabbCollisionCircle F)
    (box : AabbCollisionBox F) :
    (checkCircleToBoxCollision sqrt circle box).isSome = true ↔
      sqrt (distSq circle.center (closestPoint circle box)) ≤ circle.radius := by
  unfold checkCircleToBoxCollision
  simp only [length, distSq]
  split_ifs with h
  · simp only [Option.isSome_none, Bool.false_eq_true, false_iff, not_le]
    exact h
  · simp only [Option.isSome_some, true_iff]
    exact not_lt.1 h

theorem checkCircleToBoxCollision_difference (sqrt : F → F) (circle : AabbCollisionCircle F)
    (box : AabbCollisionBox F) (collision : Collision F)
    (h : checkCircleToBoxCollision sqrt circle box = some collision) :
    collision.difference = (closestPoint circle box).sub circle.center ∧
      collision.direction = directionFromTarget sqrt collision.difference := by
  unfold checkCircleToBoxCollision at h
  simp only at h
  split_ifs at h with hc
  simp only [Option.some.injEq] at h
  subst h
  exact ⟨rfl, rfl⟩

theorem sqrt_le_iff_sq_le (s r d : F) (hs : IsSqrtOf d s) (hr : 0 ≤ r) :
    s ≤ r ↔ d ≤ r * r := by
  obtain ⟨h0, h1⟩ := hs
  rw [← h1]
  constructor
  · intro h; exact mul_le_mul h h h0 hr
  · intro h
    by_contra hc
    have hlt : r < s := not_le.1 hc
    have : r * r < s * s := mul_lt_mul'' hlt hlt hr hr
    linarith

end CollisionLemmas

/-! ## Direction classification: lemmas -/

section DirectionLemmas

variable {F : Type} [LinearOrderedField F]

/-- The loop of `directionFromTarget` unrolled: the result as a decision tree
on the components of the (normalised) vector. -/
theorem bestMatchLoop_eq (n : Vec2 F) :
    bestMatchLoop n =
      if 0 < n.y then
        (if n.y < n.x then Direction.right
         else if n.y < -n.x then Direction.left else Direction.up)
      else if 0 < n.x then
        (if n.x < -n.y then Direction.down else Direction.right)
      else if 0 < -n.y then
        (if -n.y < -n.x then Direction.left else Direction.down)
      else if 0 < -n.x then Direction.left else Direction.up := by
  simp only [bestMatchLoop, directionByPositions, List.foldl, dot, gt_iff_lt,
    mul_zero, mul_one, zero_add, add_zero, mul_neg]
  split_ifs <;> dsimp only at * <;> first | rfl | (exfalso; linarith)

/-- The loop result does not change when the vector is scaled by a positive factor. -/
theorem bestMatchLoop_muls (v : Vec2 F) (k : F) (hk : 0 < k) :
    bestMatchLoop (v.muls k) = bestMatchLoop v := by
  have e1 : (0 < v.y * k) = (0 < v.y) := propext (mul_pos_iff_of_pos_right hk)
  have e2 : (0 < v.x * k) = (0 < v.x) := propext (mul_pos_iff_of_pos_right hk)
  have e3 : (v.y * k < v.x * k) = (v.y < v.x) := propext (mul_lt_mul_right hk)
  have e4 : (v.y * k < -(v.x * k)) = (v.y < -v.x) := by
    rw [← neg_mul]; exact propext (mul_lt_mul_right hk)
  have e5 : (v.x * k < -(v.y * k)) = (v.x < -v.y) := by
    rw [← neg_mul]; exact propext (mul_lt_mul_right hk)
  have e6 : (-(v.y * k) < -(v.x * k)) = (-v.y < -v.x) := by
    rw [← neg_mul, ← neg_mul]; exact propext (mul_lt_mul_right hk)
  have e7 : (0 < -(v.y * k)) = (0 < -v.y) := by
    rw [← neg_mul]; exact propext (mul_pos_iff_of_pos_right hk)
  have e8 : (0 < -(v.x * k)) = (0 < -v.x) := by
    rw [← neg_mul]; exact propext (mul_pos_iff_of_pos_right hk)
  rw [bestMatchLoop_eq, bestMatchLoop_eq]
  simp only [Vec2.muls, e1, e2, e3, e4, e5, e6, e7, e8]

/-- With a positive square root the classification is the decision tree on
the components of the target itself. -/
theorem directionFromTarget_eq (sqrt : F → F) (t : Vec2 F) (hs : 0 < sqrt (dot t t)) :
    directionFromTarget sqrt t = bestMatchLoop t := by
  unfold directionFromTarget normalize
  exact bestMatchLoop_muls t _ (one_div_pos.2 hs)

end DirectionLemmas

/-! ## Collision engine: properties -/

section CollisionProperties

variable {F : Type} [LinearOrderedField F]

/-- C1: for a circle of radius `r ≥ 0` and a well-formed box, the point
`checkCircleToBoxCollision` computes lies in the box and no point of the box
is nearer to the circle centre; a collision is returned iff the Euclidean
distance from the centre to that point is at most `r`, iff the squared
distance is at most `r²`, iff some point of the box lies within distance `r`
of the centre; the returned difference is closest point minus centre. -/
theorem checkCircleToBoxCollision_iff_closest (sqrt : F → F) (circle : AabbCollisionCircle F)
    (box : AabbCollisionBox F) (hr : 0 ≤ circle.radius)
    (hx : box.topLeft.x ≤ box.bottomRight.x) (hy : box.topLeft.y ≤ box.bottomRight.y)
    (hsqrt : IsSqrtOf (distSq circle.center (closestPoint circle box))
      (sqrt (distSq circle.center (closestPoint circle box)))) :
    inBox box (closestPoint circle box) ∧
    (∀ p, inBox box p →
      distSq circle.center (closestPoint circle box) ≤ distSq circle.center p) ∧
    ((checkCircleToBoxCollision sqrt circle box).isSome = true ↔
      sqrt (distSq circle.center (closestPoint circle box)) ≤ circle.radius) ∧
    ((checkCircleToBoxCollision sqrt circle box).isSome = true ↔
      distSq circle.center (closestPoint circle box) ≤ circle.radius * circle.radius) ∧
    ((checkCircleToBoxCollision sqrt circle box).isSome = true ↔
      ∃ p, inBox box p ∧ distSq circle.center p ≤ circle.radius * circle.radius) ∧
    (∀ collision, checkCircleToBoxCollision sqrt circle box = some collision →
      collision.difference = (closestPoint circle box).sub circle.center) := by
  have hin := closestPoint_inBox circle box hx hy
  have hnear := closestPoint_nearest circle box hx hy
  have hsome := checkCircleToBoxCollision_isSome sqrt circle box
  have hsq := sqrt_le_iff_sq_le _ circle.radius _ hsqrt hr
  refine ⟨hin, hnear, hsome, hsome.trans hsq, ?_, ?_⟩
  · rw [hsome, hsq]
    constructor
    · intro h; exact ⟨_, hin, h⟩
    · rintro ⟨p, hp, hle⟩; exact le_trans (hnear p hp) hle
  · intro collision h
    exact (checkCircleToBoxCollision_difference sqrt circle box collision h).1

/-- C1 at a concrete input: the circle of radius 5 about (0, 5) and the box
(3, 1)-(6, 9); the closest point is (3, 5), at distance 3. -/
theorem checkCircleToBoxCollision_iff_closest_witness :
    closestPoint (⟨5, ⟨0, 5⟩⟩ : AabbCollisionCircle ℚ) ⟨⟨3, 1⟩, ⟨6, 9⟩⟩ = ⟨3, 5⟩ ∧
    checkCircleToBoxCollision Rat.sqrt (⟨5, ⟨0, 5⟩⟩ : AabbCollisionCircle ℚ) ⟨⟨3, 1⟩, ⟨6, 9⟩⟩
      = some ⟨Direction.right, ⟨3, 0⟩⟩ ∧
    ((checkCircleToBoxCollision Rat.sqrt (⟨5, ⟨0, 5⟩⟩ : AabbCollisionCircle ℚ)
        ⟨⟨3, 1⟩, ⟨6, 9⟩⟩).isSome = true ↔
      ∃ p, inBox (⟨⟨3, 1⟩, ⟨6, 9⟩⟩ : AabbCollisionBox ℚ) p ∧ distSq ⟨0, 5⟩ p ≤ 5 * 5) := by
  have hc : closestPoint (⟨5, ⟨0, 5⟩⟩ : AabbCollisionCircle ℚ) ⟨⟨3, 1⟩, ⟨6, 9⟩⟩ = ⟨3, 5⟩ := by
    norm_num [closestPoint, clamp, clampScalar, Vec2.add, Vec2.sub, Vec2.divs, Vec2.neg]
  have hd : distSq (⟨0, 5⟩ : Vec2 ℚ) ⟨3, 5⟩ = 9 := by
    norm_num [distSq, dot, Vec2.sub]
  refine ⟨hc, ?_, (checkCircleToBoxCollision_iff_closest Rat.sqrt ⟨5, ⟨0, 5⟩⟩ ⟨⟨3, 1⟩, ⟨6, 9⟩⟩
    (by norm_num) (by norm_num) (by norm_num) ?_).2.2.2.2.1⟩
  · have h9 : Rat.sqrt 9 = 3 := by norm_num
    have hn : dot (⟨3, 0⟩ : Vec2 ℚ) ⟨3, 0⟩ = 9 := by norm_num [dot]
    simp only [checkCircleToBoxCollision, hc, length, directionFromTarget, normalize]
    norm_num [Vec2.sub, hn, h9, bestMatchLoop_eq, Vec2.muls]
  · rw [hc, hd]
    exact ⟨Rat.sqrt_nonneg _, by norm_num⟩

end CollisionProperties

section DirectionProperties

variable {F : Type} [LinearOrderedField F]

theorem IsSqrtOf.pos_of_ne_zero {s r : F} (h : IsSqrtOf s r) (hs : s ≠ 0) : 0 < r := by
  obtain ⟨h0, h1⟩ := h
  rcases h0.lt_or_eq with hlt | heq
  · exact hlt
  · exfalso; apply hs; rw [← h1, ← heq]; ring

theorem dot_self_ne_zero (t : Vec2 F) (ht : t.x ≠ 0 ∨ t.y ≠ 0) : dot t t ≠ 0 := by
  intro h
  simp only [dot] at h
  have hx := mul_self_nonneg t.x
  have hy := mul_self_nonneg t.y
  rcases ht with ht | ht
  · exact ht (mul_self_eq_zero.1 (by linarith))
  · exact ht (mul_self_eq_zero.1 (by linarith))

theorem dot_normalize (sqrt : F → F) (t a : Vec2 F) :
    dot (normalize sqrt t) a = dot t a * (1 / sqrt (dot t t)) := by
  simp only [dot, normalize, Vec2.muls]; ring

/-- The direction the loop returns has a positive dot product with a non-zero
vector, and no axis has a larger one. -/
theorem bestMatchLoop_largest (t : Vec2 F) (ht : t.x ≠ 0 ∨ t.y ≠ 0) :
    0 < dot t (axisOf (bestMatchLoop t)) ∧
      ∀ d, dot t (axisOf d) ≤ dot t (axisOf (bestMatchLoop t)) := by
  have hne : ¬ (t.x = 0 ∧ t.y = 0) := by
    rintro ⟨a, b⟩; rcases ht with h | h
    · exact h a
    · exact h b
  rw [bestMatchLoop_eq]
  constructor
  · split_ifs <;> simp only [dot, axisOf, mul_zero, mul_one, zero_add, add_zero, mul_neg] <;>
      first
      | linarith
      | (exfalso; apply hne; constructor <;> linarith)
  · intro d
    cases d <;> split_ifs <;>
      simp only [dot, axisOf, mul_zero, mul_one, zero_add, add_zero, mul_neg] <;> linarith

/-- C2: for a non-zero vector (with a positive square root of its squared
norm, as the exact root is), `directionFromTarget` returns Right or Left by
the sign of `x` when `|x| > |y|` and Up or Down by the sign of `y` when
`|y| > |x|`; the axis of the returned direction has a positive dot product
with the vector (and with its normalisation) and no axis has a larger one;
and `checkCircleToBoxCollision` returns this classification of its
difference vector. -/
theorem directionFromTarget_largest_dot (sqrt : F → F) (t : Vec2 F)
    (ht : t.x ≠ 0 ∨ t.y ≠ 0) (hs : 0 < sqrt (dot t t)) :
    (|t.y| < |t.x| → 0 < t.x → directionFromTarget sqrt t = Direction.right) ∧
    (|t.y| < |t.x| → t.x < 0 → directionFromTarget sqrt t = Direction.left) ∧
    (|t.x| < |t.y| → 0 < t.y → directionFromTarget sqrt t = Direction.up) ∧
    (|t.x| < |t.y| → t.y < 0 → directionFromTarget sqrt t = Direction.down) ∧
    0 < dot t (axisOf (directionFromTarget sqrt t)) ∧
    (∀ d, dot t (axisOf d) ≤ dot t (axisOf (directionFromTarget sqrt t))) ∧
    0 < dot (normalize sqrt t) (axisOf (directionFromTarget sqrt t)) ∧
    (∀ d, dot (normalize sqrt t) (axisOf d)
      ≤ dot (normalize sqrt t) (axisOf (directionFromTarget sqrt t))) ∧
    (∀ (circle : AabbCollisionCircle F) (box : AabbCollisionBox F) (collision : Collision F),
      checkCircleToBoxCollision sqrt circle box = some collision →
      collision.direction = directionFromTarget sqrt collision.difference) := by
  have hk : 0 < 1 / sqrt (dot t t) := one_div_pos.2 hs
  have hl := bestMatchLoop_largest t ht
  rw [directionFromTarget_eq sqrt t hs]
  refine ⟨?_, ?_, ?_, ?_, hl.1, hl.2, ?_, ?_, ?_⟩
  · intro habs hx
    rw [abs_of_pos hx] at habs
    have h := abs_lt.1 habs
    rw [bestMatchLoop_eq]
    split_ifs <;> first | rfl | (exfalso; linarith [h.1, h.2])
  · intro habs hx
    rw [abs_of_neg hx] at habs
    have h := abs_lt.1 habs
    rw [bestMatchLoop_eq]
    split_ifs <;> first | rfl | (exfalso; linarith [h.1, h.2])
  · intro habs hy
    rw [abs_of_pos hy] at habs
    have h := abs_lt.1 habs
    rw [bestMatchLoop_eq]
    split_ifs <;> first | rfl | (exfalso; linarith [h.1, h.2])
  · intro habs hy
    rw [abs_of_neg hy] at habs
    have h := abs_lt.1 habs
    rw [bestMatchLoop_eq]
    split_ifs <;> first | rfl | (exfalso; linarith [h.1, h.2])
  · rw [dot_normalize]; exact mul_pos hl.1 hk
  · intro d
    rw [dot_normalize, dot_normalize]
    exact mul_le_mul_of_nonneg_right (hl.2 d) hk.le
  · intro circle box collision h
    exact (checkCircleToBoxCollision_difference sqrt circle box collision h).2

/-- C2 at a concrete input: the vector (3, -4) of norm 5 is classified Down. -/
theorem directionFromTarget_largest_dot_witness :
    directionFromTarget Rat.sqrt (⟨3, -4⟩ : Vec2 ℚ) = Direction.down ∧
    0 < dot (⟨3, -4⟩ : Vec2 ℚ) (axisOf (directionFromTarget Rat.sqrt ⟨3, -4⟩)) := by
  have hd : dot (⟨3, -4⟩ : Vec2 ℚ) ⟨3, -4⟩ = 25 := by norm_num [dot]
  have h25 : Rat.sqrt 25 = 5 := by norm_num
  have h := directionFromTarget_largest_dot Rat.sqrt (⟨3, -4⟩ : Vec2 ℚ)
    (Or.inl (by norm_num)) (by rw [hd, h25]; norm_num)
  exact ⟨h.2.2.2.1 (by norm_num) (by norm_num), h.2.2.2.2.1⟩

/-- C3 fails as stated: over the reals with the real square root the exact
diagonal (1, -1), where Right and Down tie, is classified Right, not Up. -/
theorem directionFromTarget_tie_not_up :
    |(1 : ℝ)| = |(-1 : ℝ)| ∧
    directionFromTarget Real.sqrt (⟨1, -1⟩ : Vec2 ℝ) = Direction.right ∧
    directionFromTarget Real.sqrt (⟨1, -1⟩ : Vec2 ℝ) ≠ Direction.up := by
  have hd : dot (⟨1, -1⟩ : Vec2 ℝ) ⟨1, -1⟩ = 2 := by norm_num [dot]
  have hs : 0 < Real.sqrt (dot (⟨1, -1⟩ : Vec2 ℝ) ⟨1, -1⟩) := by
    rw [hd]; exact Real.sqrt_pos.2 (by norm_num)
  have h : directionFromTarget Real.sqrt (⟨1, -1⟩ : Vec2 ℝ) = Direction.right := by
    rw [directionFromTarget_eq Real.sqrt _ hs, bestMatchLoop_eq]
    norm_num
  refine ⟨by norm_num, h, ?_⟩
  rw [h]; decide

/-- C3 as amended: on an exact diagonal (`|x| = |y|`, non-zero) the result is
the tied direction that comes first in the loop order Up, Right, Down, Left:
Up when `y > 0`, Right when `y < 0 < x`, Down when `y < 0` and `x < 0`. -/
theorem directionFromTarget_tie_first_in_loop_order (sqrt : F → F) (t : Vec2 F)
    (ht : t.x ≠ 0 ∨ t.y ≠ 0) (hs : 0 < sqrt (dot t t)) (habs : |t.x| = |t.y|) :
    (0 < t.y → directionFromTarget sqrt t = Direction.up) ∧
    (t.y < 0 → 0 < t.x → directionFromTarget sqrt t = Direction.right) ∧
    (t.y < 0 → t.x < 0 → directionFromTarget sqrt t = Direction.down) ∧
    directionFromTarget sqrt t ≠ Direction.left := by
  rw [directionFromTarget_eq sqrt t hs, bestMatchLoop_eq]
  have hy0 : t.y ≠ 0 := by
    intro h0
    rw [h0, abs_zero, abs_eq_zero] at habs
    rcases ht with h | h
    · exact h habs
    · exact h h0
  have hcases := abs_eq_abs.1 habs
  refine ⟨?_, ?_, ?_, ?_⟩
  · intro hy
    rcases hcases with h | h <;> split_ifs <;> first | rfl | (exfalso; linarith)
  · intro hy hx
    rcases hcases with h | h <;> split_ifs <;> first | rfl | (exfalso; linarith)
  · intro hy hx
    rcases hcases with h | h <;> split_ifs <;> first | rfl | (exfalso; linarith)
  · rcases lt_or_gt_of_ne hy0 with hy | hy <;> rcases hcases with h | h <;> split_ifs <;>
      first | decide | (exfalso; linarith)

/-- C3 as amended at a concrete input: over the reals with the real square
root the diagonal (-1, -1), where Down and Left tie, is classified Down. -/
theorem directionFromTarget_tie_first_in_loop_order_witness :
    |(-1 : ℝ)| = |(-1 : ℝ)| ∧
    directionFromTarget Real.sqrt (⟨-1, -1⟩ : Vec2 ℝ) = Direction.down := by
  have hd : dot (⟨-1, -1⟩ : Vec2 ℝ) ⟨-1, -1⟩ = 2 := by norm_num [dot]
  exact ⟨rfl, (directionFromTarget_tie_first_in_loop_order Real.sqrt (⟨-1, -1⟩ : Vec2 ℝ)
    (Or.inl (by norm_num)) (by rw [hd]; exact Real.sqrt_pos.2 (by norm_num)) rfl).2.2.1
      (by norm_num) (by norm_num)⟩

end DirectionProperties

section BoxProperties

variable {F : Type} [LinearOrderedField F]

theorem checkBoxToBoxCollision_isSome (sqrt : F → F) (boxA boxB : AabbCollisionBox F) :
    (checkBoxToBoxCollision sqrt boxA boxB).isSome = true ↔
      (boxB.topLeft.x ≤ boxA.bottomRight.x ∧ boxA.topLeft.x ≤ boxB.bottomRight.x) ∧
      (boxB.topLeft.y ≤ boxA.bottomRight.y ∧ boxA.topLeft.y ≤ boxB.bottomRight.y) := by
  unfold checkBoxToBoxCollision
  simp only
  split_ifs with h
  · simp only [Bool.and_eq_true, decide_eq_true_eq] at h
    simp only [Option.isSome_some, true_iff]
    exact h
  · simp only [Bool.and_eq_true, decide_eq_true_eq] at h
    simp only [Option.isSome_none, Bool.false_eq_true, false_iff]
    exact h

/-- C4: for well-formed boxes `checkBoxToBoxCollision` returns a collision iff
`B.topLeft ≤ A.bottomRight` and `A.topLeft ≤ B.bottomRight` on both axes, iff
the two closed boxes share a point; it returns none when the boxes are
separated on the x-axis or on the y-axis, and a collision when they overlap
with positive length on both axes or touch at a corner. -/
theorem checkBoxToBoxCollision_iff_overlap (sqrt : F → F) (boxA boxB : AabbCollisionBox F)
    (hax : boxA.topLeft.x ≤ boxA.bottomRight.x) (hay : boxA.topLeft.y ≤ boxA.bottomRight.y)
    (hbx : boxB.topLeft.x ≤ boxB.bottomRight.x) (hby : boxB.topLeft.y ≤ boxB.bottomRight.y) :
    ((checkBoxToBoxCollision sqrt boxA boxB).isSome = true ↔
      (boxB.topLeft.x ≤ boxA.bottomRight.x ∧ boxA.topLeft.x ≤ boxB.bottomRight.x) ∧
      (boxB.topLeft.y ≤ boxA.bottomRight.y ∧ boxA.topLeft.y ≤ boxB.bottomRight.y)) ∧
    ((checkBoxToBoxCollision sqrt boxA boxB).isSome = true ↔
      ∃ p, inBox boxA p ∧ inBox boxB p) ∧
    ((boxA.bottomRight.x < boxB.topLeft.x ∨ boxB.bottomRight.x < boxA.topLeft.x ∨
      boxA.bottomRight.y < boxB.topLeft.y ∨ boxB.bottomRight.y < boxA.topLeft.y) →
      checkBoxToBoxCollision sqrt boxA boxB = none) ∧
    ((max boxA.topLeft.x boxB.topLeft.x < min boxA.bottomRight.x boxB.bottomRight.x ∧
      max boxA.topLeft.y boxB.topLeft.y < min boxA.bottomRight.y boxB.bottomRight.y) →
      (checkBoxToBoxCollision sqrt boxA boxB).isSome = true) ∧
    (boxA.bottomRight = boxB.topLeft →
      (checkBoxToBoxCollision sqrt boxA boxB).isSome = true) := by
  have hsome := checkBoxToBoxCollision_isSome sqrt boxA boxB
  refine ⟨hsome, ?_, ?_, ?_, ?_⟩
  · rw [hsome]
    constructor
    · rintro ⟨⟨h1, h2⟩, h3, h4⟩
      refine ⟨⟨max boxA.topLeft.x boxB.topLeft.x, max boxA.topLeft.y boxB.topLeft.y⟩, ?_, ?_⟩
      · exact ⟨le_max_left _ _, max_le hax h1, le_max_left _ _, max_le hay h3⟩
      · exact ⟨le_max_right _ _, max_le h2 hbx, le_max_right _ _, max_le h4 hby⟩
    · rintro ⟨p, ⟨a1, a2, a3, a4⟩, b1, b2, b3, b4⟩
      exact ⟨⟨le_trans b1 a2, le_trans a1 b2⟩, le_trans b3 a4, le_trans a3 b4⟩
  · intro hsep
    rw [← Option.not_isSome_iff_eq_none, hsome]
    rintro ⟨⟨h1, h2⟩, h3, h4⟩
    rcases hsep with h | h | h | h
    · exact absurd h1 (not_le.2 h)
    · exact absurd h2 (not_le.2 h)
    · exact absurd h3 (not_le.2 h)
    · exact absurd h4 (not_le.2 h)
  · rintro ⟨hx, hy⟩
    rw [hsome]
    have hx1 := max_lt_iff.1 hx
    have hy1 := max_lt_iff.1 hy
    have hx2 := lt_min_iff.1 hx1.1
    have hx3 := lt_min_iff.1 hx1.2
    have hy2 := lt_min_iff.1 hy1.1
    have hy3 := lt_min_iff.1 hy1.2
    exact ⟨⟨hx3.1.le, hx2.2.le⟩, hy3.1.le, hy2.2.le⟩
  · intro hcorner
    rw [hsome, hcorner]
    have e1 : boxA.bottomRight.x = boxB.topLeft.x := by rw [hcorner]
    have e2 : boxA.bottomRight.y = boxB.topLeft.y := by rw [hcorner]
    exact ⟨⟨le_refl _, by linarith⟩, le_refl _, by linarith⟩

/-- C4 at a concrete input: the boxes (0,0)-(2,2) and (2,2)-(5,6) touch at
the corner (2,2) and collide. -/
theorem checkBoxToBoxCollision_iff_overlap_witness :
    (checkBoxToBoxCollision Rat.sqrt (⟨⟨0, 0⟩, ⟨2, 2⟩⟩ : AabbCollisionBox ℚ)
      ⟨⟨2, 2⟩, ⟨5, 6⟩⟩).isSome = true :=
  (checkBoxToBoxCollision_iff_overlap Rat.sqrt (⟨⟨0, 0⟩, ⟨2, 2⟩⟩ : AabbCollisionBox ℚ)
    ⟨⟨2, 2⟩, ⟨5, 6⟩⟩ (by norm_num) (by norm_num) (by norm_num) (by norm_num)).2.2.2.2 rfl

end BoxProperties

/-! ## Bounces -/

section BounceProperties

variable {F : Type} [LinearOrderedField F]

theorem SameUpToSign.refl (v : Vec2 F) : SameUpToSign v v :=
  ⟨Or.inl rfl, Or.inl rfl⟩

theorem SameUpToSign.trans {u v w : Vec2 F} (h1 : SameUpToSign u v) (h2 : SameUpToSign v w) :
    SameUpToSign u w := by
  obtain ⟨a, b⟩ := h1
  obtain ⟨c, d⟩ := h2
  constructor
  · rcases a with a | a <;> rcases c with c | c <;> rw [c, a] <;> simp
  · rcases b with b | b <;> rcases d with d | d <;> rw [d, b] <;> simp

theorem SameUpToSign.dot_eq {v w : Vec2 F} (h : SameUpToSign v w) : dot w w = dot v v := by
  obtain ⟨a, b⟩ := h
  simp only [dot]
  rcases a with a | a <;> rcases b with b | b <;> rw [a, b] <;> ring

theorem spawnPowerUp_ball (config : PowerUpConfig F) (position : Vec2 F)
    (gameLevel : GameLevel F) (s : Rand) :
    (spawnPowerUp config position gameLevel s).1.ball = gameLevel.ball := by
  unfold spawnPowerUp
  simp only
  split_ifs <;> rfl

theorem spawnPowerUpsLoop_ball (position : Vec2 F) (configs : List (PowerUpConfig F))
    (gameLevel : GameLevel F) (s : Rand) :
    (spawnPowerUpsLoop position configs gameLevel s).1.ball = gameLevel.ball := by
  induction configs generalizing gameLevel s with
  | nil => rfl
  | cons config configs ih =>
    simp only [spawnPowerUpsLoop]
    rw [ih, spawnPowerUp_ball]

theorem spawnPowerUps_ball (position : Vec2 F) (gameLevel : GameLevel F) (s : Rand) :
    (spawnPowerUps position gameLevel s).1.ball = gameLevel.ball :=
  spawnPowerUpsLoop_ball position _ gameLevel s

theorem brickCollisionResponse_velocity (collision : Collision F) (ball : BallObject F) :
    SameUpToSign ball.velocity (brickCollisionResponse collision ball).velocity := by
  unfold brickCollisionResponse
  split_ifs <;> simp [SameUpToSign]

theorem brickCollisionBody_velocity (sqrt : F → F) (circle : AabbCollisionCircle F)
    (brick : GameObject F) (gameLevel : GameLevel F) (s : Rand) :
    SameUpToSign gameLevel.ball.velocity
      (brickCollisionBody sqrt circle brick gameLevel s).2.1.ball.velocity := by
  unfold brickCollisionBody
  by_cases h1 : brick.status ≠ GameObjectStatus.alive
  · rw [if_pos h1]; exact SameUpToSign.refl _
  · rw [if_neg h1]
    split
    · exact SameUpToSign.refl _
    · rename_i collision _
      by_cases h2 : brick.bodyType = GameObjectBodyType.destroyable
      · rw [if_pos h2]
        have hb := spawnPowerUps_ball brick.position gameLevel s
        simp only [hb]
        exact brickCollisionResponse_velocity collision gameLevel.ball
      · rw [if_neg h2]
        by_cases h3 : brick.bodyType = GameObjectBodyType.solid
        · rw [if_pos h3]
          by_cases h4 : gameLevel.ball.collisionType = BallObjectCollisionType.passThrough
          · rw [if_pos h4]; exact SameUpToSign.refl _
          · rw [if_neg h4]; exact brickCollisionResponse_velocity collision gameLevel.ball
        · rw [if_neg h3]; exact brickCollisionResponse_velocity collision gameLevel.ball

theorem brickCollisionLoop_velocity (sqrt : F → F) (circle : AabbCollisionCircle F)
    (bricks : List (GameObject F)) (gameLevel : GameLevel F) (s : Rand) :
    SameUpToSign gameLevel.ball.velocity
      (brickCollisionLoop sqrt circle bricks gameLevel s).2.1.ball.velocity := by
  induction bricks generalizing gameLevel s with
  | nil => exact SameUpToSign.refl _
  | cons brick bricks ih =>
    simp only [brickCollisionLoop]
    exact SameUpToSign.trans (brickCollisionBody_velocity sqrt circle brick gameLevel s) (ih _ _)

theorem handleBallObjectMovement_velocity (indeterminate : BallObjectCollisionType) (dt : F)
    (gameLevel : GameLevel F) (h : ¬ reachesBottom dt gameLevel) :
    SameUpToSign gameLevel.ball.velocity
      (handleBallObjectMovement indeterminate dt gameLevel).ball.velocity := by
  unfold handleBallObjectMovement
  simp only [Vec2.add, Vec2.smul]
  split_ifs with h1 h2 h3 h4
  · simp [SameUpToSign]
  · simp [SameUpToSign]
  · simp [SameUpToSign]
  · exact absurd ⟨h1, h2, h3, h4⟩ h
  · exact SameUpToSign.refl _

/-- C5: wall and brick bounces preserve speed.  In a frame in which
`handleBallObjectMovement` does not recreate the level, and in every call of
`handleGameLevelBrickCollision`, each component of the ball's velocity after
the call equals its value before the call or the negation of it, and the
squared speed `velocity.x² + velocity.y²` is unchanged. -/
theorem bounce_preserves_speed (sqrt : F → F) (indeterminate : BallObjectCollisionType)
    (dt : F) (gameLevel : GameLevel F) (s : Rand) :
    (¬ reachesBottom dt gameLevel →
      SameUpToSign gameLevel.ball.velocity
        (handleBallObjectMovement indeterminate dt gameLevel).ball.velocity ∧
      dot (handleBallObjectMovement indeterminate dt gameLevel).ball.velocity
          (handleBallObjectMovement indeterminate dt gameLevel).ball.velocity
        = dot gameLevel.ball.velocity gameLevel.ball.velocity) ∧
    SameUpToSign gameLevel.ball.velocity
      (handleGameLevelBrickCollision sqrt gameLevel s).1.ball.velocity ∧
    dot (handleGameLevelBrickCollision sqrt gameLevel s).1.ball.velocity
        (handleGameLevelBrickCollision sqrt gameLevel s).1.ball.velocity
      = dot gameLevel.ball.velocity gameLevel.ball.velocity := by
  have hb : SameUpToSign gameLevel.ball.velocity
      (handleGameLevelBrickCollision sqrt gameLevel s).1.ball.velocity := by
    unfold handleGameLevelBrickCollision
    exact brickCollisionLoop_velocity sqrt _ gameLevel.map.bricks gameLevel s
  refine ⟨fun h => ?_, hb, hb.dot_eq⟩
  have hm := handleBallObjectMovement_velocity indeterminate dt gameLevel h
  exact ⟨hm, hm.dot_eq⟩

/-- C5 at a concrete input: the ball at (1, 50) moving with (-30, 40) crosses
the left wall within a tenth of a second; the level is not recreated and the
velocity becomes (30, 40), of the same squared speed 2500. -/
theorem bounce_preserves_speed_witness :
    ¬ reachesBottom (1 / 10 : ℚ)
        (exampleLevelWithBall ⟨1, 50⟩ ⟨-30, 40⟩ BallObjectSurfaceType.reflect) ∧
    (handleBallObjectMovement BallObjectCollisionType.default (1 / 10 : ℚ)
        (exampleLevelWithBall ⟨1, 50⟩ ⟨-30, 40⟩ BallObjectSurfaceType.reflect)).ball.velocity
      = ⟨30, 40⟩ ∧
    dot (handleBallObjectMovement BallObjectCollisionType.default (1 / 10 : ℚ)
        (exampleLevelWithBall ⟨1, 50⟩ ⟨-30, 40⟩ BallObjectSurfaceType.reflect)).ball.velocity
        (handleBallObjectMovement BallObjectCollisionType.default (1 / 10 : ℚ)
        (exampleLevelWithBall ⟨1, 50⟩ ⟨-30, 40⟩ BallObjectSurfaceType.reflect)).ball.velocity
      = dot (⟨-30, 40⟩ : Vec2 ℚ) ⟨-30, 40⟩ := by
  have hn : ¬ reachesBottom (1 / 10 : ℚ)
      (exampleLevelWithBall ⟨1, 50⟩ ⟨-30, 40⟩ BallObjectSurfaceType.reflect) := by
    intro h
    apply h.1
    norm_num [exampleLevelWithBall]
  refine ⟨hn, ?_, ((bounce_preserves_speed Rat.sqrt BallObjectCollisionType.default (1 / 10 : ℚ)
    (exampleLevelWithBall ⟨1, 50⟩ ⟨-30, 40⟩ BallObjectSurfaceType.reflect) (fun _ => 0)).1 hn).2⟩
  norm_num [handleBallObjectMovement, exampleLevelWithBall, Vec2.add, Vec2.smul]

end BounceProperties

/-! ## The example level -/

section ExampleLemmas

theorem exampleLevelWithBall_playerBox (position velocity : Vec2 ℚ)
    (surfaceType : BallObjectSurfaceType) :
    gameObjectToAabbCollisionBox
      (exampleLevelWithBall position velocity surfaceType).player.toGameObject
      = ⟨⟨350, 580⟩, ⟨450, 600⟩⟩ := by
  norm_num [exampleLevelWithBall, exampleLevel, createGameLevel, createPlayerObject,
    createGameLevelMap, exampleConfig, gameObjectToAabbCollisionBox, Vec2.add]

theorem exampleLevelWithBall_circle (position velocity : Vec2 ℚ)
    (surfaceType : BallObjectSurfaceType) :
    ballObjectToAabbCollisionCircle (exampleLevelWithBall position velocity surfaceType).ball
      = ⟨25 / 2, ⟨position.x + 25 / 2, position.y + 25 / 2⟩⟩ := by
  simp [exampleLevelWithBall, exampleLevel, createGameLevel, createBallObject,
    exampleConfig, ballObjectToAabbCollisionCircle, Vec2.add, Vec2.splat]

/-- A circle of radius 12.5 resting on the top edge of the example paddle
collides with it, with direction Up and difference (0, 12.5). -/
theorem examplePaddle_hit (x : ℚ) (hx1 : 350 ≤ x + 25 / 2) (hx2 : x + 25 / 2 ≤ 450) :
    checkCircleToBoxCollision Rat.sqrt (⟨25 / 2, ⟨x + 25 / 2, 555 + 25 / 2⟩⟩ :
      AabbCollisionCircle ℚ) ⟨⟨350, 580⟩, ⟨450, 600⟩⟩ = some ⟨Direction.up, ⟨0, 25 / 2⟩⟩ := by
  have hc : closestPoint (⟨25 / 2, ⟨x + 25 / 2, 555 + 25 / 2⟩⟩ : AabbCollisionCircle ℚ)
      ⟨⟨350, 580⟩, ⟨450, 600⟩⟩ = ⟨x + 25 / 2, 580⟩ := by
    have h1 := closestPoint_x (⟨25 / 2, ⟨x + 25 / 2, 555 + 25 / 2⟩⟩ : AabbCollisionCircle ℚ)
      ⟨⟨350, 580⟩, ⟨450, 600⟩⟩ (by norm_num)
    have h2 := closestPoint_y (⟨25 / 2, ⟨x + 25 / 2, 555 + 25 / 2⟩⟩ : AabbCollisionCircle ℚ)
      ⟨⟨350, 580⟩, ⟨450, 600⟩⟩ (by norm_num)
    rw [if_neg (not_lt.2 hx1), if_neg (not_lt.2 hx2)] at h1
    have h3 := h2.trans (show (if (555 + 25 / 2 : ℚ) < 580 then (580 : ℚ)
      else if (600 : ℚ) < 555 + 25 / 2 then 600 else 555 + 25 / 2) = 580 by norm_num)
    cases hcp : closestPoint (⟨25 / 2, ⟨x + 25 / 2, 555 + 25 / 2⟩⟩ : AabbCollisionCircle ℚ)
      ⟨⟨350, 580⟩, ⟨450, 600⟩⟩ with
    | mk a b =>
      rw [hcp] at h1 h3
      simp only at h1 h3
      rw [h1, h3]
  have hs : Rat.sqrt (625 / 4) = 25 / 2 := by
    rw [show (625 / 4 : ℚ) = (25 / 2) * (25 / 2) by norm_num, Rat.sqrt_eq]; norm_num
  have hd : dot (⟨0, 25 / 2⟩ : Vec2 ℚ) ⟨0, 25 / 2⟩ = 625 / 4 := by norm_num [dot]
  have hsub : (⟨x + 25 / 2, 580⟩ : Vec2 ℚ).sub ⟨x + 25 / 2, 555 + 25 / 2⟩ = ⟨0, 25 / 2⟩ := by
    norm_num [Vec2.sub]
  simp only [checkCircleToBoxCollision, hc, hsub, length, directionFromTarget, normalize, hd, hs]
  norm_num [bestMatchLoop_eq, Vec2.muls]

end ExampleLemmas

/-! ## Paddle bounce -/

section PaddleProperties

variable {F : Type} [LinearOrderedField F]

theorem handleGameLevelPlayerCollision_sticky (sqrt : F → F) (gameLevel : GameLevel F)
    (collision : Collision F)
    (hcol : checkCircleToBoxCollision sqrt (ballObjectToAabbCollisionCircle gameLevel.ball)
      (gameObjectToAabbCollisionBox gameLevel.player.toGameObject) = some collision)
    (hs : gameLevel.ball.surfaceType = BallObjectSurfaceType.sticky) :
    (handleGameLevelPlayerCollision sqrt gameLevel).ball.velocity = Vec2.splat 0 := by
  unfold handleGameLevelPlayerCollision
  rw [hcol]
  simp only [hs, if_true]

theorem handleGameLevelPlayerCollision_reflect (sqrt : F → F) (gameLevel : GameLevel F)
    (collision : Collision F)
    (hcol : checkCircleToBoxCollision sqrt (ballObjectToAabbCollisionCircle gameLevel.ball)
      (gameObjectToAabbCollisionBox gameLevel.player.toGameObject) = some collision)
    (hr : gameLevel.ball.surfaceType = BallObjectSurfaceType.reflect) :
    (handleGameLevelPlayerCollision sqrt gameLevel).ball.velocity =
      ⟨((normalize sqrt (paddleRedirected gameLevel collision)).muls
          (length sqrt gameLevel.ball.velocity)).x,
        -1 * |((normalize sqrt (paddleRedirected gameLevel collision)).muls
          (length sqrt gameLevel.ball.velocity)).y|⟩ := by
  unfold handleGameLevelPlayerCollision
  rw [hcol]
  have hns : ¬ gameLevel.ball.surfaceType = BallObjectSurfaceType.sticky := by
    rw [hr]; decide
  simp only [hns, if_false, paddleRedirected, paddlePercentage, paddleRepositioned,
    Vec2.divs, Vec2.add]
  cases collision.direction <;> simp

/-- The squared norm of a normalised non-zero vector scaled by `l` is `l²`. -/
theorem dot_normalize_muls (sqrt : F → F) (u : Vec2 F) (l : F)
    (hu : u.x ≠ 0 ∨ u.y ≠ 0) (hs : IsSqrtOf (dot u u) (sqrt (dot u u))) :
    dot ((normalize sqrt u).muls l) ((normalize sqrt u).muls l) = l * l := by
  have hpos : 0 < sqrt (dot u u) := hs.pos_of_ne_zero (dot_self_ne_zero u hu)
  have hne : sqrt (dot u u) ≠ 0 := ne_of_gt hpos
  have hsq : u.x * u.x + u.y * u.y = sqrt (dot u u) * sqrt (dot u u) := by
    rw [hs.2]; rfl
  have key : ∀ r : F, r ≠ 0 → u.x * u.x + u.y * u.y = r * r →
      u.x * (1 / r) * l * (u.x * (1 / r) * l) + u.y * (1 / r) * l * (u.y * (1 / r) * l)
        = l * l := by
    intro r hr0 h
    field_simp
    rw [show u.x * l * (u.x * l) + u.y * l * (u.y * l) = (u.x * u.x + u.y * u.y) * (l * l) by
      ring, h]
    ring
  exact key _ hne hsq

/-- C6: a paddle bounce renormalises to the previous speed.  For a Reflect
ball whose circle collides with a paddle of non-zero width, with a non-zero
intermediate vector (speed * percentage * 2, velocity.y) and exact square
roots of its squared norm and of the squared speed, the squared speed and
the speed `|velocity|` after `handleGameLevelPlayerCollision` equal those
before the call. -/
theorem paddle_bounce_preserves_speed (sqrt : F → F) (gameLevel : GameLevel F)
    (collision : Collision F)
    (hr : gameLevel.ball.surfaceType = BallObjectSurfaceType.reflect)
    (hcol : checkCircleToBoxCollision sqrt (ballObjectToAabbCollisionCircle gameLevel.ball)
      (gameObjectToAabbCollisionBox gameLevel.player.toGameObject) = some collision)
    (_hw : gameLevel.player.size.x ≠ 0)
    (hne : (paddleRedirected gameLevel collision).x ≠ 0 ∨
      (paddleRedirected gameLevel collision).y ≠ 0)
    (hs1 : IsSqrtOf
      (dot (paddleRedirected gameLevel collision) (paddleRedirected gameLevel collision))
      (sqrt (dot (paddleRedirected gameLevel collision)
        (paddleRedirected gameLevel collision))))
    (hs2 : IsSqrtOf (dot gameLevel.ball.velocity gameLevel.ball.velocity)
      (sqrt (dot gameLevel.ball.velocity gameLevel.ball.velocity))) :
    dot (handleGameLevelPlayerCollision sqrt gameLevel).ball.velocity
        (handleGameLevelPlayerCollision sqrt gameLevel).ball.velocity
      = dot gameLevel.ball.velocity gameLevel.ball.velocity ∧
    length sqrt (handleGameLevelPlayerCollision sqrt gameLevel).ball.velocity
      = length sqrt gameLevel.ball.velocity := by
  have hv := handleGameLevelPlayerCollision_reflect sqrt gameLevel collision hcol hr
  have hd := dot_normalize_muls sqrt (paddleRedirected gameLevel collision)
    (length sqrt gameLevel.ball.velocity) hne hs1
  have hdot : dot (handleGameLevelPlayerCollision sqrt gameLevel).ball.velocity
      (handleGameLevelPlayerCollision sqrt gameLevel).ball.velocity
      = dot gameLevel.ball.velocity gameLevel.ball.velocity := by
    rw [hv]
    simp only [dot] at hd ⊢
    rw [show ∀ a : F, -1 * |a| * (-1 * |a|) = a * a from fun a => by
      rw [← abs_mul_abs_self a]; ring]
    rw [hd]
    exact hs2.2
  refine ⟨hdot, ?_⟩
  unfold length
  rw [hdot]

/-- C6 at a concrete input: a Reflect ball of configured speed 400 hits the
middle of the example paddle with velocity (3, 4); it leaves with speed 5,
the speed it came with. -/
theorem paddle_bounce_preserves_speed_witness :
    (exampleLevelWithBall ⟨775 / 2, 555⟩ ⟨3, 4⟩ BallObjectSurfaceType.reflect).ball.speed = 400 ∧
    length Rat.sqrt (handleGameLevelPlayerCollision Rat.sqrt
      (exampleLevelWithBall ⟨775 / 2, 555⟩ ⟨3, 4⟩ BallObjectSurfaceType.reflect)).ball.velocity
      = 5 := by
  have hcol : checkCircleToBoxCollision Rat.sqrt
      (ballObjectToAabbCollisionCircle
        (exampleLevelWithBall ⟨775 / 2, 555⟩ ⟨3, 4⟩ BallObjectSurfaceType.reflect).ball)
      (gameObjectToAabbCollisionBox
        (exampleLevelWithBall ⟨775 / 2, 555⟩ ⟨3, 4⟩
          BallObjectSurfaceType.reflect).player.toGameObject)
      = some ⟨Direction.up, ⟨0, 25 / 2⟩⟩ := by
    rw [exampleLevelWithBall_circle, exampleLevelWithBall_playerBox]
    exact examplePaddle_hit (775 / 2) (by norm_num) (by norm_num)
  have hred : paddleRedirected
      (exampleLevelWithBall ⟨775 / 2, 555⟩ ⟨3, 4⟩ BallObjectSurfaceType.reflect)
      ⟨Direction.up, ⟨0, 25 / 2⟩⟩ = ⟨0, 4⟩ := by
    norm_num [paddleRedirected, paddlePercentage, paddleRepositioned, exampleLevelWithBall,
      exampleLevel, createGameLevel, createBallObject, createPlayerObject, createGameLevelMap,
      exampleConfig]
  have hv : (exampleLevelWithBall ⟨775 / 2, 555⟩ ⟨3, 4⟩
      BallObjectSurfaceType.reflect).ball.velocity = ⟨3, 4⟩ := rfl
  have h16 : Rat.sqrt 16 = 4 := by norm_num
  have h25 : Rat.sqrt 25 = 5 := by norm_num
  have hd1 : dot (⟨0, 4⟩ : Vec2 ℚ) ⟨0, 4⟩ = 16 := by norm_num [dot]
  have hd2 : dot (⟨3, 4⟩ : Vec2 ℚ) ⟨3, 4⟩ = 25 := by norm_num [dot]
  have h := paddle_bounce_preserves_speed Rat.sqrt
    (exampleLevelWithBall ⟨775 / 2, 555⟩ ⟨3, 4⟩ BallObjectSurfaceType.reflect)
    ⟨Direction.up, ⟨0, 25 / 2⟩⟩ rfl hcol
    (by norm_num [exampleLevelWithBall, exampleLevel, createGameLevel, createPlayerObject,
      exampleConfig])
    (Or.inr (by rw [hred]; norm_num))
    (by rw [hred, hd1, h16]; exact ⟨by norm_num, by norm_num⟩)
    (by rw [hv, hd2, h25]; exact ⟨by norm_num, by norm_num⟩)
  refine ⟨by norm_num [exampleLevelWithBall, exampleLevel, createGameLevel, createBallObject,
    exampleConfig], ?_⟩
  rw [h.2, hv, length, hd2, h25]

/-- C7 fails as stated: a Sticky ball that hits the example paddle with
velocity (3, 4), and a Reflect ball that hits it with the horizontal velocity
(5, 0), both leave `handleGameLevelPlayerCollision` with `velocity.y = 0`,
which is not strictly negative. -/
theorem paddle_bounce_velocity_y_not_negative :
    (checkCircleToBoxCollision Rat.sqrt
      (ballObjectToAabbCollisionCircle
        (exampleLevelWithBall ⟨775 / 2, 555⟩ ⟨3, 4⟩ BallObjectSurfaceType.sticky).ball)
      (gameObjectToAabbCollisionBox
        (exampleLevelWithBall ⟨775 / 2, 555⟩ ⟨3, 4⟩
          BallObjectSurfaceType.sticky).player.toGameObject)).isSome = true ∧
    ¬ ((handleGameLevelPlayerCollision Rat.sqrt
      (exampleLevelWithBall ⟨775 / 2, 555⟩ ⟨3, 4⟩ BallObjectSurfaceType.sticky)).ball.velocity.y
      < 0) ∧
    (checkCircleToBoxCollision Rat.sqrt
      (ballObjectToAabbCollisionCircle
        (exampleLevelWithBall ⟨795 / 2, 555⟩ ⟨5, 0⟩ BallObjectSurfaceType.reflect).ball)
      (gameObjectToAabbCollisionBox
        (exampleLevelWithBall ⟨795 / 2, 555⟩ ⟨5, 0⟩
          BallObjectSurfaceType.reflect).player.toGameObject)).isSome = true ∧
    ¬ ((handleGameLevelPlayerCollision Rat.sqrt
      (exampleLevelWithBall ⟨795 / 2, 555⟩ ⟨5, 0⟩ BallObjectSurfaceType.reflect)).ball.velocity.y
      < 0) := by
  have hcolS : checkCircleToBoxCollision Rat.sqrt
      (ballObjectToAabbCollisionCircle
        (exampleLevelWithBall ⟨775 / 2, 555⟩ ⟨3, 4⟩ BallObjectSurfaceType.sticky).ball)
      (gameObjectToAabbCollisionBox
        (exampleLevelWithBall ⟨775 / 2, 555⟩ ⟨3, 4⟩
          BallObjectSurfaceType.sticky).player.toGameObject)
      = some ⟨Direction.up, ⟨0, 25 / 2⟩⟩ := by
    rw [exampleLevelWithBall_circle, exampleLevelWithBall_playerBox]
    exact examplePaddle_hit (775 / 2) (by norm_num) (by norm_num)
  have hcolR : checkCircleToBoxCollision Rat.sqrt
      (ballObjectToAabbCollisionCircle
        (exampleLevelWithBall ⟨795 / 2, 555⟩ ⟨5, 0⟩ BallObjectSurfaceType.reflect).ball)
      (gameObjectToAabbCollisionBox
        (exampleLevelWithBall ⟨795 / 2, 555⟩ ⟨5, 0⟩
          BallObjectSurfaceType.reflect).player.toGameObject)
      = some ⟨Direction.up, ⟨0, 25 / 2⟩⟩ := by
    rw [exampleLevelWithBall_circle, exampleLevelWithBall_playerBox]
    exact examplePaddle_hit (795 / 2) (by norm_num) (by norm_num)
  have hS : (handleGameLevelPlayerCollision Rat.sqrt
      (exampleLevelWithBall ⟨775 / 2, 555⟩ ⟨3, 4⟩ BallObjectSurfaceType.sticky)).ball.velocity.y
      = 0 := by
    rw [handleGameLevelPlayerCollision_sticky Rat.sqrt _ _ hcolS rfl]
    rfl
  have hR : (handleGameLevelPlayerCollision Rat.sqrt
      (exampleLevelWithBall ⟨795 / 2, 555⟩ ⟨5, 0⟩ BallObjectSurfaceType.reflect)).ball.velocity.y
      = 0 := by
    rw [handleGameLevelPlayerCollision_reflect Rat.sqrt _ _ hcolR rfl]
    simp [normalize, Vec2.muls, paddleRedirected, exampleLevelWithBall]
  refine ⟨by rw [hcolS]; rfl, ?_, by rw [hcolR]; rfl, ?_⟩
  · rw [hS]; exact lt_irrefl 0
  · rw [hR]; exact lt_irrefl 0

/-- C7 as amended: when the ball's circle collides with the paddle, the
ball's `velocity.y` after `handleGameLevelPlayerCollision` is at most 0 for a
Sticky ball and for a Reflect ball whose bounce is defined (paddle of
non-zero width, so that the percentage is a quotient by a non-zero number,
and a non-zero divisor of `glm::normalize` on the intermediate vector); a
Sticky ball leaves with velocity (0, 0); a Reflect ball whose incoming
`velocity.y` is not 0 (paddle of non-zero width, positive square roots of the
two squared norms, as the exact roots are) leaves with `velocity.y < 0`. -/
theorem paddle_bounce_velocity_y (sqrt : F → F) (gameLevel : GameLevel F)
    (collision : Collision F)
    (hcol : checkCircleToBoxCollision sqrt (ballObjectToAabbCollisionCircle gameLevel.ball)
      (gameObjectToAabbCollisionBox gameLevel.player.toGameObject) = some collision) :
    (gameLevel.ball.surfaceType = BallObjectSurfaceType.sticky ∨
        (gameLevel.ball.surfaceType = BallObjectSurfaceType.reflect ∧
          gameLevel.player.size.x ≠ 0 ∧
          normalizeDefined sqrt (paddleRedirected gameLevel collision)) →
      (handleGameLevelPlayerCollision sqrt gameLevel).ball.velocity.y ≤ 0) ∧
    (gameLevel.ball.surfaceType = BallObjectSurfaceType.sticky →
      (handleGameLevelPlayerCollision sqrt gameLevel).ball.velocity = ⟨0, 0⟩) ∧
    (gameLevel.ball.surfaceType = BallObjectSurfaceType.reflect →
      gameLevel.player.size.x ≠ 0 →
      gameLevel.ball.velocity.y ≠ 0 →
      0 < sqrt (dot (paddleRedirected gameLevel collision)
        (paddleRedirected gameLevel collision)) →
      0 < sqrt (dot gameLevel.ball.velocity gameLevel.ball.velocity) →
      (handleGameLevelPlayerCollision sqrt gameLevel).ball.velocity.y < 0) := by
  refine ⟨?_, ?_, ?_⟩
  · intro hdef
    rcases hdef with hst | ⟨hst, _, _⟩
    · rw [handleGameLevelPlayerCollision_sticky sqrt gameLevel collision hcol hst]
      exact le_refl _
    · rw [handleGameLevelPlayerCollision_reflect sqrt gameLevel collision hcol hst]
      simp only [neg_mul, one_mul, Left.neg_nonpos_iff]
      exact abs_nonneg _
  · intro hst
    rw [handleGameLevelPlayerCollision_sticky sqrt gameLevel collision hcol hst]
    rfl
  · intro hst _ hy hs1 hs2
    rw [handleGameLevelPlayerCollision_reflect sqrt gameLevel collision hcol hst]
    simp only [neg_mul, one_mul, Left.neg_neg_iff, abs_pos]
    simp only [normalize, Vec2.muls, length, paddleRedirected]
    exact mul_ne_zero (mul_ne_zero hy (ne_of_gt (one_div_pos.2 hs1))) (ne_of_gt hs2)

/-- C7 as amended at a concrete input: the Reflect ball that hits the middle
of the example paddle with velocity (3, 4) leaves with `velocity.y < 0`. -/
theorem paddle_bounce_velocity_y_witness :
    (handleGameLevelPlayerCollision Rat.sqrt
      (exampleLevelWithBall ⟨775 / 2, 555⟩ ⟨3, 4⟩ BallObjectSurfaceType.reflect)).ball.velocity.y
      < 0 := by
  have hcol : checkCircleToBoxCollision Rat.sqrt
      (ballObjectToAabbCollisionCircle
        (exampleLevelWithBall ⟨775 / 2, 555⟩ ⟨3, 4⟩ BallObjectSurfaceType.reflect).ball)
      (gameObjectToAabbCollisionBox
        (exampleLevelWithBall ⟨775 / 2, 555⟩ ⟨3, 4⟩
          BallObjectSurfaceType.reflect).player.toGameObject)
      = some ⟨Direction.up, ⟨0, 25 / 2⟩⟩ := by
    rw [exampleLevelWithBall_circle, exampleLevelWithBall_playerBox]
    exact examplePaddle_hit (775 / 2) (by norm_num) (by norm_num)
  have hred : paddleRedirected
      (exampleLevelWithBall ⟨775 / 2, 555⟩ ⟨3, 4⟩ BallObjectSurfaceType.reflect)
      ⟨Direction.up, ⟨0, 25 / 2⟩⟩ = ⟨0, 4⟩ := by
    norm_num [paddleRedirected, paddlePercentage, paddleRepositioned, exampleLevelWithBall,
      exampleLevel, createGameLevel, createBallObject, createPlayerObject, createGameLevelMap,
      exampleConfig]
  have hv : (exampleLevelWithBall ⟨775 / 2, 555⟩ ⟨3, 4⟩
      BallObjectSurfaceType.reflect).ball.velocity = ⟨3, 4⟩ := rfl
  have h16 : Rat.sqrt 16 = 4 := by norm_num
  have h25 : Rat.sqrt 25 = 5 := by norm_num
  have hd1 : dot (⟨0, 4⟩ : Vec2 ℚ) ⟨0, 4⟩ = 16 := by norm_num [dot]
  have hd2 : dot (⟨3, 4⟩ : Vec2 ℚ) ⟨3, 4⟩ = 25 := by norm_num [dot]
  exact (paddle_bounce_velocity_y Rat.sqrt
    (exampleLevelWithBall ⟨775 / 2, 555⟩ ⟨3, 4⟩ BallObjectSurfaceType.reflect)
    ⟨Direction.up, ⟨0, 25 / 2⟩⟩ hcol).2.2 rfl
    (by norm_num [exampleLevelWithBall, exampleLevel, createGameLevel, createPlayerObject,
      exampleConfig])
    (by rw [hv]; norm_num)
    (by rw [hred, hd1, h16]; norm_num)
    (by rw [hv, hd2, h25]; norm_num)

end PaddleProperties

/-! ## Ball loss -/

section BallLossProperties

variable {F : Type} [LinearOrderedField F]

theorem createRowBricks_alive (gameLevelConfig : GameLevelConfig F) (size : Vec2 F) (y x : Nat)
    (row : List (Tile F)) :
    ∀ brick ∈ createRowBricks gameLevelConfig size y x row,
      brick.status = GameObjectStatus.alive := by
  induction row generalizing x with
  | nil => intro brick h; simp [createRowBricks] at h
  | cons tile row ih =>
    intro brick h
    simp only [createRowBricks] at h
    split_ifs at h
    · rcases List.mem_cons.1 h with h | h
      · rw [h]
      · exact ih _ brick h
    · rcases List.mem_cons.1 h with h | h
      · rw [h]
      · exact ih _ brick h
    · exact ih _ brick h

theorem createGridBricks_alive (gameLevelConfig : GameLevelConfig F) (size : Vec2 F) (y : Nat)
    (grid : List (List (Tile F))) :
    ∀ brick ∈ createGridBricks gameLevelConfig size y grid,
      brick.status = GameObjectStatus.alive := by
  induction grid generalizing y with
  | nil => intro brick h; simp [createGridBricks] at h
  | cons row grid ih =>
    intro brick h
    simp only [createGridBricks] at h
    rcases List.mem_append.1 h with h | h
    · exact createRowBricks_alive gameLevelConfig size y 0 row brick h
    · exact ih _ brick h

theorem handleBallObjectMovement_bottom (indeterminate : BallObjectCollisionType) (dt : F)
    (gameLevel : GameLevel F) (h : reachesBottom dt gameLevel) :
    handleBallObjectMovement indeterminate dt gameLevel
      = createGameLevel indeterminate gameLevel.config := by
  obtain ⟨h1, h2, h3, h4⟩ := h
  unfold handleBallObjectMovement
  simp only [Vec2.add, Vec2.smul]
  rw [if_neg h1, if_neg h2, if_neg h3, if_pos h4]

/-- C8 fails as stated: in the example level with the ball at (1, 599) moving
with (-30, 40), a tenth of a second takes the ball to (-2, 603), below the
level height 600, but the left wall is handled first: the velocity becomes
(30, 40), the ball is put at (0, 603) and the level is not recreated. -/
theorem ball_below_level_not_recreated :
    ((exampleLevelWithBall ⟨1, 599⟩ ⟨-30, 40⟩ BallObjectSurfaceType.reflect).map.height : ℚ)
      < (exampleLevelWithBall ⟨1, 599⟩ ⟨-30, 40⟩ BallObjectSurfaceType.reflect).ball.position.y
        + 1 / 10 *
          (exampleLevelWithBall ⟨1, 599⟩ ⟨-30, 40⟩ BallObjectSurfaceType.reflect).ball.velocity.y ∧
    (handleBallObjectMovement BallObjectCollisionType.default (1 / 10 : ℚ)
      (exampleLevelWithBall ⟨1, 599⟩ ⟨-30, 40⟩ BallObjectSurfaceType.reflect)).ball.velocity
      = ⟨30, 40⟩ ∧
    (handleBallObjectMovement BallObjectCollisionType.default (1 / 10 : ℚ)
      (exampleLevelWithBall ⟨1, 599⟩ ⟨-30, 40⟩ BallObjectSurfaceType.reflect)).ball.position
      = ⟨0, 603⟩ ∧
    handleBallObjectMovement BallObjectCollisionType.default (1 / 10 : ℚ)
      (exampleLevelWithBall ⟨1, 599⟩ ⟨-30, 40⟩ BallObjectSurfaceType.reflect)
      ≠ createGameLevel BallObjectCollisionType.default
        (exampleLevelWithBall ⟨1, 599⟩ ⟨-30, 40⟩ BallObjectSurfaceType.reflect).config := by
  have hv : (handleBallObjectMovement BallObjectCollisionType.default (1 / 10 : ℚ)
      (exampleLevelWithBall ⟨1, 599⟩ ⟨-30, 40⟩ BallObjectSurfaceType.reflect)).ball.velocity
      = ⟨30, 40⟩ := by
    norm_num [handleBallObjectMovement, exampleLevelWithBall, Vec2.add, Vec2.smul]
  refine ⟨?_, hv, ?_, ?_⟩
  · norm_num [exampleLevelWithBall, exampleLevel, createGameLevel, createGameLevelMap,
      exampleConfig]
  · norm_num [handleBallObjectMovement, exampleLevelWithBall, Vec2.add, Vec2.smul]
  · intro h
    have h2 := congrArg (fun l => l.ball.velocity.x) h
    simp only [hv] at h2
    norm_num [createGameLevel, createBallObject, Vec2.splat] at h2

/-- C8 as amended: when after the position update no wall condition holds
(`x > 0`, `x + size.x < width`, `y > 0`) and the bottom edge of the ball has
reached the level height (`y + size.y ≥ height`), `handleBallObjectMovement`
returns `createGameLevel(config)`: the bricks are those of the tile map, all
Alive; the power-up list and the effect list are empty; the shake countdown
is 0 and the three flags are false; the paddle is at its spawn position with
the configured velocity and size; the ball is at its spawn position on the
paddle with velocity (0, 0) and surface mode Sticky. -/
theorem ball_loss_recreates_level (indeterminate : BallObjectCollisionType) (dt : F)
    (gameLevel : GameLevel F) (h : reachesBottom dt gameLevel) :
    handleBallObjectMovement indeterminate dt gameLevel
      = createGameLevel indeterminate gameLevel.config ∧
    (handleBallObjectMovement indeterminate dt gameLevel).config = gameLevel.config ∧
    (handleBallObjectMovement indeterminate dt gameLevel).map.bricks
      = (createGameLevelMap gameLevel.config).bricks ∧
    (∀ brick ∈ (handleBallObjectMovement indeterminate dt gameLevel).map.bricks,
      brick.status = GameObjectStatus.alive) ∧
    (handleBallObjectMovement indeterminate dt gameLevel).powerUps = [] ∧
    (handleBallObjectMovement indeterminate dt gameLevel).powerUpEffects = [] ∧
    (handleBallObjectMovement indeterminate dt gameLevel).shakeEffect.ttl = 0 ∧
    (handleBallObjectMovement indeterminate dt gameLevel).postProcessor
      = { confuse := false, chaos := false, shake := false } ∧
    (handleBallObjectMovement indeterminate dt gameLevel).player.position
      = ⟨max ((gameLevel.config.width : F) / 2 - gameLevel.config.playerConfig.size.x / 2) 0,
          (gameLevel.config.height : F) - gameLevel.config.playerConfig.size.y⟩ ∧
    (handleBallObjectMovement indeterminate dt gameLevel).player.velocity
      = gameLevel.config.playerConfig.velocity ∧
    (handleBallObjectMovement indeterminate dt gameLevel).player.size
      = gameLevel.config.playerConfig.size ∧
    (handleBallObjectMovement indeterminate dt gameLevel).ball.position
      = (handleBallObjectMovement indeterminate dt gameLevel).player.position.add
          ⟨gameLevel.config.playerConfig.size.x / 2 - gameLevel.config.ballConfig.radius,
            -gameLevel.config.ballConfig.radius * 2⟩ ∧
    (handleBallObjectMovement indeterminate dt gameLevel).ball.velocity = ⟨0, 0⟩ ∧
    (handleBallObjectMovement indeterminate dt gameLevel).ball.surfaceType
      = BallObjectSurfaceType.sticky := by
  rw [handleBallObjectMovement_bottom indeterminate dt gameLevel h]
  refine ⟨rfl, rfl, rfl, ?_, rfl, rfl, rfl, rfl, rfl, rfl, rfl, rfl, rfl, rfl⟩
  intro brick hb
  exact createGridBricks_alive gameLevel.config _ 0 _ brick hb

/-- C8 as amended at a concrete input: in the example level with the ball at
(100, 590) moving with (0, 100), a tenth of a second takes the bottom edge of
the ball to 625, past the level height 600 and clear of the walls, and the
level becomes the fresh example level. -/
theorem ball_loss_recreates_level_witness :
    reachesBottom (1 / 10 : ℚ)
      (exampleLevelWithBall ⟨100, 590⟩ ⟨0, 100⟩ BallObjectSurfaceType.reflect) ∧
    handleBallObjectMovement BallObjectCollisionType.default (1 / 10 : ℚ)
      (exampleLevelWithBall ⟨100, 590⟩ ⟨0, 100⟩ BallObjectSurfaceType.reflect) = exampleLevel := by
  have hb : reachesBottom (1 / 10 : ℚ)
      (exampleLevelWithBall ⟨100, 590⟩ ⟨0, 100⟩ BallObjectSurfaceType.reflect) := by
    norm_num [reachesBottom, exampleLevelWithBall, exampleLevel, createGameLevel,
      createGameLevelMap, createBallObject, exampleConfig, Vec2.splat]
  exact ⟨hb, (ball_loss_recreates_level BallObjectCollisionType.default (1 / 10 : ℚ)
    (exampleLevelWithBall ⟨100, 590⟩ ⟨0, 100⟩ BallObjectSurfaceType.reflect) hb).1⟩

end BallLossProperties

/-! ## Power-up effect life cycle -/

section EffectProperties

variable {F : Type} [LinearOrderedField F]

theorem powerUpEffectStep_deactivated (dt : F) (e : PowerUpEffect F)
    (h : e.status = PowerUpEffectStatus.deactivated) :
    powerUpEffectStep dt e = (none, none) := by
  simp [powerUpEffectStep, h]

theorem powerUpEffectStep_activate (dt : F) (e : PowerUpEffect F)
    (h : e.status = PowerUpEffectStatus.activate) :
    powerUpEffectStep dt e =
      (some { e with ttl := max (e.ttl - dt) 0, status := PowerUpEffectStatus.activated },
        some PowerUpCall.activate) := by
  simp [powerUpEffectStep, h]

theorem powerUpEffectStep_deactivate (dt : F) (e : PowerUpEffect F)
    (h : e.status = PowerUpEffectStatus.deactivate) :
    powerUpEffectStep dt e =
      (some { e with ttl := max (e.ttl - dt) 0, status := PowerUpEffectStatus.deactivated },
        some PowerUpCall.deactivate) := by
  simp [powerUpEffectStep, h]

theorem powerUpEffectStep_expired (dt : F) (e : PowerUpEffect F)
    (h : e.status = PowerUpEffectStatus.activated) (ht : max (e.ttl - dt) 0 ≤ 0) :
    powerUpEffectStep dt e =
      (some { e with ttl := max (e.ttl - dt) 0, status := PowerUpEffectStatus.deactivate },
        none) := by
  simp only [powerUpEffectStep, h]
  rw [if_neg (by decide), if_pos ⟨trivial, ht⟩]

theorem powerUpEffectStep_running (dt : F) (e : PowerUpEffect F)
    (h : e.status = PowerUpEffectStatus.activated) (ht : ¬ max (e.ttl - dt) 0 ≤ 0) :
    powerUpEffectStep dt e = (some { e with ttl := max (e.ttl - dt) 0 }, none) := by
  simp only [powerUpEffectStep, h]
  rw [if_neg (by decide), if_neg (fun hc => ht hc.2), if_neg (by decide), if_neg (by decide)]

theorem powerUpEffectStep_idle (dt : F) (e : PowerUpEffect F)
    (h : e.status = PowerUpEffectStatus.idle) :
    powerUpEffectStep dt e = (some { e with ttl := max (e.ttl - dt) 0 }, none) := by
  simp [powerUpEffectStep, h]

/-- The loop of `handleUpdatePowerUpEffect` treats the head of the list as
`powerUpEffectStep` says and makes exactly the call it reports. -/
theorem handleUpdatePowerUpEffectLoop_cons (dt : F) (e : PowerUpEffect F)
    (effects : List (PowerUpEffect F)) (gameLevel : GameLevel F) :
    handleUpdatePowerUpEffectLoop dt (e :: effects) gameLevel =
      ((powerUpEffectStep dt e).1.toList ++
          (handleUpdatePowerUpEffectLoop dt effects
            (applyPowerUpCall dt e gameLevel (powerUpEffectStep dt e).2)).1,
        (handleUpdatePowerUpEffectLoop dt effects
            (applyPowerUpCall dt e gameLevel (powerUpEffectStep dt e).2)).2) := by
  cases hst : e.status with
  | deactivated =>
    rw [powerUpEffectStep_deactivated dt e hst]
    simp [handleUpdatePowerUpEffectLoop, hst, applyPowerUpCall]
  | activate =>
    rw [powerUpEffectStep_activate dt e hst]
    simp [handleUpdatePowerUpEffectLoop, hst, applyPowerUpCall]
  | deactivate =>
    rw [powerUpEffectStep_deactivate dt e hst]
    simp [handleUpdatePowerUpEffectLoop, hst, applyPowerUpCall]
  | idle =>
    rw [powerUpEffectStep_idle dt e hst]
    simp [handleUpdatePowerUpEffectLoop, hst, applyPowerUpCall]
  | activated =>
    by_cases ht : max (e.ttl - dt) 0 ≤ 0
    · rw [powerUpEffectStep_expired dt e hst ht]
      simp only [handleUpdatePowerUpEffectLoop, hst]
      rw [if_neg (by decide), if_pos ⟨trivial, ht⟩]
      simp [applyPowerUpCall]
    · rw [powerUpEffectStep_running dt e hst ht]
      simp only [handleUpdatePowerUpEffectLoop, hst]
      rw [if_neg (by decide), if_neg (fun hc => ht hc.2), if_neg (by decide),
        if_neg (by decide)]
      simp [applyPowerUpCall]

theorem handleUpdatePowerUpEffectLoop_effects (dt : F) (effects : List (PowerUpEffect F))
    (gameLevel : GameLevel F) :
    (handleUpdatePowerUpEffectLoop dt effects gameLevel).1
      = effects.filterMap (fun e => (powerUpEffectStep dt e).1) := by
  induction effects generalizing gameLevel with
  | nil => rfl
  | cons e effects ih =>
    rw [handleUpdatePowerUpEffectLoop_cons, ih]
    cases h : (powerUpEffectStep dt e).1 <;> simp [List.filterMap_cons, h]

/-- One pass never moves a status backwards and never skips one. -/
theorem powerUpEffectStep_status (dt : F) (e next : PowerUpEffect F)
    (h : (powerUpEffectStep dt e).1 = some next) :
    next.status = e.status ∨ some next.status = nextStatus e.status := by
  cases hst : e.status with
  | deactivated => rw [powerUpEffectStep_deactivated dt e hst] at h; cases h
  | activate =>
    rw [powerUpEffectStep_activate dt e hst] at h
    simp only [Option.some.injEq] at h
    rw [← h]; right; rfl
  | deactivate =>
    rw [powerUpEffectStep_deactivate dt e hst] at h
    simp only [Option.some.injEq] at h
    rw [← h]; right; rfl
  | idle =>
    rw [powerUpEffectStep_idle dt e hst] at h
    simp only [Option.some.injEq] at h
    rw [← h]; left; exact hst
  | activated =>
    by_cases ht : max (e.ttl - dt) 0 ≤ 0
    · rw [powerUpEffectStep_expired dt e hst ht] at h
      simp only [Option.some.injEq] at h
      rw [← h]; right; rfl
    · rw [powerUpEffectStep_running dt e hst ht] at h
      simp only [Option.some.injEq] at h
      rw [← h]; left; exact hst

theorem powerUpEffectStep_call_activate (dt : F) (e : PowerUpEffect F) :
    (powerUpEffectStep dt e).2 = some PowerUpCall.activate ↔
      e.status = PowerUpEffectStatus.activate := by
  cases hst : e.status with
  | deactivated => rw [powerUpEffectStep_deactivated dt e hst]; simp
  | activate => rw [powerUpEffectStep_activate dt e hst]; simp
  | deactivate => rw [powerUpEffectStep_deactivate dt e hst]; simp
  | idle => rw [powerUpEffectStep_idle dt e hst]; simp
  | activated =>
    by_cases ht : max (e.ttl - dt) 0 ≤ 0
    · rw [powerUpEffectStep_expired dt e hst ht]; simp
    · rw [powerUpEffectStep_running dt e hst ht]; simp

theorem powerUpEffectStep_call_deactivate (dt : F) (e : PowerUpEffect F) :
    (powerUpEffectStep dt e).2 = some PowerUpCall.deactivate ↔
      e.status = PowerUpEffectStatus.deactivate := by
  cases hst : e.status with
  | deactivated => rw [powerUpEffectStep_deactivated dt e hst]; simp
  | activate => rw [powerUpEffectStep_activate dt e hst]; simp
  | deactivate => rw [powerUpEffectStep_deactivate dt e hst]; simp
  | idle => rw [powerUpEffectStep_idle dt e hst]; simp
  | activated =>
    by_cases ht : max (e.ttl - dt) 0 ≤ 0
    · rw [powerUpEffectStep_expired dt e hst ht]; simp
    · rw [powerUpEffectStep_running dt e hst ht]; simp

theorem powerUpEffectStep_erased (dt : F) (e : PowerUpEffect F) :
    (powerUpEffectStep dt e).1 = none ↔ e.status = PowerUpEffectStatus.deactivated := by
  cases hst : e.status with
  | deactivated => rw [powerUpEffectStep_deactivated dt e hst]; simp
  | activate => rw [powerUpEffectStep_activate dt e hst]; simp
  | deactivate => rw [powerUpEffectStep_deactivate dt e hst]; simp
  | idle => rw [powerUpEffectStep_idle dt e hst]; simp
  | activated =>
    by_cases ht : max (e.ttl - dt) 0 ≤ 0
    · rw [powerUpEffectStep_expired dt e hst ht]; simp
    · rw [powerUpEffectStep_running dt e hst ht]; simp

theorem powerUpEffectRun_cons_some (dt : F) (dts : List F) (e next : PowerUpEffect F)
    (h : (powerUpEffectStep dt e).1 = some next) :
    powerUpEffectRun (dt :: dts) e =
      ((powerUpEffectRun dts next).1,
        (powerUpEffectStep dt e).2.toList ++ (powerUpEffectRun dts next).2) := by
  simp only [powerUpEffectRun, h]

theorem powerUpEffectRun_cons_none (dt : F) (dts : List F) (e : PowerUpEffect F)
    (h : (powerUpEffectStep dt e).1 = none) :
    powerUpEffectRun (dt :: dts) e = (none, []) := by
  simp only [powerUpEffectRun, h]

/-- The calls made for an effect are an initial part of the calls still due
for its status, and all of them once the effect is erased. -/
theorem powerUpEffectRun_calls (dts : List F) (e : PowerUpEffect F) :
    (powerUpEffectRun dts e).2 <+: remainingCalls e.status ∧
      ((powerUpEffectRun dts e).1 = none →
        (powerUpEffectRun dts e).2 = remainingCalls e.status) := by
  induction dts generalizing e with
  | nil => simp [powerUpEffectRun]
  | cons dt dts ih =>
    cases hst : e.status with
    | deactivated =>
      rw [powerUpEffectRun_cons_none dt dts e (by rw [powerUpEffectStep_deactivated dt e hst])]
      simp [remainingCalls]
    | activate =>
      have hs := powerUpEffectStep_activate dt e hst
      rw [powerUpEffectRun_cons_some dt dts e _ (by rw [hs]), hs]
      have h := ih { e with ttl := max (e.ttl - dt) 0, status := PowerUpEffectStatus.activated }
      simp only [remainingCalls] at h ⊢
      refine ⟨?_, fun hn => ?_⟩
      · simpa [List.cons_prefix_cons] using h.1
      · simp [h.2 hn]
    | deactivate =>
      have hs := powerUpEffectStep_deactivate dt e hst
      rw [powerUpEffectRun_cons_some dt dts e _ (by rw [hs]), hs]
      have h := ih { e with ttl := max (e.ttl - dt) 0, status := PowerUpEffectStatus.deactivated }
      simp only [remainingCalls, List.prefix_nil] at h ⊢
      simp [h.1]
    | idle =>
      have hs := powerUpEffectStep_idle dt e hst
      rw [powerUpEffectRun_cons_some dt dts e _ (by rw [hs]), hs]
      have h := ih { e with ttl := max (e.ttl - dt) 0 }
      simp only [hst, remainingCalls] at h ⊢
      simpa using h
    | activated =>
      by_cases ht : max (e.ttl - dt) 0 ≤ 0
      · have hs := powerUpEffectStep_expired dt e hst ht
        rw [powerUpEffectRun_cons_some dt dts e _ (by rw [hs]), hs]
        have h := ih { e with ttl := max (e.ttl - dt) 0, status := PowerUpEffectStatus.deactivate }
        simp only [remainingCalls] at h ⊢
        simpa using h
      · have hs := powerUpEffectStep_running dt e hst ht
        rw [powerUpEffectRun_cons_some dt dts e _ (by rw [hs]), hs]
        have h := ih { e with ttl := max (e.ttl - dt) 0 }
        simp only [hst, remainingCalls] at h ⊢
        simpa using h

theorem powerUpEffectRun_deactivated (dts : List F) (e : PowerUpEffect F)
    (hst : e.status = PowerUpEffectStatus.deactivated) (hl : 1 ≤ dts.length) :
    (powerUpEffectRun dts e).1 = none := by
  cases dts with
  | nil => simp at hl
  | cons dt dts =>
    rw [powerUpEffectRun_cons_none dt dts e (by rw [powerUpEffectStep_deactivated dt e hst])]

theorem powerUpEffectRun_deactivate (dts : List F) (e : PowerUpEffect F)
    (hst : e.status = PowerUpEffectStatus.deactivate) (hl : 2 ≤ dts.length) :
    (powerUpEffectRun dts e).1 = none := by
  cases dts with
  | nil => simp at hl
  | cons dt dts =>
    have hs := powerUpEffectStep_deactivate dt e hst
    rw [powerUpEffectRun_cons_some dt dts e _ (by rw [hs])]
    exact powerUpEffectRun_deactivated dts _ rfl (by simp at hl; omega)

theorem powerUpEffectRun_expired (dts : List F) (e : PowerUpEffect F)
    (hst : e.status = PowerUpEffectStatus.activated) (ht : e.ttl ≤ 0)
    (hnn : ∀ dt ∈ dts, 0 ≤ dt) (hl : 3 ≤ dts.length) :
    (powerUpEffectRun dts e).1 = none := by
  cases dts with
  | nil => simp at hl
  | cons dt dts =>
    have hdt : 0 ≤ dt := hnn dt (List.mem_cons_self _ _)
    have hmax : max (e.ttl - dt) 0 ≤ 0 := max_le (by linarith) (le_refl 0)
    have hs := powerUpEffectStep_expired dt e hst hmax
    rw [powerUpEffectRun_cons_some dt dts e _ (by rw [hs])]
    exact powerUpEffectRun_deactivate dts _ rfl (by simp at hl; omega)

/-- An effect whose countdown is over is erased within three frames. -/
theorem powerUpEffectRun_expiring (dts : List F) (e : PowerUpEffect F) (he : Expiring e)
    (hnn : ∀ dt ∈ dts, 0 ≤ dt) (hl : 3 ≤ dts.length) :
    (powerUpEffectRun dts e).1 = none := by
  rcases he with ⟨hst, ht⟩ | hst | hst
  · exact powerUpEffectRun_expired dts e hst ht hnn hl
  · exact powerUpEffectRun_deactivate dts e hst (by omega)
  · exact powerUpEffectRun_deactivated dts e hst (by omega)

/-- An Activated effect is erased within three frames of the frame in which
the accumulated time reaches its time-to-live. -/
theorem powerUpEffectRun_activated (pre post : List F) (e : PowerUpEffect F)
    (hst : e.status = PowerUpEffectStatus.activated)
    (hpre : ∀ dt ∈ pre, 0 ≤ dt) (hpost : ∀ dt ∈ post, 0 ≤ dt)
    (hsum : e.ttl ≤ pre.sum) (hl : 3 ≤ post.length) :
    (powerUpEffectRun (pre ++ post) e).1 = none := by
  induction pre generalizing e with
  | nil =>
    simp only [List.sum_nil] at hsum
    simpa using powerUpEffectRun_expired post e hst hsum hpost hl
  | cons dt pre ih =>
    have hdt : 0 ≤ dt := hpre dt (List.mem_cons_self _ _)
    have hpre2 : ∀ d ∈ pre, 0 ≤ d := fun d hd => hpre d (List.mem_cons_of_mem _ hd)
    simp only [List.sum_cons] at hsum
    rw [List.cons_append]
    by_cases ht : max (e.ttl - dt) 0 ≤ 0
    · have hs := powerUpEffectStep_expired dt e hst ht
      rw [powerUpEffectRun_cons_some dt _ e _ (by rw [hs])]
      exact powerUpEffectRun_deactivate _ _ rfl (by simp; omega)
    · have hs := powerUpEffectStep_running dt e hst ht
      rw [powerUpEffectRun_cons_some dt _ e _ (by rw [hs])]
      refine ih _ hst hpre2 ?_
      exact max_le (by linarith) (List.sum_nonneg hpre2)

/-- C9: the life cycle of a power-up effect.  `handleUpdatePowerUpEffect`
treats every effect of the list, in order, as `powerUpEffectStep` says and
makes exactly the call it reports.  One pass leaves the status unchanged or
moves it to its immediate successor in the order Activate, Activated,
Deactivate, Deactivated; `activatePowerUp` is called exactly on the pass that
takes Activate to Activated and `deactivatePowerUp` exactly on the pass that
takes Deactivate to Deactivated; the effect is erased exactly by a pass that
finds it Deactivated.  For an effect made by `createPowerUpEffect` the calls
made over any sequence of frames are an initial part of activate, deactivate
and are exactly these two once it is erased; and when the deltas are
non-negative and their sum over the first frames (at least one) reaches the
configured time-to-live, the effect is erased after three further frames. -/
theorem powerUpEffect_life_cycle (config : PowerUpConfig F) :
    (createPowerUpEffect config).status = PowerUpEffectStatus.activate ∧
    (createPowerUpEffect config).ttl = config.ttl ∧
    (∀ (dt : F) (e : PowerUpEffect F) (effects : List (PowerUpEffect F))
        (gameLevel : GameLevel F),
      handleUpdatePowerUpEffectLoop dt (e :: effects) gameLevel =
        ((powerUpEffectStep dt e).1.toList ++
            (handleUpdatePowerUpEffectLoop dt effects
              (applyPowerUpCall dt e gameLevel (powerUpEffectStep dt e).2)).1,
          (handleUpdatePowerUpEffectLoop dt effects
              (applyPowerUpCall dt e gameLevel (powerUpEffectStep dt e).2)).2)) ∧
    (∀ (dt : F) (gameLevel : GameLevel F),
      (handleUpdatePowerUpEffect dt gameLevel).powerUpEffects
        = gameLevel.powerUpEffects.filterMap (fun e => (powerUpEffectStep dt e).1)) ∧
    (∀ (dt : F) (e next : PowerUpEffect F), (powerUpEffectStep dt e).1 = some next →
      next.status = e.status ∨ some next.status = nextStatus e.status) ∧
    (∀ (dt : F) (e : PowerUpEffect F), e.status = PowerUpEffectStatus.activate →
      powerUpEffectStep dt e =
        (some { e with ttl := max (e.ttl - dt) 0, status := PowerUpEffectStatus.activated },
          some PowerUpCall.activate)) ∧
    (∀ (dt : F) (e : PowerUpEffect F), e.status = PowerUpEffectStatus.deactivate →
      powerUpEffectStep dt e =
        (some { e with ttl := max (e.ttl - dt) 0, status := PowerUpEffectStatus.deactivated },
          some PowerUpCall.deactivate)) ∧
    (∀ (dt : F) (e : PowerUpEffect F),
      (powerUpEffectStep dt e).2 = some PowerUpCall.activate ↔
        e.status = PowerUpEffectStatus.activate) ∧
    (∀ (dt : F) (e : PowerUpEffect F),
      (powerUpEffectStep dt e).2 = some PowerUpCall.deactivate ↔
        e.status = PowerUpEffectStatus.deactivate) ∧
    (∀ (dt : F) (e : PowerUpEffect F),
      (powerUpEffectStep dt e).1 = none ↔ e.status = PowerUpEffectStatus.deactivated) ∧
    (∀ dts : List F, (powerUpEffectRun dts (createPowerUpEffect config)).2
      <+: [PowerUpCall.activate, PowerUpCall.deactivate]) ∧
    (∀ dts : List F, (powerUpEffectRun dts (createPowerUpEffect config)).1 = none →
      (powerUpEffectRun dts (createPowerUpEffect config)).2
        = [PowerUpCall.activate, PowerUpCall.deactivate]) ∧
    (∀ pre post : List F, pre ≠ [] → (∀ dt ∈ pre, 0 ≤ dt) → (∀ dt ∈ post, 0 ≤ dt) →
      config.ttl ≤ pre.sum → 3 ≤ post.length →
      (powerUpEffectRun (pre ++ post) (createPowerUpEffect config)).1 = none) := by
  refine ⟨rfl, rfl, handleUpdatePowerUpEffectLoop_cons, ?_, powerUpEffectStep_status,
    powerUpEffectStep_activate, powerUpEffectStep_deactivate, powerUpEffectStep_call_activate,
    powerUpEffectStep_call_deactivate, powerUpEffectStep_erased, ?_, ?_, ?_⟩
  · intro dt gameLevel
    exact handleUpdatePowerUpEffectLoop_effects dt gameLevel.powerUpEffects gameLevel
  · intro dts
    exact (powerUpEffectRun_calls dts (createPowerUpEffect config)).1
  · intro dts
    exact (powerUpEffectRun_calls dts (createPowerUpEffect config)).2
  · intro pre post hne hpre hpost hsum hl
    cases pre with
    | nil => exact absurd rfl hne
    | cons dt pre =>
      have hdt : 0 ≤ dt := hpre dt (List.mem_cons_self _ _)
      have hpre2 : ∀ d ∈ pre, 0 ≤ d := fun d hd => hpre d (List.mem_cons_of_mem _ hd)
      simp only [List.sum_cons] at hsum
      have hs := powerUpEffectStep_activate dt (createPowerUpEffect config) rfl
      rw [List.cons_append, powerUpEffectRun_cons_some dt _ _ _ (by rw [hs])]
      refine powerUpEffectRun_activated pre post _ rfl hpre2 hpost ?_ hl
      exact max_le (by simp only [createPowerUpEffect]; linarith) (List.sum_nonneg hpre2)

/-- C9 at a concrete input: the Speed effect of the example configuration
(time-to-live 10) over frames of 4, 7, 0, 0 and 0 seconds: the accumulated
time reaches 10 in the second frame and the effect is gone after the fifth,
with one activation and one deactivation. -/
theorem powerUpEffect_life_cycle_witness :
    (powerUpEffectRun [4, 7, 0, 0, 0]
      (createPowerUpEffect (⟨PowerUpType.speed, 2, 10, 4, ⟨0, 120⟩, ⟨20, 20⟩,
        ⟨1 / 2, 1 / 2, 1⟩⟩ : PowerUpConfig ℚ))).1 = none ∧
    (powerUpEffectRun [4, 7, 0, 0, 0]
      (createPowerUpEffect (⟨PowerUpType.speed, 2, 10, 4, ⟨0, 120⟩, ⟨20, 20⟩,
        ⟨1 / 2, 1 / 2, 1⟩⟩ : PowerUpConfig ℚ))).2
      = [PowerUpCall.activate, PowerUpCall.deactivate] := by
  have h := powerUpEffect_life_cycle (⟨PowerUpType.speed, 2, 10, 4, ⟨0, 120⟩, ⟨20, 20⟩,
    ⟨1 / 2, 1 / 2, 1⟩⟩ : PowerUpConfig ℚ)
  have hn := h.2.2.2.2.2.2.2.2.2.2.2.2 [4, 7] [0, 0, 0] (by simp)
    (by intro dt hdt; simp at hdt; rcases hdt with rfl | rfl <;> norm_num)
    (by intro dt hdt; simp at hdt; rw [hdt])
    (by norm_num) (by simp)
  exact ⟨hn, h.2.2.2.2.2.2.2.2.2.2.2.1 _ hn⟩

end EffectProperties

/-! ## Particle trail -/

section ParticleProperties

variable {F : Type} [LinearOrderedField F]

/-- One round of the respawn phase leaves every particle with `life > 0`
where it is and as it is. -/
theorem respawnFirstDead_alive (ballObject : BallObject F) (particles : List (ParticleObject F))
    (s : Rand) (i : Nat) (p : ParticleObject F) (hp : particles[i]? = some p)
    (hl : 0 < p.life) :
    (respawnFirstDead ballObject particles s).1[i]? = some p := by
  induction particles generalizing i with
  | nil => simp at hp
  | cons q rest ih =>
    simp only [respawnFirstDead]
    split_ifs with hq
    · cases i with
      | zero =>
        simp only [List.getElem?_cons_zero, Option.some.injEq] at hp
        rw [hp] at hq
        exact absurd hl (not_lt.2 hq)
      | succ i => simpa using hp
    · cases i with
      | zero => simpa using hp
      | succ i =>
        simp only [List.getElem?_cons_succ] at hp ⊢
        exact ih i hp

/-- One round of the respawn phase either changes nothing or respawns the
first particle with `life ≤ 0`, and no other. -/
theorem respawnFirstDead_spec (ballObject : BallObject F) (particles : List (ParticleObject F))
    (s : Rand) :
    ((∀ q ∈ particles, 0 < q.life) ∧ respawnFirstDead ballObject particles s = (particles, s)) ∨
    ∃ front p back, particles = front ++ p :: back ∧ (∀ q ∈ front, 0 < q.life) ∧ p.life ≤ 0 ∧
      respawnFirstDead ballObject particles s =
        (front ++ (respawnBallObjectParticle ballObject p s).1 :: back,
          (respawnBallObjectParticle ballObject p s).2) := by
  induction particles with
  | nil => left; exact ⟨by simp, rfl⟩
  | cons q rest ih =>
    by_cases hq : q.life ≤ 0
    · right
      refine ⟨[], q, rest, rfl, by simp, hq, ?_⟩
      simp [respawnFirstDead, hq]
    · rcases ih with ⟨hall, heq⟩ | ⟨front, p, back, hsplit, hfront, hp, heq⟩
      · left
        refine ⟨?_, ?_⟩
        · intro r hr
          rcases List.mem_cons.1 hr with h | h
          · rw [h]; exact not_le.1 hq
          · exact hall r h
        · simp [respawnFirstDead, hq, heq]
      · right
        refine ⟨q :: front, p, back, by rw [hsplit]; rfl, ?_, hp, ?_⟩
        · intro r hr
          rcases List.mem_cons.1 hr with h | h
          · rw [h]; exact not_le.1 hq
          · exact hfront r h
        · simp [respawnFirstDead, hq, heq]

theorem respawnRounds_alive (ballObject : BallObject F) (count : Nat)
    (particles : List (ParticleObject F)) (s : Rand) (i : Nat) (p : ParticleObject F)
    (hp : particles[i]? = some p) (hl : 0 < p.life) :
    (respawnRounds ballObject count particles s).1[i]? = some p := by
  induction count generalizing particles s with
  | zero => simpa [respawnRounds] using hp
  | succ count ih =>
    simp only [respawnRounds]
    exact ih _ _ (respawnFirstDead_alive ballObject particles s i p hp hl)

theorem handleBallObjectParticles_alive (dt : F) (gameLevel : GameLevel F) (s : Rand) (i : Nat)
    (p : ParticleObject F) (hp : gameLevel.ball.particles[i]? = some p) (hl : 0 < p.life) :
    (handleBallObjectParticles dt gameLevel s).1.ball.particles[i]? = some (ageParticle dt p) := by
  simp only [handleBallObjectParticles, List.getElem?_map]
  rw [respawnRounds_alive gameLevel.ball 2 gameLevel.ball.particles s i p hp hl]
  rfl

theorem ageParticle_life (dt : F) (p : ParticleObject F) :
    (ageParticle dt p).life = p.life - dt := by
  unfold ageParticle
  simp only
  split_ifs <;> rfl

theorem ageParticle_velocity (dt : F) (p : ParticleObject F) :
    (ageParticle dt p).velocity = p.velocity := by
  unfold ageParticle
  simp only
  split_ifs <;> rfl

/-- C10 fails as stated: with the frame delta 0, which the driver may supply,
the particle of life 1/2 at the head of the pool still has life 1/2 after
`handleBallObjectParticles`; its life has not become strictly smaller. -/
theorem particle_life_not_decreased_at_zero_delta :
    (exampleLevelWithParticles ⟨30, 40⟩
      [⟨⟨1, 2⟩, ⟨3, 4⟩, ⟨1, 1, 1, 1⟩, 1 / 2⟩, ⟨⟨0, 0⟩, ⟨0, 0⟩, ⟨0, 0, 0, 0⟩, 0⟩]).ball.particles[0]?
      = some ⟨⟨1, 2⟩, ⟨3, 4⟩, ⟨1, 1, 1, 1⟩, 1 / 2⟩ ∧
    (0 : ℚ) < 1 / 2 ∧
    (handleBallObjectParticles (0 : ℚ)
      (exampleLevelWithParticles ⟨30, 40⟩
        [⟨⟨1, 2⟩, ⟨3, 4⟩, ⟨1, 1, 1, 1⟩, 1 / 2⟩, ⟨⟨0, 0⟩, ⟨0, 0⟩, ⟨0, 0, 0, 0⟩, 0⟩])
      (fun _ => 0)).1.ball.particles[0]? = some ⟨⟨1, 2⟩, ⟨3, 4⟩, ⟨1, 1, 1, 1⟩, 1 / 2⟩ ∧
    ((handleBallObjectParticles (0 : ℚ)
      (exampleLevelWithParticles ⟨30, 40⟩
        [⟨⟨1, 2⟩, ⟨3, 4⟩, ⟨1, 1, 1, 1⟩, 1 / 2⟩, ⟨⟨0, 0⟩, ⟨0, 0⟩, ⟨0, 0, 0, 0⟩, 0⟩])
      (fun _ => 0)).1.ball.particles[0]?).map (fun q => decide (q.life < 1 / 2))
      = some false := by
  have h := handleBallObjectParticles_alive (0 : ℚ)
    (exampleLevelWithParticles ⟨30, 40⟩
      [⟨⟨1, 2⟩, ⟨3, 4⟩, ⟨1, 1, 1, 1⟩, 1 / 2⟩, ⟨⟨0, 0⟩, ⟨0, 0⟩, ⟨0, 0, 0, 0⟩, 0⟩])
    (fun _ => 0) 0 ⟨⟨1, 2⟩, ⟨3, 4⟩, ⟨1, 1, 1, 1⟩, 1 / 2⟩ rfl (by norm_num)
  have ha : ageParticle (0 : ℚ) ⟨⟨1, 2⟩, ⟨3, 4⟩, ⟨1, 1, 1, 1⟩, 1 / 2⟩
      = ⟨⟨1, 2⟩, ⟨3, 4⟩, ⟨1, 1, 1, 1⟩, 1 / 2⟩ := by
    norm_num [ageParticle, Vec2.sub, Vec2.muls]
  rw [ha] at h
  refine ⟨rfl, by norm_num, h, ?_⟩
  rw [h]
  simp

/-- C10 as amended: a particle with `life > 0` before a tick is not respawned
by `handleBallObjectParticles` (the respawn phase leaves it where it is and as
it is, and a round of that phase respawns only the first particle with
`life ≤ 0`); after the tick it is the aged particle, with the same velocity
and `life' = life - dt`, which is at most its old life when `dt ≥ 0` and
strictly smaller when `dt > 0`. -/
theorem particle_life_decreases (dt : F) (gameLevel : GameLevel F) (s : Rand) (i : Nat)
    (p : ParticleObject F) (hp : gameLevel.ball.particles[i]? = some p) (hl : 0 < p.life) :
    (respawnRounds gameLevel.ball 2 gameLevel.ball.particles s).1[i]? = some p ∧
    (handleBallObjectParticles dt gameLevel s).1.ball.particles[i]? = some (ageParticle dt p) ∧
    (ageParticle dt p).velocity = p.velocity ∧
    (ageParticle dt p).life = p.life - dt ∧
    (0 ≤ dt → (ageParticle dt p).life ≤ p.life) ∧
    (0 < dt → (ageParticle dt p).life < p.life) ∧
    (∀ (particles : List (ParticleObject F)) (s1 : Rand),
      ((∀ q ∈ particles, 0 < q.life) ∧
        respawnFirstDead gameLevel.ball particles s1 = (particles, s1)) ∨
      ∃ front r back, particles = front ++ r :: back ∧ (∀ q ∈ front, 0 < q.life) ∧
        r.life ≤ 0 ∧
        respawnFirstDead gameLevel.ball particles s1 =
          (front ++ (respawnBallObjectParticle gameLevel.ball r s1).1 :: back,
            (respawnBallObjectParticle gameLevel.ball r s1).2)) := by
  refine ⟨respawnRounds_alive gameLevel.ball 2 _ s i p hp hl,
    handleBallObjectParticles_alive dt gameLevel s i p hp hl, ageParticle_velocity dt p,
    ageParticle_life dt p, ?_, ?_, respawnFirstDead_spec gameLevel.ball⟩
  · intro h; rw [ageParticle_life]; linarith
  · intro h; rw [ageParticle_life]; linarith

/-- C10 as amended at a concrete input: over a frame of a tenth of a second
the particle of life 1/2 at the head of the pool is aged to life 2/5. -/
theorem particle_life_decreases_witness :
    ((handleBallObjectParticles (1 / 10 : ℚ)
      (exampleLevelWithParticles ⟨30, 40⟩
        [⟨⟨1, 2⟩, ⟨3, 4⟩, ⟨1, 1, 1, 1⟩, 1 / 2⟩, ⟨⟨0, 0⟩, ⟨0, 0⟩, ⟨0, 0, 0, 0⟩, 0⟩])
      (fun _ => 0)).1.ball.particles[0]?).map (fun q => q.life) = some (2 / 5) := by
  have h := particle_life_decreases (1 / 10 : ℚ)
    (exampleLevelWithParticles ⟨30, 40⟩
      [⟨⟨1, 2⟩, ⟨3, 4⟩, ⟨1, 1, 1, 1⟩, 1 / 2⟩, ⟨⟨0, 0⟩, ⟨0, 0⟩, ⟨0, 0, 0, 0⟩, 0⟩])
    (fun _ => 0) 0 ⟨⟨1, 2⟩, ⟨3, 4⟩, ⟨1, 1, 1, 1⟩, 1 / 2⟩ rfl (by norm_num)
  rw [h.2.1, Option.map_some', h.2.2.2.1]
  norm_num

end ParticleProperties

/-! ## Scenario 1 -/

section Scenario1Properties
variable {F : Type} [LinearOrderedField F]

/-- A hit on an Alive brick that is Destroyable, or that meets a ball not in
PassThrough mode, gives the ball the collision response. -/
theorem brickCollisionBody_response (sqrt : F → F) (circle : AabbCollisionCircle F)
    (brick : GameObject F) (gameLevel : GameLevel F) (s : Rand) (collision : Collision F)
    (halive : brick.status = GameObjectStatus.alive)
    (hcol : checkCircleToBoxCollision sqrt circle (gameObjectToAabbCollisionBox brick)
      = some collision)
    (hmode : brick.bodyType = GameObjectBodyType.destroyable ∨
      gameLevel.ball.collisionType ≠ BallObjectCollisionType.passThrough) :
    (brickCollisionBody sqrt circle brick gameLevel s).2.1.ball
      = brickCollisionResponse collision gameLevel.ball := by
  unfold brickCollisionBody
  rw [if_neg (by rw [halive]; simp), hcol]
  simp only
  by_cases h2 : brick.bodyType = GameObjectBodyType.destroyable
  · rw [if_pos h2]
    simp only [spawnPowerUps_ball]
  · rw [if_neg h2]
    have hpt : gameLevel.ball.collisionType ≠ BallObjectCollisionType.passThrough := by
      rcases hmode with h | h
      · exact absurd h h2
      · exact h
    by_cases h3 : brick.bodyType = GameObjectBodyType.solid
    · rw [if_pos h3, if_neg hpt]
    · rw [if_neg h3]

theorem scenario1_check (sqrt : F → F) (hs : IsSqrtOf (25 / 2) (sqrt (25 / 2))) :
    checkCircleToBoxCollision sqrt (⟨25 / 2, ⟨100 + 25 / 2, 100 + 25 / 2⟩⟩ : AabbCollisionCircle F)
      ⟨⟨90, 90⟩, ⟨90 + 20, 90 + 20⟩⟩ = some ⟨Direction.down, ⟨-(5 / 2), -(5 / 2)⟩⟩ := by
  have hc : closestPoint (⟨25 / 2, ⟨100 + 25 / 2, 100 + 25 / 2⟩⟩ : AabbCollisionCircle F)
      ⟨⟨90, 90⟩, ⟨90 + 20, 90 + 20⟩⟩ = ⟨110, 110⟩ := by
    norm_num [closestPoint, clamp, clampScalar, Vec2.add, Vec2.sub, Vec2.divs, Vec2.neg]
  have hsub : (⟨110, 110⟩ : Vec2 F).sub ⟨100 + 25 / 2, 100 + 25 / 2⟩ = ⟨-(5 / 2), -(5 / 2)⟩ := by
    norm_num [Vec2.sub]
  have hd : dot (⟨-(5 / 2), -(5 / 2)⟩ : Vec2 F) ⟨-(5 / 2), -(5 / 2)⟩ = 25 / 2 := by
    norm_num [dot]
  have hpos : 0 < sqrt (25 / 2 : F) := hs.pos_of_ne_zero (by norm_num)
  have hle : sqrt (25 / 2 : F) ≤ 25 / 2 := by
    obtain ⟨h0, h1⟩ := hs
    nlinarith
  have hdir : directionFromTarget sqrt (⟨-(5 / 2), -(5 / 2)⟩ : Vec2 F) = Direction.down := by
    rw [directionFromTarget_eq sqrt _ (by rw [hd]; exact hpos), bestMatchLoop_eq]
    norm_num
  simp only [checkCircleToBoxCollision, hc, hsub, length, hd, hdir]
  rw [if_neg (not_lt.2 hle)]

/-- C11: Scenario 1.  With the ball at (100, 100), radius 12.5, velocity
(0, -200), collision mode Default, and a single Alive brick spanning
(90, 90)-(110, 110), `checkCircleToBoxCollision` reports a collision with
direction Down (difference (-2.5, -2.5)), and after
`handleGameLevelBrickCollision` the ball's velocity is (0, 200) and the ball
has been pushed down by the penetration 10. -/
theorem scenario1_brick_bounce (sqrt : F → F) (gameLevel : GameLevel F) (s : Rand)
    (brick : GameObject F)
    (hpos : gameLevel.ball.position = ⟨100, 100⟩) (hrad : gameLevel.ball.radius = 25 / 2)
    (hvel : gameLevel.ball.velocity = ⟨0, -200⟩)
    (hmode : gameLevel.ball.collisionType = BallObjectCollisionType.default)
    (hbricks : gameLevel.map.bricks = [brick])
    (hbpos : brick.position = ⟨90, 90⟩) (hbsize : brick.size = ⟨20, 20⟩)
    (halive : brick.status = GameObjectStatus.alive)
    (hs : IsSqrtOf (25 / 2) (sqrt (25 / 2))) :
    checkCircleToBoxCollision sqrt (ballObjectToAabbCollisionCircle gameLevel.ball)
      (gameObjectToAabbCollisionBox brick) = some ⟨Direction.down, ⟨-(5 / 2), -(5 / 2)⟩⟩ ∧
    (handleGameLevelBrickCollision sqrt gameLevel s).1.ball.velocity = ⟨0, 200⟩ ∧
    (handleGameLevelBrickCollision sqrt gameLevel s).1.ball.position = ⟨100, 110⟩ := by
  have hcol : checkCircleToBoxCollision sqrt (ballObjectToAabbCollisionCircle gameLevel.ball)
      (gameObjectToAabbCollisionBox brick) = some ⟨Direction.down, ⟨-(5 / 2), -(5 / 2)⟩⟩ := by
    simp only [ballObjectToAabbCollisionCircle, gameObjectToAabbCollisionBox, hpos, hrad, hbpos,
      hbsize, Vec2.add, Vec2.splat]
    exact scenario1_check sqrt hs
  have hball : (handleGameLevelBrickCollision sqrt gameLevel s).1.ball
      = brickCollisionResponse ⟨Direction.down, ⟨-(5 / 2), -(5 / 2)⟩⟩ gameLevel.ball := by
    simp only [handleGameLevelBrickCollision, hbricks, brickCollisionLoop]
    exact brickCollisionBody_response sqrt _ brick gameLevel s _ halive hcol
      (Or.inr (by rw [hmode]; decide))
  refine ⟨hcol, ?_, ?_⟩
  · rw [hball]
    simp [brickCollisionResponse, hvel]
  · rw [hball]
    have habs : |(5 / 2 : F)| = 5 / 2 := abs_of_pos (by norm_num)
    simp [brickCollisionResponse, hpos, hrad, habs]
    norm_num

/-- C11 at a concrete input: over the reals with the real square root, the
scenario level with a Solid brick. -/
theorem scenario1_brick_bounce_witness :
    (handleGameLevelBrickCollision Real.sqrt
      (scenarioLevel ℝ ⟨100, 100⟩ ⟨0, -200⟩ BallObjectCollisionType.default
        [⟨⟨90, 90⟩, ⟨20, 20⟩, 0, ⟨1, 1, 1⟩, GameObjectBodyType.solid, GameObjectStatus.alive, 6⟩])
      (fun _ => 0)).1.ball.velocity = ⟨0, 200⟩ :=
  (scenario1_brick_bounce Real.sqrt
    (scenarioLevel ℝ ⟨100, 100⟩ ⟨0, -200⟩ BallObjectCollisionType.default
      [⟨⟨90, 90⟩, ⟨20, 20⟩, 0, ⟨1, 1, 1⟩, GameObjectBodyType.solid, GameObjectStatus.alive, 6⟩])
    (fun _ => 0) _ rfl rfl rfl rfl rfl rfl rfl rfl
    ⟨Real.sqrt_nonneg _, Real.mul_self_sqrt (by norm_num)⟩).2.1

end Scenario1Properties

/-! ## Scenario 2 -/

section Scenario2Properties

variable {F : Type} [LinearOrderedField F]

/-- The classification of a vertical vector is Up or Down. -/
theorem directionFromTarget_vertical (sqrt : F → F) (t : Vec2 F) (hx : t.x = 0) :
    directionFromTarget sqrt t = Direction.up ∨ directionFromTarget sqrt t = Direction.down := by
  unfold directionFromTarget
  rw [bestMatchLoop_eq]
  simp only [normalize, Vec2.muls, hx, zero_mul, neg_zero, lt_self_iff_false, if_false]
  split_ifs <;> first | (left; rfl) | (right; rfl) | (exfalso; linarith)

theorem IsSqrtOf.eq_of_sq {s r q : F} (h : IsSqrtOf s r) (hq : 0 ≤ q) (hs : q * q = s) :
    r = q := by
  obtain ⟨h0, h1⟩ := h
  have h2 : (r - q) * (r + q) = 0 := by
    have : (r - q) * (r + q) = r * r - q * q := by ring
    rw [this, h1, hs, sub_self]
  rcases mul_eq_zero.1 h2 with h3 | h3
  · exact sub_eq_zero.1 h3
  · have hr : r = 0 := by linarith
    have hq0 : q = 0 := by linarith
    rw [hr, hq0]

/-- A Reflect ball that hits the paddle spanning x in [350, 450] with its
centre at x = 400 and velocity (0, 300) leaves with velocity (0, -300). -/
theorem paddle_centre_hit_velocity (sqrt : F → F) (gameLevel : GameLevel F)
    (collision : Collision F)
    (hpx : gameLevel.player.position.x = 350) (hsx : gameLevel.player.size.x = 100)
    (hrefl : gameLevel.ball.surfaceType = BallObjectSurfaceType.reflect)
    (hcentre : gameLevel.ball.position.x + gameLevel.ball.radius = 400)
    (hvel : gameLevel.ball.velocity = ⟨0, 300⟩)
    (hcol : checkCircleToBoxCollision sqrt (ballObjectToAabbCollisionCircle gameLevel.ball)
      (gameObjectToAabbCollisionBox gameLevel.player.toGameObject) = some collision)
    (hs : IsSqrtOf 90000 (sqrt 90000)) :
    (handleGameLevelPlayerCollision sqrt gameLevel).ball.velocity = ⟨0, -300⟩ := by
  obtain ⟨hdiff, hdir⟩ := checkCircleToBoxCollision_difference sqrt _ _ collision hcol
  have hcx : (closestPoint (ballObjectToAabbCollisionCircle gameLevel.ball)
      (gameObjectToAabbCollisionBox gameLevel.player.toGameObject)).x = 400 := by
    rw [closestPoint_x (ballObjectToAabbCollisionCircle gameLevel.ball)
      (gameObjectToAabbCollisionBox gameLevel.player.toGameObject)
      (by simp only [gameObjectToAabbCollisionBox, Vec2.add, hpx, hsx]; norm_num)]
    simp only [ballObjectToAabbCollisionCircle, gameObjectToAabbCollisionBox, Vec2.add,
      Vec2.splat, hpx, hsx, hcentre]
    norm_num
  have hdx : collision.difference.x = 0 := by
    rw [hdiff]
    simp only [Vec2.sub]
    rw [hcx]
    simp only [ballObjectToAabbCollisionCircle, Vec2.add, Vec2.splat, hcentre, sub_self]
  have hud := directionFromTarget_vertical sqrt collision.difference hdx
  rw [← hdir] at hud
  have hrx : (paddleRepositioned gameLevel collision).x = gameLevel.ball.position.x := by
    unfold paddleRepositioned
    rcases hud with h | h <;> simp [h]
  have hred : paddleRedirected gameLevel collision = ⟨0, 300⟩ := by
    simp only [paddleRedirected, paddlePercentage, hrx, hcentre, hpx, hsx, hvel]
    norm_num
  have hr : sqrt 90000 = 300 := hs.eq_of_sq (by norm_num) (by norm_num)
  have hd : dot (⟨0, 300⟩ : Vec2 F) ⟨0, 300⟩ = 90000 := by norm_num [dot]
  rw [handleGameLevelPlayerCollision_reflect sqrt gameLevel collision hcol hrefl, hred, hvel]
  simp only [normalize, length, Vec2.muls, hd, hr]
  norm_num

/-- C12 fails as stated: in the example level (paddle spanning x in
[350, 450], configured ball speed 400) the Reflect ball whose circle touches
the paddle with its centre at x = 400 and velocity (0, 300) leaves
`handleGameLevelPlayerCollision` with velocity (0, -300), not (0, -400). -/
theorem scenario2_velocity_not_configured_speed :
    gameObjectToAabbCollisionBox
      (exampleLevelWithBall ⟨775 / 2, 555⟩ ⟨0, 300⟩
        BallObjectSurfaceType.reflect).player.toGameObject = ⟨⟨350, 580⟩, ⟨450, 600⟩⟩ ∧
    (exampleLevelWithBall ⟨775 / 2, 555⟩ ⟨0, 300⟩ BallObjectSurfaceType.reflect).ball.speed
      = 400 ∧
    (ballObjectToAabbCollisionCircle
      (exampleLevelWithBall ⟨775 / 2, 555⟩ ⟨0, 300⟩
        BallObjectSurfaceType.reflect).ball).center.x = 400 ∧
    (checkCircleToBoxCollision Rat.sqrt
      (ballObjectToAabbCollisionCircle
        (exampleLevelWithBall ⟨775 / 2, 555⟩ ⟨0, 300⟩ BallObjectSurfaceType.reflect).ball)
      (gameObjectToAabbCollisionBox
        (exampleLevelWithBall ⟨775 / 2, 555⟩ ⟨0, 300⟩
          BallObjectSurfaceType.reflect).player.toGameObject)).isSome = true ∧
    (handleGameLevelPlayerCollision Rat.sqrt
      (exampleLevelWithBall ⟨775 / 2, 555⟩ ⟨0, 300⟩ BallObjectSurfaceType.reflect)).ball.velocity
      = ⟨0, -300⟩ ∧
    (handleGameLevelPlayerCollision Rat.sqrt
      (exampleLevelWithBall ⟨775 / 2, 555⟩ ⟨0, 300⟩ BallObjectSurfaceType.reflect)).ball.velocity.y
      ≠ -400 := by
  have hcol : checkCircleToBoxCollision Rat.sqrt
      (ballObjectToAabbCollisionCircle
        (exampleLevelWithBall ⟨775 / 2, 555⟩ ⟨0, 300⟩ BallObjectSurfaceType.reflect).ball)
      (gameObjectToAabbCollisionBox
        (exampleLevelWithBall ⟨775 / 2, 555⟩ ⟨0, 300⟩
          BallObjectSurfaceType.reflect).player.toGameObject)
      = some ⟨Direction.up, ⟨0, 25 / 2⟩⟩ := by
    rw [exampleLevelWithBall_circle, exampleLevelWithBall_playerBox]
    exact examplePaddle_hit (775 / 2) (by norm_num) (by norm_num)
  have h300 : Rat.sqrt 90000 = 300 := by norm_num
  have hv := paddle_centre_hit_velocity Rat.sqrt
    (exampleLevelWithBall ⟨775 / 2, 555⟩ ⟨0, 300⟩ BallObjectSurfaceType.reflect) _
    (by norm_num [exampleLevelWithBall, exampleLevel, createGameLevel, createPlayerObject,
      createGameLevelMap, exampleConfig])
    (by norm_num [exampleLevelWithBall, exampleLevel, createGameLevel, createPlayerObject,
      exampleConfig])
    rfl
    (by norm_num [exampleLevelWithBall, exampleLevel, createGameLevel, createBallObject,
      exampleConfig])
    rfl hcol (by rw [h300]; exact ⟨by norm_num, by norm_num⟩)
  refine ⟨exampleLevelWithBall_playerBox _ _ _, ?_, ?_, by rw [hcol]; rfl, hv, ?_⟩
  · norm_num [exampleLevelWithBall, exampleLevel, createGameLevel, createBallObject,
      exampleConfig]
  · rw [exampleLevelWithBall_circle]; norm_num
  · rw [hv]; norm_num

/-- C12 as amended: Scenario 2.  With a paddle spanning x in [350, 450] and a
Reflect ball of configured speed 400 whose circle collides with the paddle
with its centre at x = 400 while its velocity is (0, 300),
`handleGameLevelPlayerCollision` leaves the ball with velocity.x = 0 and
velocity.y = -300, the speed it came with. -/
theorem scenario2_paddle_bounce (sqrt : F → F) (gameLevel : GameLevel F)
    (collision : Collision F)
    (hpx : gameLevel.player.position.x = 350) (hsx : gameLevel.player.size.x = 100)
    (_hspeed : gameLevel.ball.speed = 400)
    (hrefl : gameLevel.ball.surfaceType = BallObjectSurfaceType.reflect)
    (hcentre : (ballObjectToAabbCollisionCircle gameLevel.ball).center.x = 400)
    (hvel : gameLevel.ball.velocity = ⟨0, 300⟩)
    (hcol : checkCircleToBoxCollision sqrt (ballObjectToAabbCollisionCircle gameLevel.ball)
      (gameObjectToAabbCollisionBox gameLevel.player.toGameObject) = some collision)
    (hs : IsSqrtOf 90000 (sqrt 90000)) :
    (handleGameLevelPlayerCollision sqrt gameLevel).ball.velocity.x = 0 ∧
    (handleGameLevelPlayerCollision sqrt gameLevel).ball.velocity.y = -300 := by
  have hv := paddle_centre_hit_velocity sqrt gameLevel collision hpx hsx hrefl hcentre hvel
    hcol hs
  rw [hv]
  exact ⟨rfl, rfl⟩

/-- C12 as amended at a concrete input: the example level with the ball
resting on the middle of the paddle, moving with (0, 300). -/
theorem scenario2_paddle_bounce_witness :
    (handleGameLevelPlayerCollision Rat.sqrt
      (exampleLevelWithBall ⟨775 / 2, 555⟩ ⟨0, 300⟩ BallObjectSurfaceType.reflect)).ball.velocity.y
      = -300 := by
  have hcol : checkCircleToBoxCollision Rat.sqrt
      (ballObjectToAabbCollisionCircle
        (exampleLevelWithBall ⟨775 / 2, 555⟩ ⟨0, 300⟩ BallObjectSurfaceType.reflect).ball)
      (gameObjectToAabbCollisionBox
        (exampleLevelWithBall ⟨775 / 2, 555⟩ ⟨0, 300⟩
          BallObjectSurfaceType.reflect).player.toGameObject)
      = some ⟨Direction.up, ⟨0, 25 / 2⟩⟩ := by
    rw [exampleLevelWithBall_circle, exampleLevelWithBall_playerBox]
    exact examplePaddle_hit (775 / 2) (by norm_num) (by norm_num)
  have h300 : Rat.sqrt 90000 = 300 := by norm_num
  exact (scenario2_paddle_bounce Rat.sqrt
    (exampleLevelWithBall ⟨775 / 2, 555⟩ ⟨0, 300⟩ BallObjectSurfaceType.reflect) _
    (by norm_num [exampleLevelWithBall, exampleLevel, createGameLevel, createPlayerObject,
      createGameLevelMap, exampleConfig])
    (by norm_num [exampleLevelWithBall, exampleLevel, createGameLevel, createPlayerObject,
      exampleConfig])
    (by norm_num [exampleLevelWithBall, exampleLevel, createGameLevel, createBallObject,
      exampleConfig])
    rfl
    (by rw [exampleLevelWithBall_circle]; norm_num)
    rfl hcol (by rw [h300]; exact ⟨by norm_num, by norm_num⟩)).2

end Scenario2Properties

/-! ## Tile grid to bricks -/

section TileProperties

variable {F : Type} [LinearOrderedField F]

theorem createTileMapRow_length (indeterminate : Nat → Vec3 F) (x : Nat) (tileRow : List Nat) :
    (createTileMapRow indeterminate x tileRow).length = tileRow.length := by
  induction tileRow generalizing x with
  | nil => rfl
  | cons code tileRow ih => simp [createTileMapRow, ih]

theorem createTileMapRows_length (indeterminate : Nat → Nat → Vec3 F) (y : Nat)
    (tileData : List (List Nat)) :
    (createTileMapRows indeterminate y tileData).length = tileData.length := by
  induction tileData generalizing y with
  | nil => rfl
  | cons tileRow tileData ih => simp [createTileMapRows, ih]

theorem createTile_type (indeterminate : Vec3 F) (code : Nat) :
    (createTile indeterminate code).type =
      if code = 0 then TileType.empty
      else if code = 1 then TileType.solid else TileType.destroyable := by
  unfold createTile
  split_ifs <;> first | rfl | omega

/-- The inner loop of `createGameLevelMap` on a row of tiles made by
`createTileMap` yields the bricks of the mapping for that row. -/
theorem createRowBricks_createTileMapRow (gameLevelConfig : GameLevelConfig F) (size : Vec2 F)
    (indeterminate : Nat → Vec3 F) (y x : Nat) (tileRow : List Nat) :
    createRowBricks gameLevelConfig size y x (createTileMapRow indeterminate x tileRow) =
      (tileRow.enumFrom x).filterMap (fun cell =>
        specBrick gameLevelConfig.blockSolid gameLevelConfig.blockDestroyable
          (indeterminate cell.1) size.x size.y y cell.1 cell.2) := by
  induction tileRow generalizing x with
  | nil => rfl
  | cons code tileRow ih =>
    simp only [createTileMapRow, createRowBricks, List.enumFrom_cons, List.filterMap_cons, ih,
      createTile_type, specBrick]
    by_cases h0 : code = 0
    · simp [h0]
    · by_cases h1 : code = 1
      · simp [h1, Vec2.mul, mul_comm]
      · simp [h0, h1, Vec2.mul, mul_comm]

theorem createGridBricks_createTileMapRows (gameLevelConfig : GameLevelConfig F) (size : Vec2 F)
    (indeterminate : Nat → Nat → Vec3 F) (y : Nat) (tileData : List (List Nat)) :
    createGridBricks gameLevelConfig size y (createTileMapRows indeterminate y tileData) =
      (tileData.enumFrom y).flatMap (fun row =>
        (row.2.enumFrom 0).filterMap (fun cell =>
          specBrick gameLevelConfig.blockSolid gameLevelConfig.blockDestroyable
            (indeterminate row.1 cell.1) size.x size.y row.1 cell.1 cell.2)) := by
  induction tileData generalizing y with
  | nil => rfl
  | cons tileRow tileData ih =>
    simp only [createTileMapRows, createGridBricks, List.enumFrom_cons, List.flatMap_cons, ih,
      createRowBricks_createTileMapRow]

theorem specBrick_row_bodyType (blockSolid blockDestroyable : Sprite)
    (indeterminate : Nat → Vec3 F) (bw bh : F) (y x : Nat) (tileRow : List Nat) :
    ((tileRow.enumFrom x).filterMap (fun cell =>
        specBrick blockSolid blockDestroyable (indeterminate cell.1) bw bh y cell.1
          cell.2)).map (fun brick => brick.bodyType) =
      (tileRow.filter (fun code => decide (code ≠ 0))).map (fun code =>
        if code = 1 then GameObjectBodyType.solid else GameObjectBodyType.destroyable) := by
  induction tileRow generalizing x with
  | nil => rfl
  | cons code tileRow ih =>
    simp only [List.enumFrom_cons, List.filterMap_cons]
    by_cases h0 : code = 0
    · have hz : specBrick blockSolid blockDestroyable (indeterminate x) bw bh y x code
          = none := by simp [specBrick, h0]
      simp only [hz]
      rw [ih]
      simp [h0]
    · obtain ⟨b, hb, hbt⟩ : ∃ b,
          specBrick blockSolid blockDestroyable (indeterminate x) bw bh y x code = some b ∧
          b.bodyType = if code = 1 then GameObjectBodyType.solid
            else GameObjectBodyType.destroyable := by
        simp [specBrick, h0]
      simp only [hb, List.map_cons, hbt]
      rw [ih]
      simp [h0]

theorem specBricks_bodyType_from (blockSolid blockDestroyable : Sprite)
    (indeterminate : Nat → Nat → Vec3 F) (bw bh : F) (y : Nat) (tileData : List (List Nat)) :
    ((tileData.enumFrom y).flatMap (fun row =>
        (row.2.enumFrom 0).filterMap (fun cell =>
          specBrick blockSolid blockDestroyable (indeterminate row.1 cell.1) bw bh
            row.1 cell.1 cell.2))).map (fun brick => brick.bodyType) =
      (tileData.flatten.filter (fun code => decide (code ≠ 0))).map (fun code =>
        if code = 1 then GameObjectBodyType.solid else GameObjectBodyType.destroyable) := by
  induction tileData generalizing y with
  | nil => rfl
  | cons tileRow tileData ih =>
    simp only [List.enumFrom_cons, List.flatMap_cons, List.map_append, List.flatten_cons,
      List.filter_append, ih, specBrick_row_bodyType]

theorem createRowBricks_size (gameLevelConfig : GameLevelConfig F) (size : Vec2 F) (y x : Nat)
    (row : List (Tile F)) :
    ∀ brick ∈ createRowBricks gameLevelConfig size y x row, brick.size = size := by
  induction row generalizing x with
  | nil => intro brick h; simp [createRowBricks] at h
  | cons tile row ih =>
    intro brick h
    simp only [createRowBricks] at h
    split_ifs at h
    · rcases List.mem_cons.1 h with h | h
      · rw [h]
      · exact ih _ brick h
    · rcases List.mem_cons.1 h with h | h
      · rw [h]
      · exact ih _ brick h
    · exact ih _ brick h

theorem createGridBricks_size (gameLevelConfig : GameLevelConfig F) (size : Vec2 F) (y : Nat)
    (grid : List (List (Tile F))) :
    ∀ brick ∈ createGridBricks gameLevelConfig size y grid, brick.size = size := by
  induction grid generalizing y with
  | nil => intro brick h; simp [createGridBricks] at h
  | cons row grid ih =>
    intro brick h
    simp only [createGridBricks] at h
    rcases List.mem_append.1 h with h | h
    · exact createRowBricks_size gameLevelConfig size y 0 row brick h
    · exact ih _ brick h

/-- The bricks of `createGameLevelMap` on a tile map made by `createTileMap`. -/
theorem createGameLevelMap_bricks (config : GameLevelConfig F)
    (indeterminate : Nat → Nat → Vec3 F) (firstRow : List Nat) (rest : List (List Nat)) :
    (createGameLevelMap
        { config with tileMap := createTileMap indeterminate (firstRow :: rest) }).bricks =
      specBricks config.blockSolid config.blockDestroyable indeterminate
        ((config.width : F) / (firstRow.length : F))
        ((config.height : F) / 2 / ((firstRow :: rest).length : F)) (firstRow :: rest) := by
  simp only [createGameLevelMap, createTileMap, specBricks, createTileMapRows_length]
  rw [createGridBricks_createTileMapRows]
  simp [createTileMapRows, createTileMapRow_length]

theorem createGameLevelMap_bodyTypes (config : GameLevelConfig F)
    (indeterminate : Nat → Nat → Vec3 F) (firstRow : List Nat) (rest : List (List Nat)) :
    (createGameLevelMap
        { config with tileMap := createTileMap indeterminate (firstRow :: rest) }).bricks.map
        (fun brick => brick.bodyType) =
      ((firstRow :: rest).flatten.filter (fun code => decide (code ≠ 0))).map (fun code =>
        if code = 1 then GameObjectBodyType.solid else GameObjectBodyType.destroyable) := by
  rw [createGameLevelMap_bricks, specBricks]
  exact specBricks_bodyType_from _ _ _ _ _ 0 _

/-- C13: the tile-to-brick mapping.  For a grid of tile codes with a non-empty
first row, the bricks of `createGameLevelMap` on `createTileMap(grid)` are, in
row-major order, the bricks of the mapping `specBrick`: none for code 0, one
for every other code, Solid iff the code is 1 and Destroyable iff it is at
least 2, Alive, of size (bw, bh) and at (x * bw, y * bh) for grid cell
(column x, row y), with bw = width / (columns of the first row) and
bh = (height / 2) / (rows). -/
theorem tile_to_brick_mapping (config : GameLevelConfig F)
    (indeterminate : Nat → Nat → Vec3 F) (firstRow : List Nat) (rest : List (List Nat))
    (_hne : firstRow ≠ []) :
    (createGameLevelMap
        { config with tileMap := createTileMap indeterminate (firstRow :: rest) }).bricks =
      specBricks config.blockSolid config.blockDestroyable indeterminate
        ((config.width : F) / (firstRow.length : F))
        ((config.height : F) / 2 / ((firstRow :: rest).length : F)) (firstRow :: rest) ∧
    (createGameLevelMap
        { config with tileMap := createTileMap indeterminate (firstRow :: rest) }).bricks.map
        (fun brick => brick.bodyType) =
      ((firstRow :: rest).flatten.filter (fun code => decide (code ≠ 0))).map (fun code =>
        if code = 1 then GameObjectBodyType.solid else GameObjectBodyType.destroyable) ∧
    (createGameLevelMap
        { config with tileMap := createTileMap indeterminate (firstRow :: rest) }).bricks.length =
      ((firstRow :: rest).flatten.filter (fun code => decide (code ≠ 0))).length ∧
    (∀ brick ∈ (createGameLevelMap
        { config with tileMap := createTileMap indeterminate (firstRow :: rest) }).bricks,
      brick.status = GameObjectStatus.alive ∧
      brick.size = ⟨(config.width : F) / (firstRow.length : F),
        (config.height : F) / 2 / ((firstRow :: rest).length : F)⟩) ∧
    (∀ (colour : Vec3 F) (bw bh : F) (y x : Nat),
      specBrick config.blockSolid config.blockDestroyable colour bw bh y x 0 = none) ∧
    (∀ (colour : Vec3 F) (bw bh : F) (y x code : Nat), code ≠ 0 →
      ∃ brick, specBrick config.blockSolid config.blockDestroyable colour bw bh y x code
          = some brick ∧
        brick.position = ⟨(x : F) * bw, (y : F) * bh⟩ ∧ brick.size = ⟨bw, bh⟩ ∧
        brick.status = GameObjectStatus.alive ∧
        (brick.bodyType = GameObjectBodyType.solid ↔ code = 1) ∧
        (brick.bodyType = GameObjectBodyType.destroyable ↔ 2 ≤ code)) := by
  have hb := createGameLevelMap_bodyTypes config indeterminate firstRow rest
  refine ⟨createGameLevelMap_bricks config indeterminate firstRow rest, hb, ?_, ?_, ?_, ?_⟩
  · have := congrArg List.length hb
    rw [List.length_map, List.length_map] at this
    exact this
  · intro brick hbrick
    refine ⟨createGridBricks_alive _ _ 0 _ brick hbrick, ?_⟩
    have hsize := createGridBricks_size _ _ 0 _ brick hbrick
    rw [hsize]
    simp [createTileMap, createTileMapRows, createTileMapRow_length, createTileMapRows_length]
  · intro colour bw bh y x
    simp [specBrick]
  · intro colour bw bh y x code hcode
    refine ⟨_, by unfold specBrick; rw [if_neg hcode], rfl, rfl, rfl, ?_, ?_⟩
    · by_cases h1 : code = 1 <;> simp [h1]
    · by_cases h1 : code = 1
      · simp [h1]
      · simp only [h1, if_false, true_iff]; omega

/-- C13 at a concrete input: the grid with rows 1 2 and 0 6 in the example
configuration gives a Solid brick and two Destroyable bricks, in this order. -/
theorem tile_to_brick_mapping_witness :
    (createGameLevelMap
        { exampleConfig with
          tileMap := createTileMap (fun _ _ => ⟨0, 0, 0⟩) [[1, 2], [0, 6]] }).bricks.map
        (fun brick => brick.bodyType) =
      [GameObjectBodyType.solid, GameObjectBodyType.destroyable,
        GameObjectBodyType.destroyable] := by
  rw [(tile_to_brick_mapping exampleConfig (fun _ _ => ⟨0, 0, 0⟩) [1, 2] [[0, 6]]
    (by simp)).2.1]
  decide

/-- C14 fails as stated: for the one-row grid 1 0 2 2 0 in the example
configuration (level width 800) `createGameLevelMap` creates 3 bricks, not 4. -/
theorem scenario3_three_bricks :
    exampleConfig.width = 800 ∧
    (createGameLevelMap
        { exampleConfig with
          tileMap := createTileMap (fun _ _ => ⟨0, 0, 0⟩) [[1, 0, 2, 2, 0]] }).bricks.length
      = 3 ∧
    (createGameLevelMap
        { exampleConfig with
          tileMap := createTileMap (fun _ _ => ⟨0, 0, 0⟩) [[1, 0, 2, 2, 0]] }).bricks.length
      ≠ 4 := by
  have h : (createGameLevelMap
        { exampleConfig with
          tileMap := createTileMap (fun _ _ => ⟨0, 0, 0⟩) [[1, 0, 2, 2, 0]] }).bricks.length
      = 3 := by
    have hb := congrArg List.length
      (createGameLevelMap_bodyTypes exampleConfig (fun _ _ => ⟨0, 0, 0⟩) [1, 0, 2, 2, 0] [])
    rw [List.length_map, List.length_map] at hb
    rw [hb]
    decide
  refine ⟨rfl, h, ?_⟩
  rw [h]
  decide

/-- C14 as amended: Scenario 3.  For the one-row tile grid 1 0 2 2 0 and
level width 800, `createGameLevelMap` uses block width 800 / 5 = 160 and
creates 3 bricks, at columns 0, 2 and 3 (x = 0, 320 and 480): a Solid one and
two Destroyable ones; there is no brick at columns 1 and 4. -/
theorem scenario3_bricks (config : GameLevelConfig F) (indeterminate : Nat → Nat → Vec3 F)
    (hw : config.width = 800) :
    (createGameLevelMap
        { config with tileMap := createTileMap indeterminate [[1, 0, 2, 2, 0]] }).bricks.length
      = 3 ∧
    (createGameLevelMap
        { config with tileMap := createTileMap indeterminate [[1, 0, 2, 2, 0]] }).bricks.map
        (fun brick => brick.position.x) = [0 * 160, 2 * 160, 3 * 160] ∧
    (createGameLevelMap
        { config with tileMap := createTileMap indeterminate [[1, 0, 2, 2, 0]] }).bricks.map
        (fun brick => brick.size.x) = [160, 160, 160] ∧
    (createGameLevelMap
        { config with tileMap := createTileMap indeterminate [[1, 0, 2, 2, 0]] }).bricks.map
        (fun brick => brick.bodyType) =
      [GameObjectBodyType.solid, GameObjectBodyType.destroyable,
        GameObjectBodyType.destroyable] := by
  rw [createGameLevelMap_bricks]
  simp only [specBricks, specBrick, List.enumFrom, List.flatMap_cons, List.flatMap_nil,
    List.filterMap_cons, List.filterMap_nil, hw]
  norm_num

/-- C14 as amended at a concrete input: the example configuration. -/
theorem scenario3_bricks_witness :
    (createGameLevelMap
        { exampleConfig with
          tileMap := createTileMap (fun _ _ => ⟨0, 0, 0⟩) [[1, 0, 2, 2, 0]] }).bricks.map
        (fun brick => brick.position.x) = [0 * 160, 2 * 160, 3 * 160] :=
  (scenario3_bricks exampleConfig (fun _ _ => ⟨0, 0, 0⟩) rfl).2.1

end TileProperties

/-! ## Degenerate shapes -/

section DegenerateProperties

variable {F : Type} [LinearOrderedField F]

end DegenerateProperties

/-! ## Paddle motion -/

section PaddleMotionProperties

variable {F : Type} [LinearOrderedField F]

/-- `movePlayerObject` changes nothing of the paddle but its x-position. -/
theorem movePlayerObject_player (sqrt : F → F) (gameLevel : GameLevel F) (travel : F) :
    (movePlayerObject sqrt gameLevel travel).player =
      { gameLevel.player with
        position := ⟨stdClamp (gameLevel.player.position.x + travel) 0
          (max 0 ((gameLevel.map.width : F) - gameLevel.player.size.x)),
          gameLevel.player.position.y⟩ } := by
  unfold movePlayerObject
  simp only
  split_ifs
  · rfl
  · split <;> rfl

theorem stdClamp_eq_min_max (v lo hi : F) (h : lo ≤ hi) :
    stdClamp v lo hi = min (max v lo) hi := by
  unfold stdClamp
  split_ifs with h1 h2
  · rw [max_eq_right h1.le, min_eq_left h]
  · rw [max_eq_left (not_lt.1 h1), min_eq_right h2.le]
  · rw [max_eq_left (not_lt.1 h1), min_eq_left (not_lt.1 h2)]

theorem stdClamp_bounds (v lo hi : F) (h : lo ≤ hi) :
    lo ≤ stdClamp v lo hi ∧ stdClamp v lo hi ≤ hi := by
  unfold stdClamp
  split_ifs with h1 h2
  · exact ⟨le_refl _, h⟩
  · exact ⟨h, le_refl _⟩
  · exact ⟨not_lt.1 h1, not_lt.1 h2⟩

/-- C16: the paddle clamp.  After `movePlayerObject` the paddle's x-position
is `std::clamp(oldX + travel, 0, max(0, width - paddleWidth))`, which is
`min(max(oldX + travel, 0), max(0, width - paddleWidth))`; it is at least 0
and, when the paddle is not wider than the level, `x + paddleWidth` is at
most the level width; the paddle's y-position, size and velocity (and every
other member of the paddle) are unchanged. -/
theorem movePlayerObject_clamp (sqrt : F → F) (gameLevel : GameLevel F) (travel : F) :
    (movePlayerObject sqrt gameLevel travel).player.position.x =
      stdClamp (gameLevel.player.position.x + travel) 0
        (max 0 ((gameLevel.map.width : F) - gameLevel.player.size.x)) ∧
    (movePlayerObject sqrt gameLevel travel).player.position.x =
      min (max (gameLevel.player.position.x + travel) 0)
        (max 0 ((gameLevel.map.width : F) - gameLevel.player.size.x)) ∧
    0 ≤ (movePlayerObject sqrt gameLevel travel).player.position.x ∧
    (gameLevel.player.size.x ≤ (gameLevel.map.width : F) →
      (movePlayerObject sqrt gameLevel travel).player.position.x + gameLevel.player.size.x
        ≤ (gameLevel.map.width : F)) ∧
    (movePlayerObject sqrt gameLevel travel).player.position.y = gameLevel.player.position.y ∧
    (movePlayerObject sqrt gameLevel travel).player.size = gameLevel.player.size ∧
    (movePlayerObject sqrt gameLevel travel).player.velocity = gameLevel.player.velocity ∧
    (movePlayerObject sqrt gameLevel travel).player =
      { gameLevel.player with
        position := ⟨(movePlayerObject sqrt gameLevel travel).player.position.x,
          gameLevel.player.position.y⟩ } := by
  have hp := movePlayerObject_player sqrt gameLevel travel
  have hmax : (0 : F) ≤ max 0 ((gameLevel.map.width : F) - gameLevel.player.size.x) :=
    le_max_left _ _
  have hb := stdClamp_bounds (gameLevel.player.position.x + travel) 0 _ hmax
  rw [hp]
  refine ⟨rfl, stdClamp_eq_min_max _ _ _ hmax, hb.1, ?_, rfl, rfl, rfl, rfl⟩
  intro hw
  have h2 := hb.2
  have hm : max 0 ((gameLevel.map.width : F) - gameLevel.player.size.x)
      = (gameLevel.map.width : F) - gameLevel.player.size.x := max_eq_right (sub_nonneg.2 hw)
  simp only
  linarith

/-- C16 at a concrete input: the example paddle (x = 350, width 100, level
width 800) asked to travel 1000 to the right stops at x = 700. -/
theorem movePlayerObject_clamp_witness :
    (movePlayerObject Rat.sqrt exampleLevel 1000).player.position.x = 700 := by
  rw [(movePlayerObject_clamp Rat.sqrt exampleLevel 1000).1]
  norm_num [stdClamp, exampleLevel, createGameLevel, createPlayerObject, createGameLevelMap,
    exampleConfig]

end PaddleMotionProperties

/-! ## Falling power-ups -/

theorem enqueuePowerUpEffects_eq {F : Type} (type : PowerUpType) (configs : List (PowerUpConfig F))
    (effects : List (PowerUpEffect F)) :
    enqueuePowerUpEffects type configs effects = effects ++ effectsOfType configs type := by
  induction configs generalizing effects with
  | nil => simp [enqueuePowerUpEffects, effectsOfType]
  | cons config configs ih =>
    simp only [enqueuePowerUpEffects]
    by_cases h : config.type = type
    · rw [if_neg (not_not.2 h), ih]
      simp [effectsOfType, h]
    · rw [if_pos h, ih]
      simp [effectsOfType, h]

section PowerUpObjectProperties

variable {F : Type} [LinearOrderedField F]

/-- The loop of `handleUpdatePowerUpObject` keeps, in order, the fallen
power-ups whose outcome is `kept` and appends, in order, the effects of those
picked up. -/
theorem handleUpdatePowerUpObjectLoop_eq (sqrt : F → F) (dt : F) (gameLevel : GameLevel F)
    (powerUps : List (PowerUpObject F)) (effects : List (PowerUpEffect F)) :
    handleUpdatePowerUpObjectLoop sqrt dt gameLevel
        (gameObjectToAabbCollisionBox gameLevel.player.toGameObject) powerUps effects =
      (powerUps.filterMap (fun powerUp =>
          if powerUpOutcome sqrt dt gameLevel powerUp = PowerUpOutcome.kept
          then some (fallenPowerUp dt powerUp) else none),
        effects ++ powerUps.flatMap (fun powerUp =>
          if powerUpOutcome sqrt dt gameLevel powerUp = PowerUpOutcome.pickedUp
          then effectsOfType gameLevel.config.powerUpConfigs powerUp.type else [])) := by
  induction powerUps generalizing effects with
  | nil => simp [handleUpdatePowerUpObjectLoop]
  | cons powerUp powerUps ih =>
    simp only [handleUpdatePowerUpObjectLoop, List.filterMap_cons, List.flatMap_cons]
    by_cases h1 : (fallenPowerUp dt powerUp).position.y + (fallenPowerUp dt powerUp).size.y
        ≥ (gameLevel.map.height : F)
    · have ho : powerUpOutcome sqrt dt gameLevel powerUp = PowerUpOutcome.lost := by
        simp only [powerUpOutcome, if_pos h1]
      have h1' := h1
      simp only [fallenPowerUp] at h1'
      rw [if_pos h1', ih, ho]
      simp
    · have h1' := h1
      simp only [fallenPowerUp] at h1'
      rw [if_neg h1']
      cases hc : checkBoxToBoxCollision sqrt
          (gameObjectToAabbCollisionBox (fallenPowerUp dt powerUp).toGameObject)
          (gameObjectToAabbCollisionBox gameLevel.player.toGameObject) with
      | none =>
        have ho : powerUpOutcome sqrt dt gameLevel powerUp = PowerUpOutcome.kept := by
          simp only [powerUpOutcome, if_neg h1, hc]
          simp
        simp only [fallenPowerUp] at hc
        simp only [hc, ih, ho]
        simp [fallenPowerUp]
      | some collision =>
        have ho : powerUpOutcome sqrt dt gameLevel powerUp = PowerUpOutcome.pickedUp := by
          simp only [powerUpOutcome, if_neg h1, hc]
          simp
        simp only [fallenPowerUp] at hc
        simp only [hc, ih, ho, enqueuePowerUpEffects_eq]
        simp

/-- C17: power-up fall and pickup.  `handleUpdatePowerUpObject` changes only
the power-up list and the effect list.  Each power-up is advanced by
`dt * velocity` and then: lost (removed, no effect) when its new bottom edge
has reached the level height, even if it overlaps the paddle; otherwise picked
up (removed, one effect with status Activate and the configured time-to-live
appended for each configured entry of its type) when `checkBoxToBoxCollision`
of its new box with the paddle box returns a collision; otherwise kept.  The
kept power-ups and the appended effects are in the order of the list. -/
theorem powerUp_fall_and_pickup (sqrt : F → F) (dt : F) (gameLevel : GameLevel F) :
    handleUpdatePowerUpObject sqrt dt gameLevel =
      { gameLevel with
        powerUps := gameLevel.powerUps.filterMap (fun powerUp =>
          if powerUpOutcome sqrt dt gameLevel powerUp = PowerUpOutcome.kept
          then some (fallenPowerUp dt powerUp) else none)
        powerUpEffects := gameLevel.powerUpEffects ++ gameLevel.powerUps.flatMap (fun powerUp =>
          if powerUpOutcome sqrt dt gameLevel powerUp = PowerUpOutcome.pickedUp
          then effectsOfType gameLevel.config.powerUpConfigs powerUp.type else []) } ∧
    (∀ powerUp : PowerUpObject F,
      (fallenPowerUp dt powerUp).position =
        ⟨powerUp.position.x + dt * powerUp.velocity.x,
          powerUp.position.y + dt * powerUp.velocity.y⟩ ∧
      (fallenPowerUp dt powerUp).size = powerUp.size ∧
      (fallenPowerUp dt powerUp).type = powerUp.type) ∧
    (∀ powerUp : PowerUpObject F,
      powerUp.position.y + dt * powerUp.velocity.y + powerUp.size.y
          ≥ (gameLevel.map.height : F) →
      powerUpOutcome sqrt dt gameLevel powerUp = PowerUpOutcome.lost) ∧
    (∀ powerUp : PowerUpObject F,
      ¬ (powerUp.position.y + dt * powerUp.velocity.y + powerUp.size.y
          ≥ (gameLevel.map.height : F)) →
      (powerUpOutcome sqrt dt gameLevel powerUp = PowerUpOutcome.pickedUp ↔
        (checkBoxToBoxCollision sqrt
          (gameObjectToAabbCollisionBox (fallenPowerUp dt powerUp).toGameObject)
          (gameObjectToAabbCollisionBox gameLevel.player.toGameObject)).isSome = true) ∧
      (powerUpOutcome sqrt dt gameLevel powerUp = PowerUpOutcome.kept ↔
        (checkBoxToBoxCollision sqrt
          (gameObjectToAabbCollisionBox (fallenPowerUp dt powerUp).toGameObject)
          (gameObjectToAabbCollisionBox gameLevel.player.toGameObject)).isSome = false)) ∧
    (∀ (configs : List (PowerUpConfig F)) (type : PowerUpType),
      (effectsOfType configs type).length
        = (configs.filter (fun config => decide (config.type = type))).length ∧
      ∀ effect ∈ effectsOfType configs type,
        effect.status = PowerUpEffectStatus.activate ∧ effect.type = type ∧
        ∃ config ∈ configs, config.type = type ∧ effect.ttl = config.ttl) ∧
    (∀ (configs : List (PowerUpConfig F)) (type : PowerUpType) (config : PowerUpConfig F),
      configs.filter (fun c => decide (c.type = type)) = [config] →
      effectsOfType configs type = [createPowerUpEffect config]) := by
  refine ⟨?_, ?_, ?_, ?_, ?_, ?_⟩
  · simp only [handleUpdatePowerUpObject, handleUpdatePowerUpObjectLoop_eq]
  · intro powerUp
    exact ⟨rfl, rfl, rfl⟩
  · intro powerUp h
    have h' : (fallenPowerUp dt powerUp).position.y + (fallenPowerUp dt powerUp).size.y
        ≥ (gameLevel.map.height : F) := h
    simp only [powerUpOutcome, if_pos h']
  · intro powerUp h
    have h' : ¬ ((fallenPowerUp dt powerUp).position.y + (fallenPowerUp dt powerUp).size.y
        ≥ (gameLevel.map.height : F)) := h
    simp only [powerUpOutcome, if_neg h']
    cases (checkBoxToBoxCollision sqrt
      (gameObjectToAabbCollisionBox (fallenPowerUp dt powerUp).toGameObject)
      (gameObjectToAabbCollisionBox gameLevel.player.toGameObject)).isSome <;> simp
  · intro configs type
    refine ⟨by simp [effectsOfType], ?_⟩
    intro effect he
    simp only [effectsOfType, List.mem_map, List.mem_filter, decide_eq_true_eq] at he
    obtain ⟨config, ⟨hmem, htype⟩, rfl⟩ := he
    exact ⟨rfl, htype, config, hmem, htype, rfl⟩
  · intro configs type config h
    simp [effectsOfType, h]

/-- C17 at a concrete input: in the example level (paddle box
(350, 580)-(450, 600), height 600) over a tenth of a second, of three
power-ups falling at 120 per second, the one at (400, 570) reaches the bottom
and is lost although it overlaps the paddle, the one at (400, 550) is picked
up and gives the configured Speed effect, and the one at (100, 100) stays, at
(100, 112). -/
theorem powerUp_fall_and_pickup_witness :
    (handleUpdatePowerUpObject Rat.sqrt (1 / 10 : ℚ)
      (exampleLevelWithPowerUps
        [createPowerUp ⟨PowerUpType.speed, 2, 10, 4, ⟨0, 120⟩, ⟨20, 20⟩, ⟨1 / 2, 1 / 2, 1⟩⟩
            ⟨400, 570⟩,
          createPowerUp ⟨PowerUpType.speed, 2, 10, 4, ⟨0, 120⟩, ⟨20, 20⟩, ⟨1 / 2, 1 / 2, 1⟩⟩
            ⟨400, 550⟩,
          createPowerUp ⟨PowerUpType.speed, 2, 10, 4, ⟨0, 120⟩, ⟨20, 20⟩, ⟨1 / 2, 1 / 2, 1⟩⟩
            ⟨100, 100⟩])).powerUps.map (fun powerUp => powerUp.position) = [⟨100, 112⟩] ∧
    (handleUpdatePowerUpObject Rat.sqrt (1 / 10 : ℚ)
      (exampleLevelWithPowerUps
        [createPowerUp ⟨PowerUpType.speed, 2, 10, 4, ⟨0, 120⟩, ⟨20, 20⟩, ⟨1 / 2, 1 / 2, 1⟩⟩
            ⟨400, 570⟩,
          createPowerUp ⟨PowerUpType.speed, 2, 10, 4, ⟨0, 120⟩, ⟨20, 20⟩, ⟨1 / 2, 1 / 2, 1⟩⟩
            ⟨400, 550⟩,
          createPowerUp ⟨PowerUpType.speed, 2, 10, 4, ⟨0, 120⟩, ⟨20, 20⟩, ⟨1 / 2, 1 / 2, 1⟩⟩
            ⟨100, 100⟩])).powerUpEffects
      = [⟨PowerUpType.speed, 10, PowerUpEffectStatus.activate⟩] := by
  rw [(powerUp_fall_and_pickup Rat.sqrt (1 / 10 : ℚ) _).1]
  have hbox : ∀ powerUps : List (PowerUpObject ℚ),
      gameObjectToAabbCollisionBox (exampleLevelWithPowerUps powerUps).player.toGameObject
        = ⟨⟨350, 580⟩, ⟨450, 600⟩⟩ := by
    intro powerUps
    norm_num [exampleLevelWithPowerUps, exampleLevel, createGameLevel, createPlayerObject,
      createGameLevelMap, exampleConfig, gameObjectToAabbCollisionBox, Vec2.add]
  have hh : ∀ powerUps : List (PowerUpObject ℚ),
      ((exampleLevelWithPowerUps powerUps).map.height : ℚ) = 600 := by
    intro powerUps
    norm_num [exampleLevelWithPowerUps, exampleLevel, createGameLevel, createGameLevelMap,
      exampleConfig]
  have hcfg : ∀ powerUps : List (PowerUpObject ℚ),
      (exampleLevelWithPowerUps powerUps).config.powerUpConfigs
        = [⟨PowerUpType.speed, 2, 10, 4, ⟨0, 120⟩, ⟨20, 20⟩, ⟨1 / 2, 1 / 2, 1⟩⟩] :=
    fun _ => rfl
  have h1 : ∀ powerUps : List (PowerUpObject ℚ),
      powerUpOutcome Rat.sqrt (1 / 10 : ℚ) (exampleLevelWithPowerUps powerUps)
        (createPowerUp ⟨PowerUpType.speed, 2, 10, 4, ⟨0, 120⟩, ⟨20, 20⟩, ⟨1 / 2, 1 / 2, 1⟩⟩
          ⟨400, 570⟩) = PowerUpOutcome.lost := by
    intro powerUps
    simp only [powerUpOutcome, hh, hbox]
    norm_num [fallenPowerUp, createPowerUp, Vec2.add, Vec2.smul]
  have h2 : ∀ powerUps : List (PowerUpObject ℚ),
      powerUpOutcome Rat.sqrt (1 / 10 : ℚ) (exampleLevelWithPowerUps powerUps)
        (createPowerUp ⟨PowerUpType.speed, 2, 10, 4, ⟨0, 120⟩, ⟨20, 20⟩, ⟨1 / 2, 1 / 2, 1⟩⟩
          ⟨400, 550⟩) = PowerUpOutcome.pickedUp := by
    intro powerUps
    simp only [powerUpOutcome, hh, hbox, checkBoxToBoxCollision_isSome]
    norm_num [fallenPowerUp, createPowerUp, gameObjectToAabbCollisionBox, Vec2.add, Vec2.smul]
  have h3 : ∀ powerUps : List (PowerUpObject ℚ),
      powerUpOutcome Rat.sqrt (1 / 10 : ℚ) (exampleLevelWithPowerUps powerUps)
        (createPowerUp ⟨PowerUpType.speed, 2, 10, 4, ⟨0, 120⟩, ⟨20, 20⟩, ⟨1 / 2, 1 / 2, 1⟩⟩
          ⟨100, 100⟩) = PowerUpOutcome.kept := by
    intro powerUps
    simp only [powerUpOutcome, hh, hbox, checkBoxToBoxCollision_isSome]
    norm_num [fallenPowerUp, createPowerUp, gameObjectToAabbCollisionBox, Vec2.add, Vec2.smul]
  constructor
  · have e : (exampleLevelWithPowerUps
        [createPowerUp ⟨PowerUpType.speed, 2, 10, 4, ⟨0, 120⟩, ⟨20, 20⟩, ⟨1 / 2, 1 / 2, 1⟩⟩
            ⟨400, 570⟩,
          createPowerUp ⟨PowerUpType.speed, 2, 10, 4, ⟨0, 120⟩, ⟨20, 20⟩, ⟨1 / 2, 1 / 2, 1⟩⟩
            ⟨400, 550⟩,
          createPowerUp ⟨PowerUpType.speed, 2, 10, 4, ⟨0, 120⟩, ⟨20, 20⟩, ⟨1 / 2, 1 / 2, 1⟩⟩
            ⟨100, 100⟩]).powerUps = [createPowerUp ⟨PowerUpType.speed, 2, 10, 4, ⟨0, 120⟩,
              ⟨20, 20⟩, ⟨1 / 2, 1 / 2, 1⟩⟩ ⟨400, 570⟩,
          createPowerUp ⟨PowerUpType.speed, 2, 10, 4, ⟨0, 120⟩, ⟨20, 20⟩, ⟨1 / 2, 1 / 2, 1⟩⟩
            ⟨400, 550⟩,
          createPowerUp ⟨PowerUpType.speed, 2, 10, 4, ⟨0, 120⟩, ⟨20, 20⟩, ⟨1 / 2, 1 / 2, 1⟩⟩
            ⟨100, 100⟩] := rfl
    have n1 : ¬ PowerUpOutcome.lost = PowerUpOutcome.kept := by decide
    have n2 : ¬ PowerUpOutcome.pickedUp = PowerUpOutcome.kept := by decide
    simp only [e, List.filterMap_cons, List.filterMap_nil, h1, h2, h3, if_neg n1, if_neg n2,
      if_true, List.map_cons, List.map_nil]
    norm_num [fallenPowerUp, createPowerUp, Vec2.add, Vec2.smul]
  · have e : (exampleLevelWithPowerUps
        [createPowerUp ⟨PowerUpType.speed, 2, 10, 4, ⟨0, 120⟩, ⟨20, 20⟩, ⟨1 / 2, 1 / 2, 1⟩⟩
            ⟨400, 570⟩,
          createPowerUp ⟨PowerUpType.speed, 2, 10, 4, ⟨0, 120⟩, ⟨20, 20⟩, ⟨1 / 2, 1 / 2, 1⟩⟩
            ⟨400, 550⟩,
          createPowerUp ⟨PowerUpType.speed, 2, 10, 4, ⟨0, 120⟩, ⟨20, 20⟩, ⟨1 / 2, 1 / 2, 1⟩⟩
            ⟨100, 100⟩]).powerUps = [createPowerUp ⟨PowerUpType.speed, 2, 10, 4, ⟨0, 120⟩,
              ⟨20, 20⟩, ⟨1 / 2, 1 / 2, 1⟩⟩ ⟨400, 570⟩,
          createPowerUp ⟨PowerUpType.speed, 2, 10, 4, ⟨0, 120⟩, ⟨20, 20⟩, ⟨1 / 2, 1 / 2, 1⟩⟩
            ⟨400, 550⟩,
          createPowerUp ⟨PowerUpType.speed, 2, 10, 4, ⟨0, 120⟩, ⟨20, 20⟩, ⟨1 / 2, 1 / 2, 1⟩⟩
            ⟨100, 100⟩] := rfl
    have e2 : (exampleLevelWithPowerUps
        [createPowerUp ⟨PowerUpType.speed, 2, 10, 4, ⟨0, 120⟩, ⟨20, 20⟩, ⟨1 / 2, 1 / 2, 1⟩⟩
            ⟨400, 570⟩,
          createPowerUp ⟨PowerUpType.speed, 2, 10, 4, ⟨0, 120⟩, ⟨20, 20⟩, ⟨1 / 2, 1 / 2, 1⟩⟩
            ⟨400, 550⟩,
          createPowerUp ⟨PowerUpType.speed, 2, 10, 4, ⟨0, 120⟩, ⟨20, 20⟩, ⟨1 / 2, 1 / 2, 1⟩⟩
            ⟨100, 100⟩]).powerUpEffects = [] := rfl
    have n1 : ¬ PowerUpOutcome.lost = PowerUpOutcome.pickedUp := by decide
    have n3 : ¬ PowerUpOutcome.kept = PowerUpOutcome.pickedUp := by decide
    simp only [e, e2, List.flatMap_cons, List.flatMap_nil, h1, h2, h3, hcfg, if_neg n1,
      if_neg n3, if_true]
    simp [effectsOfType, createPowerUpEffect, createPowerUp]

end PowerUpObjectProperties

/-! ## Activation and deactivation -/

section ActivationProperties

variable {F : Type} [LinearOrderedField F]

theorem activatePowerUp_config (e : PowerUpEffect F) (gameLevel : GameLevel F) :
    (activatePowerUp e gameLevel).config = gameLevel.config := by
  unfold activatePowerUp
  cases e.type <;> rfl

theorem activatePowerUp_iterate_config (e : PowerUpEffect F) (n : Nat)
    (gameLevel : GameLevel F) :
    ((activatePowerUp e)^[n] gameLevel).config = gameLevel.config := by
  induction n generalizing gameLevel with
  | zero => rfl
  | succ n ih => rw [Function.iterate_succ_apply, ih, activatePowerUp_config]

theorem activatePowerUp_iterate_speed (e : PowerUpEffect F) (n : Nat) (gameLevel : GameLevel F)
    (h : e.type = PowerUpType.speed) :
    ((activatePowerUp e)^[n] gameLevel).player.velocity
      = gameLevel.player.velocity * (6 / 5) ^ n := by
  induction n generalizing gameLevel with
  | zero => simp
  | succ n ih =>
    rw [Function.iterate_succ_apply, ih]
    simp only [activatePowerUp, h]
    ring

theorem activatePowerUp_iterate_size (e : PowerUpEffect F) (n : Nat) (gameLevel : GameLevel F)
    (h : e.type = PowerUpType.paddleSizeUp) :
    ((activatePowerUp e)^[n] gameLevel).player.size.x
      = gameLevel.player.size.x + 50 * (n : F) := by
  induction n generalizing gameLevel with
  | zero => simp
  | succ n ih =>
    rw [Function.iterate_succ_apply, ih]
    simp only [activatePowerUp, h]
    push_cast
    ring

/-- C18: deactivation restores a stored baseline, not a difference.  After
any number `n` of applications of `activatePowerUp` for an effect (which leave the
configuration alone and, for Speed and PaddleSizeUp, compound: velocity times
1.2 to the n, width plus 50 n), one `deactivatePowerUp` leaves the attribute
of the effect's type at its configured baseline; and on every level
`deactivatePowerUp` is the level with that attribute reset and nothing else
changed. -/
theorem deactivatePowerUp_restores_baseline (e : PowerUpEffect F) (n : Nat)
    (gameLevel : GameLevel F) :
    (deactivatePowerUp e ((activatePowerUp e)^[n] gameLevel)).config = gameLevel.config ∧
    (e.type = PowerUpType.speed →
      ((activatePowerUp e)^[n] gameLevel).player.velocity
        = gameLevel.player.velocity * (6 / 5) ^ n ∧
      (deactivatePowerUp e ((activatePowerUp e)^[n] gameLevel)).player.velocity
        = gameLevel.config.playerConfig.velocity) ∧
    (e.type = PowerUpType.paddleSizeUp →
      ((activatePowerUp e)^[n] gameLevel).player.size.x
        = gameLevel.player.size.x + 50 * (n : F) ∧
      (deactivatePowerUp e ((activatePowerUp e)^[n] gameLevel)).player.size
        = gameLevel.config.playerConfig.size) ∧
    (e.type = PowerUpType.sticky →
      (deactivatePowerUp e ((activatePowerUp e)^[n] gameLevel)).ball.surfaceType
        = BallObjectSurfaceType.reflect ∧
      (deactivatePowerUp e ((activatePowerUp e)^[n] gameLevel)).ball.color
        = gameLevel.config.ballConfig.color) ∧
    (e.type = PowerUpType.passThrough →
      (deactivatePowerUp e ((activatePowerUp e)^[n] gameLevel)).ball.collisionType
        = BallObjectCollisionType.default ∧
      (deactivatePowerUp e ((activatePowerUp e)^[n] gameLevel)).ball.color
        = gameLevel.config.ballConfig.color) ∧
    (e.type = PowerUpType.confusion →
      (deactivatePowerUp e ((activatePowerUp e)^[n] gameLevel)).postProcessor.confuse
        = false) ∧
    (e.type = PowerUpType.chaos →
      (deactivatePowerUp e ((activatePowerUp e)^[n] gameLevel)).postProcessor.chaos = false) ∧
    (∀ level : GameLevel F,
      (e.type = PowerUpType.speed → deactivatePowerUp e level =
        { level with
          player := { level.player with velocity := level.config.playerConfig.velocity } }) ∧
      (e.type = PowerUpType.paddleSizeUp → deactivatePowerUp e level =
        { level with player := { level.player with size := level.config.playerConfig.size } }) ∧
      (e.type = PowerUpType.sticky → deactivatePowerUp e level =
        { level with
          ball := { level.ball with
            surfaceType := BallObjectSurfaceType.reflect
            color := level.config.ballConfig.color } }) ∧
      (e.type = PowerUpType.passThrough → deactivatePowerUp e level =
        { level with
          ball := { level.ball with
            collisionType := BallObjectCollisionType.default
            color := level.config.ballConfig.color } }) ∧
      (e.type = PowerUpType.confusion → deactivatePowerUp e level =
        { level with postProcessor := { level.postProcessor with confuse := false } }) ∧
      (e.type = PowerUpType.chaos → deactivatePowerUp e level =
        { level with postProcessor := { level.postProcessor with chaos := false } })) := by
  have hc := activatePowerUp_iterate_config e n gameLevel
  refine ⟨?_, ?_, ?_, ?_, ?_, ?_, ?_, ?_⟩
  · rw [← hc]
    unfold deactivatePowerUp
    cases e.type <;> rfl
  · intro h
    refine ⟨activatePowerUp_iterate_speed e n gameLevel h, ?_⟩
    simp only [deactivatePowerUp, h, hc]
  · intro h
    refine ⟨activatePowerUp_iterate_size e n gameLevel h, ?_⟩
    simp only [deactivatePowerUp, h, hc]
  · intro h
    simp only [deactivatePowerUp, h, hc, and_self]
  · intro h
    simp only [deactivatePowerUp, h, hc, and_self]
  · intro h
    simp only [deactivatePowerUp, h]
  · intro h
    simp only [deactivatePowerUp, h]
  · intro level
    refine ⟨?_, ?_, ?_, ?_, ?_, ?_⟩ <;> intro h <;> simp only [deactivatePowerUp, h]

/-- C18 at a concrete input: three Speed activations on the example level
(configured paddle velocity 500) followed by one deactivation leave the paddle
velocity at 500. -/
theorem deactivatePowerUp_restores_baseline_witness :
    ((activatePowerUp (⟨PowerUpType.speed, 10, PowerUpEffectStatus.activate⟩ :
        PowerUpEffect ℚ))^[3] exampleLevel).player.velocity = 864 ∧
    (deactivatePowerUp (⟨PowerUpType.speed, 10, PowerUpEffectStatus.activate⟩ : PowerUpEffect ℚ)
      ((activatePowerUp ⟨PowerUpType.speed, 10, PowerUpEffectStatus.activate⟩)^[3]
        exampleLevel)).player.velocity = 500 := by
  have h := (deactivatePowerUp_restores_baseline
    (⟨PowerUpType.speed, 10, PowerUpEffectStatus.activate⟩ : PowerUpEffect ℚ) 3
    exampleLevel).2.1 rfl
  constructor
  · rw [h.1]
    norm_num [exampleLevel, createGameLevel, createPlayerObject, exampleConfig]
  · rw [h.2]
    rfl

end ActivationProperties

/-! ## Pass-through -/

section PassThroughProperties

variable {F : Type} [LinearOrderedField F]

theorem brickCollisionBody_brick (sqrt : F → F) (circle : AabbCollisionCircle F)
    (brick : GameObject F) (gameLevel : GameLevel F) (s : Rand) :
    (brickCollisionBody sqrt circle brick gameLevel s).1
      = brickAfterCollision sqrt circle brick := by
  unfold brickCollisionBody brickAfterCollision
  by_cases h1 : brick.status = GameObjectStatus.alive
  · rw [if_neg (not_not.2 h1)]
    cases hc : checkCircleToBoxCollision sqrt circle (gameObjectToAabbCollisionBox brick) with
    | none => simp
    | some collision =>
      by_cases h2 : brick.bodyType = GameObjectBodyType.destroyable
      · simp [h1, h2]
      · simp only [h2, if_false, false_and, and_false]
        split_ifs <;> rfl
  · rw [if_pos h1]
    simp [h1]

theorem brickCollisionLoop_bricks (sqrt : F → F) (circle : AabbCollisionCircle F)
    (bricks : List (GameObject F)) (gameLevel : GameLevel F) (s : Rand) :
    (brickCollisionLoop sqrt circle bricks gameLevel s).1
      = bricks.map (brickAfterCollision sqrt circle) := by
  induction bricks generalizing gameLevel s with
  | nil => rfl
  | cons brick bricks ih =>
    simp only [brickCollisionLoop, List.map_cons, ih, brickCollisionBody_brick]

/-- A Solid brick leaves a PassThrough ball, the level and the random state
as they are. -/
theorem brickCollisionBody_solid_passThrough (sqrt : F → F) (circle : AabbCollisionCircle F)
    (brick : GameObject F) (gameLevel : GameLevel F) (s : Rand)
    (hsolid : brick.bodyType = GameObjectBodyType.solid)
    (hpt : gameLevel.ball.collisionType = BallObjectCollisionType.passThrough) :
    brickCollisionBody sqrt circle brick gameLevel s = (brick, gameLevel, s) := by
  unfold brickCollisionBody
  by_cases h1 : brick.status ≠ GameObjectStatus.alive
  · rw [if_pos h1]
  · rw [if_neg h1]
    split
    · rfl
    · rw [if_neg (by rw [hsolid]; decide), if_pos hsolid, if_pos hpt]

theorem brickCollisionLoop_solid_passThrough (sqrt : F → F) (circle : AabbCollisionCircle F)
    (bricks : List (GameObject F)) (gameLevel : GameLevel F) (s : Rand)
    (hsolid : ∀ brick ∈ bricks, brick.bodyType = GameObjectBodyType.solid)
    (hpt : gameLevel.ball.collisionType = BallObjectCollisionType.passThrough) :
    brickCollisionLoop sqrt circle bricks gameLevel s = (bricks, gameLevel, s) := by
  induction bricks with
  | nil => rfl
  | cons brick bricks ih =>
    simp only [brickCollisionLoop]
    rw [brickCollisionBody_solid_passThrough sqrt circle brick gameLevel s
      (hsolid brick (List.mem_cons_self _ _)) hpt]
    simp only
    rw [ih (fun b hb => hsolid b (List.mem_cons_of_mem _ hb))]

theorem brickCollisionResponse_velocity_eq (collision : Collision F) (ball : BallObject F) :
    ((collision.direction = Direction.left ∨ collision.direction = Direction.right) →
      (brickCollisionResponse collision ball).velocity = ⟨-ball.velocity.x, ball.velocity.y⟩) ∧
    ((collision.direction = Direction.up ∨ collision.direction = Direction.down) →
      (brickCollisionResponse collision ball).velocity = ⟨ball.velocity.x, -ball.velocity.y⟩) := by
  unfold brickCollisionResponse
  constructor
  · intro h
    rw [if_pos h]
    simp
  · intro h
    have hn : ¬ (collision.direction = Direction.left ∨ collision.direction = Direction.right) := by
      rcases h with h | h <;> rw [h] <;> decide
    rw [if_neg hn, if_pos h]
    simp

theorem handleGameLevelBrickCollision_solid_passThrough (sqrt : F → F)
    (gameLevel : GameLevel F) (s : Rand)
    (hsolid : ∀ brick ∈ gameLevel.map.bricks, brick.bodyType = GameObjectBodyType.solid)
    (hpt : gameLevel.ball.collisionType = BallObjectCollisionType.passThrough) :
    handleGameLevelBrickCollision sqrt gameLevel s = (gameLevel, s) := by
  unfold handleGameLevelBrickCollision
  simp only
  rw [brickCollisionLoop_solid_passThrough sqrt _ _ gameLevel s hsolid hpt]

/-- The circle of radius 12.5 about (112.5, 112.5) and the box
(90, 120)-(130, 140): a collision with direction Up and difference (0, 7.5). -/
theorem scenarioBrick_hit :
    checkCircleToBoxCollision Rat.sqrt (⟨25 / 2, ⟨100 + 25 / 2, 100 + 25 / 2⟩⟩ :
      AabbCollisionCircle ℚ) ⟨⟨90, 120⟩, ⟨90 + 40, 120 + 20⟩⟩
      = some ⟨Direction.up, ⟨0, 15 / 2⟩⟩ := by
  have hc : closestPoint (⟨25 / 2, ⟨100 + 25 / 2, 100 + 25 / 2⟩⟩ : AabbCollisionCircle ℚ)
      ⟨⟨90, 120⟩, ⟨90 + 40, 120 + 20⟩⟩ = ⟨225 / 2, 120⟩ := by
    norm_num [closestPoint, clamp, clampScalar, Vec2.add, Vec2.sub, Vec2.divs, Vec2.neg]
  have hsub : (⟨225 / 2, 120⟩ : Vec2 ℚ).sub ⟨100 + 25 / 2, 100 + 25 / 2⟩ = ⟨0, 15 / 2⟩ := by
    norm_num [Vec2.sub]
  have hd : dot (⟨0, 15 / 2⟩ : Vec2 ℚ) ⟨0, 15 / 2⟩ = 225 / 4 := by norm_num [dot]
  have hs : Rat.sqrt (225 / 4) = 15 / 2 := by
    rw [show (225 / 4 : ℚ) = (15 / 2) * (15 / 2) by norm_num, Rat.sqrt_eq]; norm_num
  simp only [checkCircleToBoxCollision, hc, hsub, length, directionFromTarget, normalize, hd, hs]
  norm_num [bestMatchLoop_eq, Vec2.muls]

/-- C19 fails as stated: a PassThrough ball at (100, 100) moving with
(0, 200) whose circle overlaps the Alive Destroyable brick (90, 120)-(130, 140)
gets the collision response: its velocity becomes (0, -200) and it is moved to
(100, 95), while the brick is marked Destroyed. -/
theorem passThrough_destroyable_brick_bounces :
    (scenarioLevel ℚ ⟨100, 100⟩ ⟨0, 200⟩ BallObjectCollisionType.passThrough
      [⟨⟨90, 120⟩, ⟨40, 20⟩, 0, ⟨1, 1, 1⟩, GameObjectBodyType.destroyable,
        GameObjectStatus.alive, 7⟩]).ball.collisionType
      = BallObjectCollisionType.passThrough ∧
    (handleGameLevelBrickCollision Rat.sqrt
      (scenarioLevel ℚ ⟨100, 100⟩ ⟨0, 200⟩ BallObjectCollisionType.passThrough
        [⟨⟨90, 120⟩, ⟨40, 20⟩, 0, ⟨1, 1, 1⟩, GameObjectBodyType.destroyable,
          GameObjectStatus.alive, 7⟩]) (fun _ => 1)).1.ball.velocity = ⟨0, -200⟩ ∧
    (handleGameLevelBrickCollision Rat.sqrt
      (scenarioLevel ℚ ⟨100, 100⟩ ⟨0, 200⟩ BallObjectCollisionType.passThrough
        [⟨⟨90, 120⟩, ⟨40, 20⟩, 0, ⟨1, 1, 1⟩, GameObjectBodyType.destroyable,
          GameObjectStatus.alive, 7⟩]) (fun _ => 1)).1.ball.position = ⟨100, 95⟩ ∧
    (handleGameLevelBrickCollision Rat.sqrt
      (scenarioLevel ℚ ⟨100, 100⟩ ⟨0, 200⟩ BallObjectCollisionType.passThrough
        [⟨⟨90, 120⟩, ⟨40, 20⟩, 0, ⟨1, 1, 1⟩, GameObjectBodyType.destroyable,
          GameObjectStatus.alive, 7⟩]) (fun _ => 1)).1.ball.velocity
      ≠ (scenarioLevel ℚ ⟨100, 100⟩ ⟨0, 200⟩ BallObjectCollisionType.passThrough
        [⟨⟨90, 120⟩, ⟨40, 20⟩, 0, ⟨1, 1, 1⟩, GameObjectBodyType.destroyable,
          GameObjectStatus.alive, 7⟩]).ball.velocity ∧
    (handleGameLevelBrickCollision Rat.sqrt
      (scenarioLevel ℚ ⟨100, 100⟩ ⟨0, 200⟩ BallObjectCollisionType.passThrough
        [⟨⟨90, 120⟩, ⟨40, 20⟩, 0, ⟨1, 1, 1⟩, GameObjectBodyType.destroyable,
          GameObjectStatus.alive, 7⟩]) (fun _ => 1)).1.map.bricks.map (fun brick => brick.status)
      = [GameObjectStatus.destroyed] := by
  have hcirc : ballObjectToAabbCollisionCircle
      (scenarioLevel ℚ ⟨100, 100⟩ ⟨0, 200⟩ BallObjectCollisionType.passThrough
        [⟨⟨90, 120⟩, ⟨40, 20⟩, 0, ⟨1, 1, 1⟩, GameObjectBodyType.destroyable,
          GameObjectStatus.alive, 7⟩]).ball = ⟨25 / 2, ⟨100 + 25 / 2, 100 + 25 / 2⟩⟩ := by
    simp [ballObjectToAabbCollisionCircle, scenarioLevel, createGameLevel, createBallObject,
      scenarioConfig, Vec2.add, Vec2.splat]
  have hcol : checkCircleToBoxCollision Rat.sqrt
      (ballObjectToAabbCollisionCircle
        (scenarioLevel ℚ ⟨100, 100⟩ ⟨0, 200⟩ BallObjectCollisionType.passThrough
          [⟨⟨90, 120⟩, ⟨40, 20⟩, 0, ⟨1, 1, 1⟩, GameObjectBodyType.destroyable,
            GameObjectStatus.alive, 7⟩]).ball)
      (gameObjectToAabbCollisionBox (⟨⟨90, 120⟩, ⟨40, 20⟩, 0, ⟨1, 1, 1⟩,
        GameObjectBodyType.destroyable, GameObjectStatus.alive, 7⟩ : GameObject ℚ))
      = some ⟨Direction.up, ⟨0, 15 / 2⟩⟩ := by
    rw [hcirc]
    exact scenarioBrick_hit
  have hball : (handleGameLevelBrickCollision Rat.sqrt
      (scenarioLevel ℚ ⟨100, 100⟩ ⟨0, 200⟩ BallObjectCollisionType.passThrough
        [⟨⟨90, 120⟩, ⟨40, 20⟩, 0, ⟨1, 1, 1⟩, GameObjectBodyType.destroyable,
          GameObjectStatus.alive, 7⟩]) (fun _ => 1)).1.ball
      = brickCollisionResponse ⟨Direction.up, ⟨0, 15 / 2⟩⟩
        (scenarioLevel ℚ ⟨100, 100⟩ ⟨0, 200⟩ BallObjectCollisionType.passThrough
          [⟨⟨90, 120⟩, ⟨40, 20⟩, 0, ⟨1, 1, 1⟩, GameObjectBodyType.destroyable,
            GameObjectStatus.alive, 7⟩]).ball :=
    brickCollisionBody_response Rat.sqrt _ _ _ _ _ rfl hcol (Or.inl rfl)
  have hv : (handleGameLevelBrickCollision Rat.sqrt
      (scenarioLevel ℚ ⟨100, 100⟩ ⟨0, 200⟩ BallObjectCollisionType.passThrough
        [⟨⟨90, 120⟩, ⟨40, 20⟩, 0, ⟨1, 1, 1⟩, GameObjectBodyType.destroyable,
          GameObjectStatus.alive, 7⟩]) (fun _ => 1)).1.ball.velocity = ⟨0, -200⟩ := by
    rw [hball]
    simp [brickCollisionResponse, scenarioLevel]
  refine ⟨rfl, hv, ?_, ?_, ?_⟩
  · rw [hball]
    have habs : |(15 / 2 : ℚ)| = 15 / 2 := abs_of_pos (by norm_num)
    simp [brickCollisionResponse, scenarioLevel, createGameLevel, createBallObject,
      scenarioConfig, habs]
    norm_num
  · rw [hv]
    simp [scenarioLevel]
    norm_num
  · have hb := brickCollisionLoop_bricks Rat.sqrt
      (ballObjectToAabbCollisionCircle
        (scenarioLevel ℚ ⟨100, 100⟩ ⟨0, 200⟩ BallObjectCollisionType.passThrough
          [⟨⟨90, 120⟩, ⟨40, 20⟩, 0, ⟨1, 1, 1⟩, GameObjectBodyType.destroyable,
            GameObjectStatus.alive, 7⟩]).ball)
      [(⟨⟨90, 120⟩, ⟨40, 20⟩, 0, ⟨1, 1, 1⟩, GameObjectBodyType.destroyable,
        GameObjectStatus.alive, 7⟩ : GameObject ℚ)]
      (scenarioLevel ℚ ⟨100, 100⟩ ⟨0, 200⟩ BallObjectCollisionType.passThrough
        [⟨⟨90, 120⟩, ⟨40, 20⟩, 0, ⟨1, 1, 1⟩, GameObjectBodyType.destroyable,
          GameObjectStatus.alive, 7⟩]) (fun _ => 1)
    have hm : (handleGameLevelBrickCollision Rat.sqrt
        (scenarioLevel ℚ ⟨100, 100⟩ ⟨0, 200⟩ BallObjectCollisionType.passThrough
          [⟨⟨90, 120⟩, ⟨40, 20⟩, 0, ⟨1, 1, 1⟩, GameObjectBodyType.destroyable,
            GameObjectStatus.alive, 7⟩]) (fun _ => 1)).1.map.bricks
        = [brickAfterCollision Rat.sqrt
            (ballObjectToAabbCollisionCircle
              (scenarioLevel ℚ ⟨100, 100⟩ ⟨0, 200⟩ BallObjectCollisionType.passThrough
                [⟨⟨90, 120⟩, ⟨40, 20⟩, 0, ⟨1, 1, 1⟩, GameObjectBodyType.destroyable,
                  GameObjectStatus.alive, 7⟩]).ball)
            ⟨⟨90, 120⟩, ⟨40, 20⟩, 0, ⟨1, 1, 1⟩, GameObjectBodyType.destroyable,
              GameObjectStatus.alive, 7⟩] := hb
    rw [hm]
    simp only [brickAfterCollision, hcol]
    simp

/-- C19 as amended: with the ball in PassThrough mode, a Solid brick leaves
the ball, the shake countdown and everything else as they are (so
`handleGameLevelBrickCollision` on a level whose bricks are all Solid changes
nothing); every Alive Destroyable brick the ball's circle overlaps is marked
Destroyed and every other brick is kept as it is; and for an overlapped Alive
Destroyable brick the collision response is applied as in Default mode: the
velocity component across the hit face is negated. -/
theorem passThrough_brick_collision (sqrt : F → F) (gameLevel : GameLevel F) (s : Rand)
    (hpt : gameLevel.ball.collisionType = BallObjectCollisionType.passThrough) :
    (∀ (brick : GameObject F) (level : GameLevel F) (s1 : Rand),
      brick.bodyType = GameObjectBodyType.solid →
      level.ball.collisionType = BallObjectCollisionType.passThrough →
      brickCollisionBody sqrt (ballObjectToAabbCollisionCircle gameLevel.ball) brick level s1
        = (brick, level, s1)) ∧
    ((∀ brick ∈ gameLevel.map.bricks, brick.bodyType = GameObjectBodyType.solid) →
      handleGameLevelBrickCollision sqrt gameLevel s = (gameLevel, s)) ∧
    (handleGameLevelBrickCollision sqrt gameLevel s).1.map.bricks
      = gameLevel.map.bricks.map
          (brickAfterCollision sqrt (ballObjectToAabbCollisionCircle gameLevel.ball)) ∧
    (∀ brick : GameObject F, brick.status = GameObjectStatus.alive →
      brick.bodyType = GameObjectBodyType.destroyable →
      (checkCircleToBoxCollision sqrt (ballObjectToAabbCollisionCircle gameLevel.ball)
        (gameObjectToAabbCollisionBox brick)).isSome = true →
      brickAfterCollision sqrt (ballObjectToAabbCollisionCircle gameLevel.ball) brick
        = { brick with status := GameObjectStatus.destroyed }) ∧
    (∀ brick : GameObject F,
      ¬ (brick.status = GameObjectStatus.alive ∧
        brick.bodyType = GameObjectBodyType.destroyable ∧
        (checkCircleToBoxCollision sqrt (ballObjectToAabbCollisionCircle gameLevel.ball)
          (gameObjectToAabbCollisionBox brick)).isSome = true) →
      brickAfterCollision sqrt (ballObjectToAabbCollisionCircle gameLevel.ball) brick = brick) ∧
    (∀ (brick : GameObject F) (level : GameLevel F) (s1 : Rand) (collision : Collision F),
      brick.status = GameObjectStatus.alive →
      brick.bodyType = GameObjectBodyType.destroyable →
      checkCircleToBoxCollision sqrt (ballObjectToAabbCollisionCircle gameLevel.ball)
        (gameObjectToAabbCollisionBox brick) = some collision →
      level.ball.collisionType = BallObjectCollisionType.passThrough →
      (brickCollisionBody sqrt (ballObjectToAabbCollisionCircle gameLevel.ball) brick level
          s1).2.1.ball = brickCollisionResponse collision level.ball ∧
      ((collision.direction = Direction.left ∨ collision.direction = Direction.right) →
        (brickCollisionResponse collision level.ball).velocity
          = ⟨-level.ball.velocity.x, level.ball.velocity.y⟩) ∧
      ((collision.direction = Direction.up ∨ collision.direction = Direction.down) →
        (brickCollisionResponse collision level.ball).velocity
          = ⟨level.ball.velocity.x, -level.ball.velocity.y⟩)) := by
  refine ⟨?_, ?_, ?_, ?_, ?_, ?_⟩
  · intro brick level s1 hsolid hlevel
    exact brickCollisionBody_solid_passThrough sqrt _ brick level s1 hsolid hlevel
  · intro hsolid
    exact handleGameLevelBrickCollision_solid_passThrough sqrt gameLevel s hsolid hpt
  · exact brickCollisionLoop_bricks sqrt _ gameLevel.map.bricks gameLevel s
  · intro brick h1 h2 h3
    simp only [brickAfterCollision, h1, h2, h3, and_self, if_true]
  · intro brick h
    simp only [brickAfterCollision, if_neg h]
  · intro brick level s1 collision h1 h2 h3 _
    exact ⟨brickCollisionBody_response sqrt _ brick level s1 collision h1 h3 (Or.inl h2),
      (brickCollisionResponse_velocity_eq collision level.ball).1,
      (brickCollisionResponse_velocity_eq collision level.ball).2⟩

/-- C19 as amended at a concrete input: the PassThrough ball at (100, 100)
whose circle overlaps the Solid brick (90, 120)-(130, 140) leaves
`handleGameLevelBrickCollision` with the level unchanged. -/
theorem passThrough_brick_collision_witness :
    handleGameLevelBrickCollision Rat.sqrt
      (scenarioLevel ℚ ⟨100, 100⟩ ⟨0, 200⟩ BallObjectCollisionType.passThrough
        [⟨⟨90, 120⟩, ⟨40, 20⟩, 0, ⟨1, 1, 1⟩, GameObjectBodyType.solid,
          GameObjectStatus.alive, 6⟩]) (fun _ => 1)
      = (scenarioLevel ℚ ⟨100, 100⟩ ⟨0, 200⟩ BallObjectCollisionType.passThrough
        [⟨⟨90, 120⟩, ⟨40, 20⟩, 0, ⟨1, 1, 1⟩, GameObjectBodyType.solid,
          GameObjectStatus.alive, 6⟩], fun _ => 1) :=
  (passThrough_brick_collision Rat.sqrt
    (scenarioLevel ℚ ⟨100, 100⟩ ⟨0, 200⟩ BallObjectCollisionType.passThrough
      [⟨⟨90, 120⟩, ⟨40, 20⟩, 0, ⟨1, 1, 1⟩, GameObjectBodyType.solid,
        GameObjectStatus.alive, 6⟩]) (fun _ => 1) rfl).2.1
    (by intro brick hb; simp [scenarioLevel] at hb; rw [hb])

end PassThroughProperties

/-! ## Boundary chain -/

section BoundaryProperties

variable {F : Type} [LinearOrderedField F]

/-- C20: the boundary priority chain.  `handleBallObjectMovement` sets
position += dt * velocity and then takes exactly one branch, the first whose
condition holds in the order left wall (x ≤ 0), right wall
(x + size.x ≥ width), top wall (y ≤ 0), bottom (y + size.y ≥ height): the
left and right branches negate velocity.x and set x to 0 and to
width - size.x, the top branch negates velocity.y and sets y to 0, the bottom
branch recreates the level; with no condition only the position changes.  In
a frame in which a left or right wall condition holds, velocity.y and
position.y are as the position update left them, whatever the top and bottom
conditions are, and the level is not recreated (all of it but the ball is as
before). -/
theorem boundary_priority_chain (indeterminate : BallObjectCollisionType) (dt : F)
    (gameLevel : GameLevel F) :
    (gameLevel.ball.position.x + dt * gameLevel.ball.velocity.x ≤ 0 →
      handleBallObjectMovement indeterminate dt gameLevel =
        { gameLevel with
          ball := { gameLevel.ball with
            velocity := ⟨-gameLevel.ball.velocity.x, gameLevel.ball.velocity.y⟩
            position := ⟨0, gameLevel.ball.position.y + dt * gameLevel.ball.velocity.y⟩ } }) ∧
    (¬ (gameLevel.ball.position.x + dt * gameLevel.ball.velocity.x ≤ 0) →
      gameLevel.ball.position.x + dt * gameLevel.ball.velocity.x + gameLevel.ball.size.x
        ≥ (gameLevel.map.width : F) →
      handleBallObjectMovement indeterminate dt gameLevel =
        { gameLevel with
          ball := { gameLevel.ball with
            velocity := ⟨-gameLevel.ball.velocity.x, gameLevel.ball.velocity.y⟩
            position := ⟨(gameLevel.map.width : F) - gameLevel.ball.size.x,
              gameLevel.ball.position.y + dt * gameLevel.ball.velocity.y⟩ } }) ∧
    (¬ (gameLevel.ball.position.x + dt * gameLevel.ball.velocity.x ≤ 0) →
      ¬ (gameLevel.ball.position.x + dt * gameLevel.ball.velocity.x + gameLevel.ball.size.x
        ≥ (gameLevel.map.width : F)) →
      gameLevel.ball.position.y + dt * gameLevel.ball.velocity.y ≤ 0 →
      handleBallObjectMovement indeterminate dt gameLevel =
        { gameLevel with
          ball := { gameLevel.ball with
            velocity := ⟨gameLevel.ball.velocity.x, -gameLevel.ball.velocity.y⟩
            position := ⟨gameLevel.ball.position.x + dt * gameLevel.ball.velocity.x, 0⟩ } }) ∧
    (reachesBottom dt gameLevel →
      handleBallObjectMovement indeterminate dt gameLevel
        = createGameLevel indeterminate gameLevel.config) ∧
    (¬ (gameLevel.ball.position.x + dt * gameLevel.ball.velocity.x ≤ 0) →
      ¬ (gameLevel.ball.position.x + dt * gameLevel.ball.velocity.x + gameLevel.ball.size.x
        ≥ (gameLevel.map.width : F)) →
      ¬ (gameLevel.ball.position.y + dt * gameLevel.ball.velocity.y ≤ 0) →
      ¬ (gameLevel.ball.position.y + dt * gameLevel.ball.velocity.y + gameLevel.ball.size.y
        ≥ (gameLevel.map.height : F)) →
      handleBallObjectMovement indeterminate dt gameLevel =
        { gameLevel with
          ball := { gameLevel.ball with
            position := ⟨gameLevel.ball.position.x + dt * gameLevel.ball.velocity.x,
              gameLevel.ball.position.y + dt * gameLevel.ball.velocity.y⟩ } }) ∧
    ((gameLevel.ball.position.x + dt * gameLevel.ball.velocity.x ≤ 0 ∨
        gameLevel.ball.position.x + dt * gameLevel.ball.velocity.x + gameLevel.ball.size.x
          ≥ (gameLevel.map.width : F)) →
      (handleBallObjectMovement indeterminate dt gameLevel).ball.velocity.y
        = gameLevel.ball.velocity.y ∧
      (handleBallObjectMovement indeterminate dt gameLevel).ball.position.y
        = gameLevel.ball.position.y + dt * gameLevel.ball.velocity.y ∧
      (handleBallObjectMovement indeterminate dt gameLevel).ball.velocity.x
        = -gameLevel.ball.velocity.x ∧
      { handleBallObjectMovement indeterminate dt gameLevel with ball := gameLevel.ball }
        = gameLevel) := by
  have hL : gameLevel.ball.position.x + dt * gameLevel.ball.velocity.x ≤ 0 →
      handleBallObjectMovement indeterminate dt gameLevel =
        { gameLevel with
          ball := { gameLevel.ball with
            velocity := ⟨-gameLevel.ball.velocity.x, gameLevel.ball.velocity.y⟩
            position := ⟨0, gameLevel.ball.position.y + dt * gameLevel.ball.velocity.y⟩ } } := by
    intro h1
    simp only [handleBallObjectMovement, Vec2.add, Vec2.smul, if_pos h1, mul_neg, mul_one]
  have hR : ¬ (gameLevel.ball.position.x + dt * gameLevel.ball.velocity.x ≤ 0) →
      gameLevel.ball.position.x + dt * gameLevel.ball.velocity.x + gameLevel.ball.size.x
        ≥ (gameLevel.map.width : F) →
      handleBallObjectMovement indeterminate dt gameLevel =
        { gameLevel with
          ball := { gameLevel.ball with
            velocity := ⟨-gameLevel.ball.velocity.x, gameLevel.ball.velocity.y⟩
            position := ⟨(gameLevel.map.width : F) - gameLevel.ball.size.x,
              gameLevel.ball.position.y + dt * gameLevel.ball.velocity.y⟩ } } := by
    intro h1 h2
    simp only [handleBallObjectMovement, Vec2.add, Vec2.smul, if_neg h1, if_pos h2, mul_neg,
      mul_one]
  refine ⟨hL, hR, ?_, handleBallObjectMovement_bottom indeterminate dt gameLevel, ?_, ?_⟩
  · intro h1 h2 h3
    simp only [handleBallObjectMovement, Vec2.add, Vec2.smul, if_neg h1, if_neg h2, if_pos h3,
      mul_neg, mul_one]
  · intro h1 h2 h3 h4
    simp only [handleBallObjectMovement, Vec2.add, Vec2.smul, if_neg h1, if_neg h2, if_neg h3,
      if_neg h4]
  · intro h
    by_cases h1 : gameLevel.ball.position.x + dt * gameLevel.ball.velocity.x ≤ 0
    · rw [hL h1]
      exact ⟨rfl, rfl, rfl, rfl⟩
    · have h2 : gameLevel.ball.position.x + dt * gameLevel.ball.velocity.x
          + gameLevel.ball.size.x ≥ (gameLevel.map.width : F) := by
        rcases h with h | h
        · exact absurd h h1
        · exact h
      rw [hR h1 h2]
      exact ⟨rfl, rfl, rfl, rfl⟩

/-- C20 at a concrete input: the ball at (1, 5) moving with (-30, -100)
crosses the left wall and the top wall in the same tenth of a second; only
the left wall is handled: the velocity becomes (30, -100) and the ball is put
at (0, -5), above the top wall. -/
theorem boundary_priority_chain_witness :
    (handleBallObjectMovement BallObjectCollisionType.default (1 / 10 : ℚ)
      (exampleLevelWithBall ⟨1, 5⟩ ⟨-30, -100⟩ BallObjectSurfaceType.reflect)).ball.velocity
      = ⟨30, -100⟩ ∧
    (handleBallObjectMovement BallObjectCollisionType.default (1 / 10 : ℚ)
      (exampleLevelWithBall ⟨1, 5⟩ ⟨-30, -100⟩ BallObjectSurfaceType.reflect)).ball.position
      = ⟨0, -5⟩ := by
  have h := (boundary_priority_chain BallObjectCollisionType.default (1 / 10 : ℚ)
    (exampleLevelWithBall ⟨1, 5⟩ ⟨-30, -100⟩ BallObjectSurfaceType.reflect)).1
    (by norm_num [exampleLevelWithBall])
  rw [h]
  constructor
  · norm_num [exampleLevelWithBall]
  · norm_num [exampleLevelWithBall]

end BoundaryProperties

/-! ## Brick life cycle -/

section BrickLifeCycleProperties

variable {F : Type} [LinearOrderedField F]

/-- A brick that is not Alive is skipped: the loop body leaves the brick, the
level and the random state as they are. -/
theorem brickCollisionBody_not_alive (sqrt : F → F) (circle : AabbCollisionCircle F)
    (brick : GameObject F) (gameLevel : GameLevel F) (s : Rand)
    (h : brick.status ≠ GameObjectStatus.alive) :
    brickCollisionBody sqrt circle brick gameLevel s = (brick, gameLevel, s) := by
  unfold brickCollisionBody
  rw [if_pos h]

/-- A brick the circle does not collide with leaves the level and the random
state as they are. -/
theorem brickCollisionBody_miss (sqrt : F → F) (circle : AabbCollisionCircle F)
    (brick : GameObject F) (gameLevel : GameLevel F) (s : Rand)
    (h : checkCircleToBoxCollision sqrt circle (gameObjectToAabbCollisionBox brick) = none) :
    brickCollisionBody sqrt circle brick gameLevel s = (brick, gameLevel, s) := by
  unfold brickCollisionBody
  rw [h]
  split_ifs <;> rfl

theorem brickAfterCollision_fields (sqrt : F → F) (circle : AabbCollisionCircle F)
    (brick : GameObject F) :
    (brickAfterCollision sqrt circle brick).position = brick.position ∧
    (brickAfterCollision sqrt circle brick).size = brick.size ∧
    (brickAfterCollision sqrt circle brick).bodyType = brick.bodyType := by
  unfold brickAfterCollision
  split_ifs <;> exact ⟨rfl, rfl, rfl⟩

theorem brickAfterCollision_status (sqrt : F → F) (circle : AabbCollisionCircle F)
    (brick : GameObject F) :
    (brick.bodyType = GameObjectBodyType.solid →
      (brickAfterCollision sqrt circle brick).status = brick.status) ∧
    (brick.status = GameObjectStatus.alive →
      brick.bodyType = GameObjectBodyType.destroyable →
      ((brickAfterCollision sqrt circle brick).status = GameObjectStatus.destroyed ↔
        (checkCircleToBoxCollision sqrt circle
          (gameObjectToAabbCollisionBox brick)).isSome = true)) := by
  unfold brickAfterCollision
  refine ⟨fun hsolid => ?_, fun halive hd => ?_⟩
  · rw [if_neg (by rw [hsolid]; simp)]
  · by_cases hc : (checkCircleToBoxCollision sqrt circle
        (gameObjectToAabbCollisionBox brick)).isSome = true
    · rw [if_pos ⟨halive, hd, hc⟩]
      simp [hc]
    · rw [if_neg (fun h => hc h.2.2)]
      simp [hc, halive]

theorem handleGameLevelBrickCollision_bricks (sqrt : F → F) (gameLevel : GameLevel F)
    (s : Rand) :
    (handleGameLevelBrickCollision sqrt gameLevel s).1.map.bricks
      = gameLevel.map.bricks.map
          (brickAfterCollision sqrt (ballObjectToAabbCollisionCircle gameLevel.ball)) := by
  simp only [handleGameLevelBrickCollision, brickCollisionLoop_bricks]

/-- C21.  The brick list after `handleGameLevelBrickCollision` is the brick
list before it with `brickAfterCollision` applied to each brick in place, so
its length and order are kept; each brick keeps its position, size and body
type; a Destroyed brick stays Destroyed and its loop step changes neither
the level (ball, shake countdown, power-up list) nor the random state; a
Solid brick keeps its status; and an Alive Destroyable brick is Destroyed
afterwards exactly when the circle computed at the start of the call collides
with its box. -/
theorem brick_lifecycle (sqrt : F → F) (gameLevel : GameLevel F) (s : Rand) :
    (handleGameLevelBrickCollision sqrt gameLevel s).1.map.bricks
      = gameLevel.map.bricks.map
          (brickAfterCollision sqrt (ballObjectToAabbCollisionCircle gameLevel.ball)) ∧
    (handleGameLevelBrickCollision sqrt gameLevel s).1.map.bricks.length
      = gameLevel.map.bricks.length ∧
    ∀ brick : GameObject F,
      (brickAfterCollision sqrt (ballObjectToAabbCollisionCircle gameLevel.ball)
          brick).position = brick.position ∧
      (brickAfterCollision sqrt (ballObjectToAabbCollisionCircle gameLevel.ball)
          brick).size = brick.size ∧
      (brickAfterCollision sqrt (ballObjectToAabbCollisionCircle gameLevel.ball)
          brick).bodyType = brick.bodyType ∧
      (brick.status = GameObjectStatus.destroyed →
        (brickAfterCollision sqrt (ballObjectToAabbCollisionCircle gameLevel.ball)
          brick).status = GameObjectStatus.destroyed ∧
        ∀ (current : GameLevel F) (t : Rand),
          brickCollisionBody sqrt (ballObjectToAabbCollisionCircle gameLevel.ball)
            brick current t = (brick, current, t)) ∧
      (brick.bodyType = GameObjectBodyType.solid →
        (brickAfterCollision sqrt (ballObjectToAabbCollisionCircle gameLevel.ball)
          brick).status = brick.status) ∧
      (brick.status = GameObjectStatus.alive →
        brick.bodyType = GameObjectBodyType.destroyable →
        ((brickAfterCollision sqrt (ballObjectToAabbCollisionCircle gameLevel.ball)
            brick).status = GameObjectStatus.destroyed ↔
          (checkCircleToBoxCollision sqrt (ballObjectToAabbCollisionCircle gameLevel.ball)
            (gameObjectToAabbCollisionBox brick)).isSome = true)) := by
  refine ⟨handleGameLevelBrickCollision_bricks sqrt gameLevel s, ?_, fun brick => ?_⟩
  · rw [handleGameLevelBrickCollision_bricks, List.length_map]
  · obtain ⟨hp, hsz, hb⟩ := brickAfterCollision_fields sqrt
      (ballObjectToAabbCollisionCircle gameLevel.ball) brick
    obtain ⟨hsolid, hd⟩ := brickAfterCollision_status sqrt
      (ballObjectToAabbCollisionCircle gameLevel.ball) brick
    refine ⟨hp, hsz, hb, fun hdes => ⟨?_, fun current t => ?_⟩, hsolid, hd⟩
    · unfold brickAfterCollision
      rw [if_neg (by rw [hdes]; simp)]
      exact hdes
    · exact brickCollisionBody_not_alive sqrt _ brick current t (by rw [hdes]; simp)

end BrickLifeCycleProperties

/-! ## Penetration resolution -/

section PenetrationProperties

variable {F : Type} [LinearOrderedField F]

theorem brickCollisionLoop_append (sqrt : F → F) (circle : AabbCollisionCircle F)
    (xs ys : List (GameObject F)) (gameLevel : GameLevel F) (s : Rand) :
    brickCollisionLoop sqrt circle (xs ++ ys) gameLevel s
      = ((brickCollisionLoop sqrt circle xs gameLevel s).1 ++
          (brickCollisionLoop sqrt circle ys
            (brickCollisionLoop sqrt circle xs gameLevel s).2.1
            (brickCollisionLoop sqrt circle xs gameLevel s).2.2).1,
         (brickCollisionLoop sqrt circle ys
            (brickCollisionLoop sqrt circle xs gameLevel s).2.1
            (brickCollisionLoop sqrt circle xs gameLevel s).2.2).2) := by
  induction xs generalizing gameLevel s with
  | nil => rfl
  | cons x xs ih =>
    rw [List.cons_append]
    simp only [brickCollisionLoop]
    rw [ih]
    rfl

/-- Bricks that are not Alive or that the circle misses leave the level and
the random state as they are. -/
theorem brickCollisionLoop_skip (sqrt : F → F) (circle : AabbCollisionCircle F)
    (bricks : List (GameObject F)) (gameLevel : GameLevel F) (s : Rand)
    (h : ∀ b ∈ bricks, b.status ≠ GameObjectStatus.alive ∨
      checkCircleToBoxCollision sqrt circle (gameObjectToAabbCollisionBox b) = none) :
    brickCollisionLoop sqrt circle bricks gameLevel s = (bricks, gameLevel, s) := by
  induction bricks with
  | nil => rfl
  | cons b bricks ih =>
    have hb : brickCollisionBody sqrt circle b gameLevel s = (b, gameLevel, s) := by
      rcases h b (List.mem_cons_self _ _) with h1 | h1
      · exact brickCollisionBody_not_alive sqrt circle b gameLevel s h1
      · exact brickCollisionBody_miss sqrt circle b gameLevel s h1
    simp only [brickCollisionLoop]
    rw [hb]
    simp only
    rw [ih (fun b hb => h b (List.mem_cons_of_mem _ hb))]

/-- When the circle collides with exactly one Alive brick of the list and the
ball is not in PassThrough mode, the ball after the brick pass is the
collision response to that brick. -/
theorem handleGameLevelBrickCollision_single_hit (sqrt : F → F) (gameLevel : GameLevel F)
    (s : Rand) (before after : List (GameObject F)) (brick : GameObject F)
    (collision : Collision F)
    (hbricks : gameLevel.map.bricks = before ++ brick :: after)
    (hothers : ∀ b, b ∈ before ∨ b ∈ after → b.status ≠ GameObjectStatus.alive ∨
      checkCircleToBoxCollision sqrt (ballObjectToAabbCollisionCircle gameLevel.ball)
        (gameObjectToAabbCollisionBox b) = none)
    (halive : brick.status = GameObjectStatus.alive)
    (hmode : gameLevel.ball.collisionType ≠ BallObjectCollisionType.passThrough)
    (hcol : checkCircleToBoxCollision sqrt (ballObjectToAabbCollisionCircle gameLevel.ball)
      (gameObjectToAabbCollisionBox brick) = some collision) :
    (handleGameLevelBrickCollision sqrt gameLevel s).1.ball
      = brickCollisionResponse collision gameLevel.ball := by
  simp only [handleGameLevelBrickCollision]
  rw [hbricks, brickCollisionLoop_append,
    brickCollisionLoop_skip sqrt _ before gameLevel s (fun b hb => hothers b (Or.inl hb))]
  simp only [brickCollisionLoop]
  rw [brickCollisionLoop_skip sqrt _ after _ _ (fun b hb => hothers b (Or.inr hb))]
  exact brickCollisionBody_response sqrt _ brick gameLevel s collision halive hcol (Or.inr hmode)

/-- One axis of a face hit: where the closest coordinate differs from the
centre coordinate, the centre lies strictly on that side of the interval and
the closest coordinate is the bound on that side. -/
theorem closest_on_axis_outside (lo hi c : F) :
    (0 < (if c < lo then lo else if hi < c then hi else c) - c → c < lo) ∧
    ((if c < lo then lo else if hi < c then hi else c) - c < 0 → hi < c) ∧
    ((if c < lo then lo else if hi < c then hi else c) - c = 0 → lo ≤ c ∧ c ≤ hi) := by
  split_ifs with h1 h2
  · exact ⟨fun _ => h1, fun hd => by linarith, fun hd => by linarith⟩
  · exact ⟨fun hd => by linarith, fun _ => h2, fun hd => by linarith⟩
  · exact ⟨fun hd => by linarith, fun hd => by linarith,
      fun _ => ⟨not_lt.1 h1, not_lt.1 h2⟩⟩

/-- The length of a vector with one zero component is the absolute value of
the other. -/
theorem length_axis (sqrt : F → F) (v : Vec2 F) (h : v.x = 0 ∨ v.y = 0)
    (hs : IsSqrtOf (dot v v) (sqrt (dot v v))) :
    length sqrt v = |v.x| + |v.y| := by
  unfold length
  apply hs.eq_of_sq (add_nonneg (abs_nonneg _) (abs_nonneg _))
  simp only [dot]
  rcases h with h | h
  · rw [h]; simp
  · rw [h]; simp

theorem closest_on_axis_eq (lo hi c : F) (h : lo ≤ hi) :
    (c ≤ lo → (if c < lo then lo else if hi < c then hi else c) = lo) ∧
    (hi ≤ c → (if c < lo then lo else if hi < c then hi else c) = hi) ∧
    (lo ≤ c → c ≤ hi → (if c < lo then lo else if hi < c then hi else c) = c) := by
  refine ⟨fun h1 => ?_, fun h1 => ?_, fun h1 h2 => ?_⟩ <;> split_ifs <;> linarith

/-- A hit whose difference vector lies along x: the penetration is not
negative, the centre lies beside the box within its vertical extent, and the
direction is Right when the centre is left of the box and Left when it is
right of it. -/
theorem face_hit_x (sqrt : F → F) (circle : AabbCollisionCircle F) (box : AabbCollisionBox F)
    (collision : Collision F)
    (hx : box.topLeft.x ≤ box.bottomRight.x) (hy : box.topLeft.y ≤ box.bottomRight.y)
    (hcol : checkCircleToBoxCollision sqrt circle box = some collision)
    (hd : collision.difference.x ≠ 0) (h0 : collision.difference.y = 0)
    (hs : IsSqrtOf (dot collision.difference collision.difference)
      (sqrt (dot collision.difference collision.difference))) :
    |collision.difference.x| ≤ circle.radius ∧
    (box.topLeft.y ≤ circle.center.y ∧ circle.center.y ≤ box.bottomRight.y) ∧
    ((circle.center.x < box.topLeft.x ∧ collision.direction = Direction.right ∧
        |collision.difference.x| = box.topLeft.x - circle.center.x) ∨
     (box.bottomRight.x < circle.center.x ∧ collision.direction = Direction.left ∧
        |collision.difference.x| = circle.center.x - box.bottomRight.x)) := by
  obtain ⟨hdiff, hdir⟩ := checkCircleToBoxCollision_difference sqrt circle box collision hcol
  have hlen : length sqrt collision.difference = |collision.difference.x| := by
    rw [length_axis sqrt _ (Or.inr h0) hs, h0, abs_zero, add_zero]
  have hle : |collision.difference.x| ≤ circle.radius := by
    have h := (checkCircleToBoxCollision_isSome sqrt circle box).1 (by rw [hcol]; rfl)
    have e : distSq circle.center (closestPoint circle box)
        = dot collision.difference collision.difference := by rw [hdiff]; rfl
    rw [e] at h
    exact hlen ▸ h
  have hpos : 0 < sqrt (dot collision.difference collision.difference) :=
    hs.pos_of_ne_zero (dot_self_ne_zero _ (Or.inl hd))
  have hdx : collision.difference.x =
      (if circle.center.x < box.topLeft.x then box.topLeft.x
        else if box.bottomRight.x < circle.center.x then box.bottomRight.x
        else circle.center.x) - circle.center.x := by
    rw [hdiff, ← closestPoint_x circle box hx]; rfl
  have hdy : collision.difference.y =
      (if circle.center.y < box.topLeft.y then box.topLeft.y
        else if box.bottomRight.y < circle.center.y then box.bottomRight.y
        else circle.center.y) - circle.center.y := by
    rw [hdiff, ← closestPoint_y circle box hy]; rfl
  obtain ⟨a1, a2, _⟩ := closest_on_axis_outside box.topLeft.x box.bottomRight.x circle.center.x
  obtain ⟨_, _, b3⟩ := closest_on_axis_outside box.topLeft.y box.bottomRight.y circle.center.y
  refine ⟨hle, b3 (by rw [← hdy, h0]), ?_⟩
  rw [hdir, directionFromTarget_eq sqrt _ hpos, bestMatchLoop_eq, h0]
  rcases lt_or_gt_of_ne hd with hneg | hp
  · right
    have hc := a2 (by rw [← hdx]; exact hneg)
    refine ⟨hc, ?_, ?_⟩
    · simp only [lt_self_iff_false, if_false, neg_zero]
      rw [if_neg (not_lt.2 hneg.le), if_pos (by linarith)]
    · rw [abs_of_neg hneg, hdx, if_neg (not_lt.2 (hx.trans hc.le)), if_pos hc]; ring
  · left
    have hc := a1 (by rw [← hdx]; exact hp)
    refine ⟨hc, ?_, ?_⟩
    · simp only [lt_self_iff_false, if_false, neg_zero]
      rw [if_pos hp, if_neg (not_lt.2 hp.le)]
    · rw [abs_of_pos hp, hdx, if_pos hc]

/-- A hit whose difference vector lies along y: as `face_hit_x`, with Up
when the centre is above the box and Down when it is below it. -/
theorem face_hit_y (sqrt : F → F) (circle : AabbCollisionCircle F) (box : AabbCollisionBox F)
    (collision : Collision F)
    (hx : box.topLeft.x ≤ box.bottomRight.x) (hy : box.topLeft.y ≤ box.bottomRight.y)
    (hcol : checkCircleToBoxCollision sqrt circle box = some collision)
    (h0 : collision.difference.x = 0) (hd : collision.difference.y ≠ 0)
    (hs : IsSqrtOf (dot collision.difference collision.difference)
      (sqrt (dot collision.difference collision.difference))) :
    |collision.difference.y| ≤ circle.radius ∧
    (box.topLeft.x ≤ circle.center.x ∧ circle.center.x ≤ box.bottomRight.x) ∧
    ((circle.center.y < box.topLeft.y ∧ collision.direction = Direction.up ∧
        |collision.difference.y| = box.topLeft.y - circle.center.y) ∨
     (box.bottomRight.y < circle.center.y ∧ collision.direction = Direction.down ∧
        |collision.difference.y| = circle.center.y - box.bottomRight.y)) := by
  obtain ⟨hdiff, hdir⟩ := checkCircleToBoxCollision_difference sqrt circle box collision hcol
  have hlen : length sqrt collision.difference = |collision.difference.y| := by
    rw [length_axis sqrt _ (Or.inl h0) hs, h0, abs_zero, zero_add]
  have hle : |collision.difference.y| ≤ circle.radius := by
    have h := (checkCircleToBoxCollision_isSome sqrt circle box).1 (by rw [hcol]; rfl)
    have e : distSq circle.center (closestPoint circle box)
        = dot collision.difference collision.difference := by rw [hdiff]; rfl
    rw [e] at h
    exact hlen ▸ h
  have hpos : 0 < sqrt (dot collision.difference collision.difference) :=
    hs.pos_of_ne_zero (dot_self_ne_zero _ (Or.inr hd))
  have hdx : collision.difference.x =
      (if circle.center.x < box.topLeft.x then box.topLeft.x
        else if box.bottomRight.x < circle.center.x then box.bottomRight.x
        else circle.center.x) - circle.center.x := by
    rw [hdiff, ← closestPoint_x circle box hx]; rfl
  have hdy : collision.difference.y =
      (if circle.center.y < box.topLeft.y then box.topLeft.y
        else if box.bottomRight.y < circle.center.y then box.bottomRight.y
        else circle.center.y) - circle.center.y := by
    rw [hdiff, ← closestPoint_y circle box hy]; rfl
  obtain ⟨a1, a2, _⟩ := closest_on_axis_outside box.topLeft.y box.bottomRight.y circle.center.y
  obtain ⟨_, _, b3⟩ := closest_on_axis_outside box.topLeft.x box.bottomRight.x circle.center.x
  refine ⟨hle, b3 (by rw [← hdx, h0]), ?_⟩
  rw [hdir, directionFromTarget_eq sqrt _ hpos, bestMatchLoop_eq, h0]
  rcases lt_or_gt_of_ne hd with hneg | hp
  · right
    have hc := a2 (by rw [← hdy]; exact hneg)
    refine ⟨hc, ?_, ?_⟩
    · simp only [lt_self_iff_false, if_false, neg_zero]
      rw [if_neg (not_lt.2 hneg.le), if_pos (by linarith), if_neg (by linarith)]
    · rw [abs_of_neg hneg, hdy, if_neg (not_lt.2 (hy.trans hc.le)), if_pos hc]; ring
  · left
    have hc := a1 (by rw [← hdy]; exact hp)
    refine ⟨hc, ?_, ?_⟩
    · rw [if_pos hp, if_neg (not_lt.2 hp.le), if_neg (by rw [neg_zero]; exact not_lt.2 hp.le)]
    · rw [abs_of_pos hp, hdy, if_pos hc]

/-- The squared distance from the centre to the closest point of the box,
for a centre beside the box within its extent on the other axis. -/
theorem distSq_closest_beside (circle : AabbCollisionCircle F) (box : AabbCollisionBox F)
    (hx : box.topLeft.x ≤ box.bottomRight.x) (hy : box.topLeft.y ≤ box.bottomRight.y) :
    (box.topLeft.y ≤ circle.center.y → circle.center.y ≤ box.bottomRight.y →
      (circle.center.x ≤ box.topLeft.x →
        distSq circle.center (closestPoint circle box)
          = (box.topLeft.x - circle.center.x) * (box.topLeft.x - circle.center.x)) ∧
      (box.bottomRight.x ≤ circle.center.x →
        distSq circle.center (closestPoint circle box)
          = (circle.center.x - box.bottomRight.x) * (circle.center.x - box.bottomRight.x))) ∧
    (box.topLeft.x ≤ circle.center.x → circle.center.x ≤ box.bottomRight.x →
      (circle.center.y ≤ box.topLeft.y →
        distSq circle.center (closestPoint circle box)
          = (box.topLeft.y - circle.center.y) * (box.topLeft.y - circle.center.y)) ∧
      (box.bottomRight.y ≤ circle.center.y →
        distSq circle.center (closestPoint circle box)
          = (circle.center.y - box.bottomRight.y) * (circle.center.y - box.bottomRight.y))) := by
  have e : distSq circle.center (closestPoint circle box)
      = ((closestPoint circle box).x - circle.center.x) *
          ((closestPoint circle box).x - circle.center.x) +
        ((closestPoint circle box).y - circle.center.y) *
          ((closestPoint circle box).y - circle.center.y) := rfl
  rw [e, closestPoint_x circle box hx, closestPoint_y circle box hy]
  obtain ⟨x1, x2, x3⟩ := closest_on_axis_eq box.topLeft.x box.bottomRight.x circle.center.x hx
  obtain ⟨y1, y2, y3⟩ := closest_on_axis_eq box.topLeft.y box.bottomRight.y circle.center.y hy
  refine ⟨fun h1 h2 => ⟨fun h => ?_, fun h => ?_⟩, fun h1 h2 => ⟨fun h => ?_, fun h => ?_⟩⟩
  · rw [x1 h, y3 h1 h2]; ring
  · rw [x2 h, y3 h1 h2]; ring
  · rw [y1 h, x3 h1 h2]; ring
  · rw [y2 h, x3 h1 h2]; ring

/-- The collision response, by direction. -/
theorem brickCollisionResponse_eq (collision : Collision F) (ball : BallObject F) :
    (collision.direction = Direction.right →
      brickCollisionResponse collision ball = { ball with
        velocity := ⟨ball.velocity.x * -1, ball.velocity.y⟩
        position := ⟨ball.position.x - (ball.radius - |collision.difference.x|),
          ball.position.y⟩ }) ∧
    (collision.direction = Direction.left →
      brickCollisionResponse collision ball = { ball with
        velocity := ⟨ball.velocity.x * -1, ball.velocity.y⟩
        position := ⟨ball.position.x + (ball.radius - |collision.difference.x|),
          ball.position.y⟩ }) ∧
    (collision.direction = Direction.up →
      brickCollisionResponse collision ball = { ball with
        velocity := ⟨ball.velocity.x, ball.velocity.y * -1⟩
        position := ⟨ball.position.x,
          ball.position.y - (ball.radius - |collision.difference.y|)⟩ }) ∧
    (collision.direction = Direction.down →
      brickCollisionResponse collision ball = { ball with
        velocity := ⟨ball.velocity.x, ball.velocity.y * -1⟩
        position := ⟨ball.position.x,
          ball.position.y + (ball.radius - |collision.difference.y|)⟩ }) := by
  unfold brickCollisionResponse
  refine ⟨fun h => ?_, fun h => ?_, fun h => ?_, fun h => ?_⟩ <;> rw [h] <;> simp

/-- C22.  A ball not in PassThrough mode (Default mode) whose circle
collides with exactly one Alive brick of the list, through a face (the
difference vector has exactly one non-zero component), with an exact square
root of the squared length of the difference: the penetration
`radius - |difference component|` is not negative; after
`handleGameLevelBrickCollision` the ball has moved along that axis by
exactly the penetration, away from the brick (towards smaller coordinates
when the centre is before the brick, towards larger ones when it is after
it); the velocity component on that axis is negated and the other is
unchanged, as is the position on the other axis; and the squared distance
from the new circle centre to the closest point of the brick equals the
squared radius, with radius ≥ 0: the circle touches the brick. -/
theorem penetration_resolution (sqrt : F → F) (gameLevel : GameLevel F)
    (s : Rand) (before after : List (GameObject F)) (brick : GameObject F)
    (collision : Collision F)
    (hbricks : gameLevel.map.bricks = before ++ brick :: after)
    (hothers : ∀ b, b ∈ before ∨ b ∈ after → b.status ≠ GameObjectStatus.alive ∨
      checkCircleToBoxCollision sqrt (ballObjectToAabbCollisionCircle gameLevel.ball)
        (gameObjectToAabbCollisionBox b) = none)
    (halive : brick.status = GameObjectStatus.alive)
    (hdefault : gameLevel.ball.collisionType = BallObjectCollisionType.default)
    (hsize : 0 ≤ brick.size.x ∧ 0 ≤ brick.size.y)
    (hcol : checkCircleToBoxCollision sqrt (ballObjectToAabbCollisionCircle gameLevel.ball)
      (gameObjectToAabbCollisionBox brick) = some collision)
    (hface : (collision.difference.x ≠ 0 ∧ collision.difference.y = 0) ∨
      (collision.difference.x = 0 ∧ collision.difference.y ≠ 0))
    (hs : IsSqrtOf (dot collision.difference collision.difference)
      (sqrt (dot collision.difference collision.difference))) :
    (collision.difference.y = 0 →
      0 ≤ gameLevel.ball.radius - |collision.difference.x| ∧
      (handleGameLevelBrickCollision sqrt gameLevel s).1.ball.velocity
        = ⟨-gameLevel.ball.velocity.x, gameLevel.ball.velocity.y⟩ ∧
      (handleGameLevelBrickCollision sqrt gameLevel s).1.ball.position.y
        = gameLevel.ball.position.y ∧
      ((gameLevel.ball.position.x + gameLevel.ball.radius < brick.position.x ∧
          (handleGameLevelBrickCollision sqrt gameLevel s).1.ball.position.x
            = gameLevel.ball.position.x
              - (gameLevel.ball.radius - |collision.difference.x|)) ∨
        (brick.position.x + brick.size.x < gameLevel.ball.position.x + gameLevel.ball.radius ∧
          (handleGameLevelBrickCollision sqrt gameLevel s).1.ball.position.x
            = gameLevel.ball.position.x
              + (gameLevel.ball.radius - |collision.difference.x|)))) ∧
    (collision.difference.x = 0 →
      0 ≤ gameLevel.ball.radius - |collision.difference.y| ∧
      (handleGameLevelBrickCollision sqrt gameLevel s).1.ball.velocity
        = ⟨gameLevel.ball.velocity.x, -gameLevel.ball.velocity.y⟩ ∧
      (handleGameLevelBrickCollision sqrt gameLevel s).1.ball.position.x
        = gameLevel.ball.position.x ∧
      ((gameLevel.ball.position.y + gameLevel.ball.radius < brick.position.y ∧
          (handleGameLevelBrickCollision sqrt gameLevel s).1.ball.position.y
            = gameLevel.ball.position.y
              - (gameLevel.ball.radius - |collision.difference.y|)) ∨
        (brick.position.y + brick.size.y < gameLevel.ball.position.y + gameLevel.ball.radius ∧
          (handleGameLevelBrickCollision sqrt gameLevel s).1.ball.position.y
            = gameLevel.ball.position.y
              + (gameLevel.ball.radius - |collision.difference.y|)))) ∧
    0 ≤ gameLevel.ball.radius ∧
    distSq
        (ballObjectToAabbCollisionCircle
          (handleGameLevelBrickCollision sqrt gameLevel s).1.ball).center
        (closestPoint
          (ballObjectToAabbCollisionCircle
            (handleGameLevelBrickCollision sqrt gameLevel s).1.ball)
          (gameObjectToAabbCollisionBox brick))
      = gameLevel.ball.radius * gameLevel.ball.radius := by
  have hball := handleGameLevelBrickCollision_single_hit sqrt gameLevel s before after brick
    collision hbricks hothers halive (by rw [hdefault]; decide) hcol
  have hx : (gameObjectToAabbCollisionBox brick).topLeft.x
      ≤ (gameObjectToAabbCollisionBox brick).bottomRight.x := by
    simp only [gameObjectToAabbCollisionBox, Vec2.add]; linarith [hsize.1]
  have hy : (gameObjectToAabbCollisionBox brick).topLeft.y
      ≤ (gameObjectToAabbCollisionBox brick).bottomRight.y := by
    simp only [gameObjectToAabbCollisionBox, Vec2.add]; linarith [hsize.2]
  rw [hball]
  rcases hface with ⟨hd, h0⟩ | ⟨h0, hd⟩
  · obtain ⟨hle, ⟨hy1, hy2⟩, hside⟩ := face_hit_x sqrt _ _ collision hx hy hcol hd h0 hs
    simp only [ballObjectToAabbCollisionCircle, gameObjectToAabbCollisionBox, Vec2.add,
      Vec2.splat] at hle hy1 hy2 hside hx hy
    have hr : 0 ≤ gameLevel.ball.radius := (abs_nonneg _).trans hle
    obtain ⟨bx, by_⟩ := distSq_closest_beside
      (ballObjectToAabbCollisionCircle (brickCollisionResponse collision gameLevel.ball))
      (gameObjectToAabbCollisionBox brick)
      (by simp only [gameObjectToAabbCollisionBox, Vec2.add]; exact hx)
      (by simp only [gameObjectToAabbCollisionBox, Vec2.add]; exact hy)
    obtain ⟨rr, rl, -, -⟩ := brickCollisionResponse_eq collision gameLevel.ball
    refine ⟨fun _ => ?_, fun h => absurd h hd, hr, ?_⟩
    · refine ⟨sub_nonneg.2 hle, ?_, ?_, ?_⟩
      · rcases hside with ⟨-, hdir, -⟩ | ⟨-, hdir, -⟩
        · rw [rr hdir]; simp
        · rw [rl hdir]; simp
      · rcases hside with ⟨-, hdir, -⟩ | ⟨-, hdir, -⟩
        · rw [rr hdir]
        · rw [rl hdir]
      · rcases hside with ⟨hc, hdir, -⟩ | ⟨hc, hdir, -⟩
        · left; rw [rr hdir]; exact ⟨hc, rfl⟩
        · right; rw [rl hdir]; exact ⟨hc, rfl⟩
    · rcases hside with ⟨hc, hdir, habs⟩ | ⟨hc, hdir, habs⟩
      · rw [rr hdir] at bx ⊢
        simp only [ballObjectToAabbCollisionCircle, gameObjectToAabbCollisionBox, Vec2.add,
          Vec2.splat] at bx ⊢
        rw [(bx hy1 hy2).1 (by rw [habs]; linarith), habs]
        ring
      · rw [rl hdir] at bx ⊢
        simp only [ballObjectToAabbCollisionCircle, gameObjectToAabbCollisionBox, Vec2.add,
          Vec2.splat] at bx ⊢
        rw [(bx hy1 hy2).2 (by rw [habs]; linarith), habs]
        ring
  · obtain ⟨hle, ⟨hx1, hx2⟩, hside⟩ := face_hit_y sqrt _ _ collision hx hy hcol h0 hd hs
    simp only [ballObjectToAabbCollisionCircle, gameObjectToAabbCollisionBox, Vec2.add,
      Vec2.splat] at hle hx1 hx2 hside hx hy
    have hr : 0 ≤ gameLevel.ball.radius := (abs_nonneg _).trans hle
    obtain ⟨bx, by_⟩ := distSq_closest_beside
      (ballObjectToAabbCollisionCircle (brickCollisionResponse collision gameLevel.ball))
      (gameObjectToAabbCollisionBox brick)
      (by simp only [gameObjectToAabbCollisionBox, Vec2.add]; exact hx)
      (by simp only [gameObjectToAabbCollisionBox, Vec2.add]; exact hy)
    obtain ⟨-, -, ru, rd⟩ := brickCollisionResponse_eq collision gameLevel.ball
    refine ⟨fun h => absurd h hd, fun _ => ?_, hr, ?_⟩
    · refine ⟨sub_nonneg.2 hle, ?_, ?_, ?_⟩
      · rcases hside with ⟨-, hdir, -⟩ | ⟨-, hdir, -⟩
        · rw [ru hdir]; simp
        · rw [rd hdir]; simp
      · rcases hside with ⟨-, hdir, -⟩ | ⟨-, hdir, -⟩
        · rw [ru hdir]
        · rw [rd hdir]
      · rcases hside with ⟨hc, hdir, -⟩ | ⟨hc, hdir, -⟩
        · left; rw [ru hdir]; exact ⟨hc, rfl⟩
        · right; rw [rd hdir]; exact ⟨hc, rfl⟩
    · rcases hside with ⟨hc, hdir, habs⟩ | ⟨hc, hdir, habs⟩
      · rw [ru hdir] at by_ ⊢
        simp only [ballObjectToAabbCollisionCircle, gameObjectToAabbCollisionBox, Vec2.add,
          Vec2.splat] at by_ ⊢
        rw [(by_ hx1 hx2).1 (by rw [habs]; linarith), habs]
        ring
      · rw [rd hdir] at by_ ⊢
        simp only [ballObjectToAabbCollisionCircle, gameObjectToAabbCollisionBox, Vec2.add,
          Vec2.splat] at by_ ⊢
        rw [(by_ hx1 hx2).2 (by rw [habs]; linarith), habs]
        ring

theorem penetration_resolution_witness :
    (handleGameLevelBrickCollision Rat.sqrt
      (scenarioLevel ℚ ⟨100, 100⟩ ⟨0, 200⟩ BallObjectCollisionType.default
        [⟨⟨90, 120⟩, ⟨40, 20⟩, 0, ⟨1, 1, 1⟩, GameObjectBodyType.solid,
          GameObjectStatus.alive, 6⟩]) (fun _ => 0)).1.ball.velocity = ⟨0, -200⟩ :=
  ((penetration_resolution Rat.sqrt
    (scenarioLevel ℚ ⟨100, 100⟩ ⟨0, 200⟩ BallObjectCollisionType.default
      [⟨⟨90, 120⟩, ⟨40, 20⟩, 0, ⟨1, 1, 1⟩, GameObjectBodyType.solid,
        GameObjectStatus.alive, 6⟩]) (fun _ => 0) []
    [] ⟨⟨90, 120⟩, ⟨40, 20⟩, 0, ⟨1, 1, 1⟩, GameObjectBodyType.solid, GameObjectStatus.alive, 6⟩
    ⟨Direction.up, ⟨0, 15 / 2⟩⟩ rfl (by simp) rfl rfl (by norm_num) scenarioBrick_hit
    (Or.inr ⟨rfl, by norm_num⟩)
    ⟨Rat.sqrt_nonneg _, by
      rw [show dot (⟨0, 15 / 2⟩ : Vec2 ℚ) ⟨0, 15 / 2⟩ = (15 / 2) * (15 / 2) by norm_num [dot],
        Rat.sqrt_eq]
      norm_num⟩).2.1 rfl).2.1

end PenetrationProperties

/-! ## Sticky ball -/

section StickyProperties

variable {F : Type} [LinearOrderedField F]

/-- A circle of radius `r > 0` that rests on the top edge of a box (centre
within the horizontal extent of the box, at height `top - r`) collides with
it, with difference (0, r) and direction Up. -/
theorem resting_circle_hit (sqrt : F → F) (circle : AabbCollisionCircle F)
    (box : AabbCollisionBox F)
    (hx1 : box.topLeft.x ≤ circle.center.x) (hx2 : circle.center.x ≤ box.bottomRight.x)
    (hy : circle.center.y = box.topLeft.y - circle.radius) (hr : 0 < circle.radius)
    (hbox : box.topLeft.y ≤ box.bottomRight.y)
    (hs : IsSqrtOf (circle.radius * circle.radius) (sqrt (circle.radius * circle.radius))) :
    checkCircleToBoxCollision sqrt circle box
      = some ⟨Direction.up, ⟨0, circle.radius⟩⟩ := by
  have hcx := closestPoint_x circle box (hx1.trans hx2)
  have hcy := closestPoint_y circle box hbox
  rw [if_neg (not_lt.2 hx1), if_neg (not_lt.2 hx2)] at hcx
  rw [if_pos (by rw [hy]; linarith)] at hcy
  have hdiff : (closestPoint circle box).sub circle.center = ⟨0, circle.radius⟩ := by
    simp only [Vec2.sub, hcx, hcy, hy]
    congr 1 <;> ring
  have hd : dot (⟨0, circle.radius⟩ : Vec2 F) ⟨0, circle.radius⟩
      = circle.radius * circle.radius := by
    simp only [dot]; ring
  have hroot : sqrt (circle.radius * circle.radius) = circle.radius :=
    hs.eq_of_sq hr.le rfl
  have hdir : directionFromTarget sqrt (⟨0, circle.radius⟩ : Vec2 F) = Direction.up := by
    rw [directionFromTarget_eq sqrt _ (by rw [hd, hroot]; exact hr), bestMatchLoop_eq]
    simp only [neg_zero]
    rw [if_pos hr, if_neg (not_lt.2 hr.le), if_neg (not_lt.2 hr.le)]
  unfold checkCircleToBoxCollision
  simp only [hdiff, length, hd, hroot, hdir, gt_iff_lt, lt_self_iff_false, if_false]

/-- A Sticky ball whose circle collides with the moved paddle is shifted by
the paddle's displacement. -/
theorem movePlayerObject_sticky_ball (sqrt : F → F) (gameLevel : GameLevel F) (travel : F)
    (collision : Collision F)
    (hsticky : gameLevel.ball.surfaceType = BallObjectSurfaceType.sticky)
    (hcol : checkCircleToBoxCollision sqrt (ballObjectToAabbCollisionCircle gameLevel.ball)
      (gameObjectToAabbCollisionBox (movePlayerObject sqrt gameLevel travel).player.toGameObject)
      = some collision) :
    (movePlayerObject sqrt gameLevel travel).ball =
      { gameLevel.ball with
        position := ⟨gameLevel.ball.position.x +
          ((movePlayerObject sqrt gameLevel travel).player.position.x
            - gameLevel.player.position.x), gameLevel.ball.position.y⟩ } := by
  rw [movePlayerObject_player] at hcol ⊢
  unfold movePlayerObject
  simp only
  rw [if_neg (by rw [hsticky]; simp), hcol]

/-- C23.  For a Sticky ball whose circle collides with the paddle at its
moved position, `movePlayerObject` adds to ball.position.x exactly the
paddle's displacement after the clamp, so the ball's x-offset to the paddle
is kept, and leaves ball.position.y (and every other member of the ball)
unchanged; and in every level state in which the ball is Sticky and its
circle collides with the paddle, `handleGameLevelPlayerCollision` sets the
ball's velocity to (0, 0). -/
theorem sticky_ball_rides_paddle (sqrt : F → F) (gameLevel : GameLevel F) (travel : F)
    (collision : Collision F)
    (hsticky : gameLevel.ball.surfaceType = BallObjectSurfaceType.sticky)
    (hcol : checkCircleToBoxCollision sqrt (ballObjectToAabbCollisionCircle gameLevel.ball)
      (gameObjectToAabbCollisionBox (movePlayerObject sqrt gameLevel travel).player.toGameObject)
      = some collision) :
    (movePlayerObject sqrt gameLevel travel).player.position.x =
      stdClamp (gameLevel.player.position.x + travel) 0
        (max 0 ((gameLevel.map.width : F) - gameLevel.player.size.x)) ∧
    (movePlayerObject sqrt gameLevel travel).ball.position.x =
      gameLevel.ball.position.x +
        ((movePlayerObject sqrt gameLevel travel).player.position.x
          - gameLevel.player.position.x) ∧
    (movePlayerObject sqrt gameLevel travel).ball.position.x
        - (movePlayerObject sqrt gameLevel travel).player.position.x
      = gameLevel.ball.position.x - gameLevel.player.position.x ∧
    (movePlayerObject sqrt gameLevel travel).ball.position.y = gameLevel.ball.position.y ∧
    (movePlayerObject sqrt gameLevel travel).ball =
      { gameLevel.ball with
        position := (movePlayerObject sqrt gameLevel travel).ball.position } ∧
    ∀ (state : GameLevel F) (hit : Collision F),
      state.ball.surfaceType = BallObjectSurfaceType.sticky →
      checkCircleToBoxCollision sqrt (ballObjectToAabbCollisionCircle state.ball)
        (gameObjectToAabbCollisionBox state.player.toGameObject) = some hit →
      (handleGameLevelPlayerCollision sqrt state).ball.velocity = ⟨0, 0⟩ := by
  have hb := movePlayerObject_sticky_ball sqrt gameLevel travel collision hsticky hcol
  refine ⟨?_, ?_, ?_, ?_, ?_, fun state hit hs hc => ?_⟩
  · rw [movePlayerObject_player]
  · rw [hb]
  · rw [hb]; simp only; ring
  · rw [hb]
  · rw [hb]
  · exact handleGameLevelPlayerCollision_sticky sqrt state hit hc hs

/-- C23 at a concrete input: the example paddle (x = 350) asked to travel 10
to the right carries the Sticky ball resting on it from x = 387.5 to
x = 397.5. -/
theorem sticky_ball_rides_paddle_witness :
    (movePlayerObject Rat.sqrt exampleLevel 10).ball.position.x - 360
      = exampleLevel.ball.position.x - 350 := by
  have hp : (movePlayerObject Rat.sqrt exampleLevel 10).player.position.x = 360 := by
    rw [movePlayerObject_player]
    norm_num [stdClamp, exampleLevel, createGameLevel, createPlayerObject, createGameLevelMap,
      exampleConfig]
  have hx : exampleLevel.player.position.x = 350 := by
    norm_num [exampleLevel, createGameLevel, createPlayerObject, createGameLevelMap,
      exampleConfig]
  have h := (sticky_ball_rides_paddle Rat.sqrt exampleLevel 10 ⟨Direction.up, ⟨0, 25 / 2⟩⟩ rfl
    (by
      have hbox : gameObjectToAabbCollisionBox
          (movePlayerObject Rat.sqrt exampleLevel 10).player.toGameObject
          = ⟨⟨360, 580⟩, ⟨460, 600⟩⟩ := by
        rw [movePlayerObject_player]
        norm_num [stdClamp, exampleLevel, createGameLevel, createPlayerObject,
          createGameLevelMap, exampleConfig, gameObjectToAabbCollisionBox, Vec2.add]
      have hcircle : ballObjectToAabbCollisionCircle exampleLevel.ball
          = ⟨25 / 2, ⟨400, 580 - 25 / 2⟩⟩ := by
        norm_num [exampleLevel, createGameLevel, createBallObject, createPlayerObject,
          createGameLevelMap, exampleConfig, ballObjectToAabbCollisionCircle, Vec2.add,
          Vec2.splat, Vec2.sub, Vec2.divs]
      rw [hbox, hcircle]
      exact resting_circle_hit Rat.sqrt ⟨25 / 2, ⟨400, 580 - 25 / 2⟩⟩ ⟨⟨360, 580⟩, ⟨460, 600⟩⟩
        (by norm_num) (by norm_num) rfl (by norm_num) (by norm_num)
        ⟨Rat.sqrt_nonneg _, by rw [Rat.sqrt_eq]; norm_num⟩)).2.2.1
  rw [hp, hx] at h
  exact h

end StickyProperties

/-! ## Paddle inside the playfield -/

section PlayfieldProperties

variable {F : Type} [LinearOrderedField F]

/-- The paddle collision changes nothing but the ball. -/
theorem handleGameLevelPlayerCollision_frame (sqrt : F → F) (gameLevel : GameLevel F) :
    handleGameLevelPlayerCollision sqrt gameLevel =
      { gameLevel with ball := (handleGameLevelPlayerCollision sqrt gameLevel).ball } := by
  unfold handleGameLevelPlayerCollision
  split
  · rfl
  · simp only
    split_ifs <;> rfl

/-- A ball that reaches no boundary is only moved. -/
theorem handleBallObjectMovement_inside (indeterminate : BallObjectCollisionType) (dt : F)
    (gameLevel : GameLevel F)
    (h1 : 0 < (gameLevel.ball.position.add (Vec2.smul dt gameLevel.ball.velocity)).x)
    (h2 : (gameLevel.ball.position.add (Vec2.smul dt gameLevel.ball.velocity)).x
      + gameLevel.ball.size.x < (gameLevel.map.width : F))
    (h3 : 0 < (gameLevel.ball.position.add (Vec2.smul dt gameLevel.ball.velocity)).y)
    (h4 : (gameLevel.ball.position.add (Vec2.smul dt gameLevel.ball.velocity)).y
      + gameLevel.ball.size.y < (gameLevel.map.height : F)) :
    handleBallObjectMovement indeterminate dt gameLevel =
      { gameLevel with
        ball := { gameLevel.ball with
          position := gameLevel.ball.position.add (Vec2.smul dt gameLevel.ball.velocity) } } := by
  unfold handleBallObjectMovement
  simp only
  rw [if_neg (not_le.2 h1), if_neg (not_le.2 h2), if_neg (not_le.2 h3), if_neg (not_le.2 h4)]

/-- The brick pass over a single Alive Destroyable brick that the circle
collides with, when the only configured power-up is spawned: the brick is
Destroyed, the power-up is appended at the brick's position and the ball gets
the collision response. -/
theorem handleGameLevelBrickCollision_spawn (sqrt : F → F) (gameLevel : GameLevel F) (s : Rand)
    (brick : GameObject F) (collision : Collision F) (config : PowerUpConfig F)
    (hbricks : gameLevel.map.bricks = [brick])
    (halive : brick.status = GameObjectStatus.alive)
    (hd : brick.bodyType = GameObjectBodyType.destroyable)
    (hcol : checkCircleToBoxCollision sqrt (ballObjectToAabbCollisionCircle gameLevel.ball)
      (gameObjectToAabbCollisionBox brick) = some collision)
    (hconfigs : gameLevel.config.powerUpConfigs = [config])
    (hrand : Int.tmod ((s 0 : Nat) : Int) config.chance = 0) :
    (handleGameLevelBrickCollision sqrt gameLevel s).1 =
      { gameLevel with
        map := { gameLevel.map with
          bricks := [{ brick with status := GameObjectStatus.destroyed }] }
        powerUps := gameLevel.powerUps ++ [createPowerUp config brick.position]
        ball := brickCollisionResponse collision gameLevel.ball } := by
  have hspawn : spawnPowerUps brick.position gameLevel s =
      ({ gameLevel with
          powerUps := gameLevel.powerUps ++ [createPowerUp config brick.position] },
        (rand s).2) := by
    unfold spawnPowerUps
    rw [hconfigs]
    simp only [spawnPowerUpsLoop, spawnPowerUp]
    rw [if_pos (by simpa [rand] using hrand)]
  unfold handleGameLevelBrickCollision
  simp only
  rw [hbricks]
  simp only [brickCollisionLoop, brickCollisionBody]
  rw [if_neg (by rw [halive]; simp), hcol]
  simp only [if_pos hd, hspawn]

theorem powerUpOutcome_congr (sqrt : F → F) (dt : F) (a b : GameLevel F)
    (powerUp : PowerUpObject F) (hm : a.map.height = b.map.height) (hp : a.player = b.player) :
    powerUpOutcome sqrt dt a powerUp = powerUpOutcome sqrt dt b powerUp := by
  unfold powerUpOutcome
  rw [hm, hp]

/-- The last stages of a frame (falling power-ups, effects, shake) when the
single falling power-up is picked up and enqueues a single PaddleSizeUp
effect: the paddle is 50 wider and otherwise as it was. -/
theorem frame_end_size_up (sqrt : F → F) (dt : F) (gameLevel : GameLevel F)
    (powerUp : PowerUpObject F) (effect : PowerUpEffect F)
    (hpowerUps : gameLevel.powerUps = [powerUp])
    (heffects : gameLevel.powerUpEffects = [])
    (hpicked : powerUpOutcome sqrt dt gameLevel powerUp = PowerUpOutcome.pickedUp)
    (hqueue : effectsOfType gameLevel.config.powerUpConfigs powerUp.type = [effect])
    (htype : effect.type = PowerUpType.paddleSizeUp)
    (hstatus : effect.status = PowerUpEffectStatus.activate) :
    (handleShakeEffect dt
      (handleUpdatePowerUpEffect dt (handleUpdatePowerUpObject sqrt dt gameLevel))).player
      = { gameLevel.player with
          size := ⟨gameLevel.player.size.x + 50, gameLevel.player.size.y⟩ } := by
  have hobj : handleUpdatePowerUpObject sqrt dt gameLevel
      = { gameLevel with powerUps := [], powerUpEffects := [effect] } := by
    unfold handleUpdatePowerUpObject
    simp only
    rw [handleUpdatePowerUpObjectLoop_eq, hpowerUps, heffects]
    simp [hpicked, hqueue]
  rw [hobj]
  simp only [handleShakeEffect, handleUpdatePowerUpEffect]
  rw [handleUpdatePowerUpEffectLoop_cons, powerUpEffectStep_activate dt effect hstatus]
  simp only [handleUpdatePowerUpEffectLoop, applyPowerUpCall, activatePowerUp, htype]

/-- The stages of a frame after the brick pass, under the conditions of
`frame_end_size_up`. -/
theorem frame_tail_size_up (sqrt : F → F) (dt : F) (gameLevel : GameLevel F) (s : Rand)
    (powerUp : PowerUpObject F) (effect : PowerUpEffect F)
    (hpowerUps : gameLevel.powerUps = [powerUp])
    (heffects : gameLevel.powerUpEffects = [])
    (hpicked : powerUpOutcome sqrt dt gameLevel powerUp = PowerUpOutcome.pickedUp)
    (hqueue : effectsOfType gameLevel.config.powerUpConfigs powerUp.type = [effect])
    (htype : effect.type = PowerUpType.paddleSizeUp)
    (hstatus : effect.status = PowerUpEffectStatus.activate) :
    (handleShakeEffect dt
      (handleUpdatePowerUpEffect dt
        (handleUpdatePowerUpObject sqrt dt
          (handleBallObjectParticles dt
            (handleGameLevelPlayerCollision sqrt gameLevel) s).1))).player
      = { gameLevel.player with
          size := ⟨gameLevel.player.size.x + 50, gameLevel.player.size.y⟩ } := by
  have hf := handleGameLevelPlayerCollision_frame sqrt gameLevel
  have e1 : (handleBallObjectParticles dt
      (handleGameLevelPlayerCollision sqrt gameLevel) s).1.powerUps = [powerUp] :=
    (congrArg GameLevel.powerUps hf).trans hpowerUps
  have e2 : (handleBallObjectParticles dt
      (handleGameLevelPlayerCollision sqrt gameLevel) s).1.powerUpEffects = [] :=
    (congrArg GameLevel.powerUpEffects hf).trans heffects
  have e3 : (handleBallObjectParticles dt
      (handleGameLevelPlayerCollision sqrt gameLevel) s).1.player = gameLevel.player :=
    show (handleGameLevelPlayerCollision sqrt gameLevel).player = _ by rw [hf]
  have e4 : (handleBallObjectParticles dt
      (handleGameLevelPlayerCollision sqrt gameLevel) s).1.map = gameLevel.map :=
    show (handleGameLevelPlayerCollision sqrt gameLevel).map = _ by rw [hf]
  have e5 : (handleBallObjectParticles dt
      (handleGameLevelPlayerCollision sqrt gameLevel) s).1.config = gameLevel.config :=
    show (handleGameLevelPlayerCollision sqrt gameLevel).config = _ by rw [hf]
  rw [frame_end_size_up sqrt dt _ powerUp effect e1 e2
    ((powerUpOutcome_congr sqrt dt _ gameLevel powerUp (by rw [e4]) e3).trans hpicked)
    (by rw [e5]; exact hqueue) htype hstatus, e3]

theorem applyPowerUpCall_map (dt : F) (e : PowerUpEffect F) (gameLevel : GameLevel F)
    (call : Option PowerUpCall) :
    (applyPowerUpCall dt e gameLevel call).map = gameLevel.map := by
  rcases call with _ | call
  · rfl
  · cases call <;> cases ht : e.type <;>
      simp [applyPowerUpCall, activatePowerUp, deactivatePowerUp, ht]

theorem handleUpdatePowerUpEffectLoop_map (dt : F) (effects : List (PowerUpEffect F))
    (gameLevel : GameLevel F) :
    (handleUpdatePowerUpEffectLoop dt effects gameLevel).2.map = gameLevel.map := by
  induction effects generalizing gameLevel with
  | nil => rfl
  | cons e effects ih =>
    rw [handleUpdatePowerUpEffectLoop_cons]
    simp only
    rw [ih, applyPowerUpCall_map]

/-- The stages of a frame after the ball movement leave the dimensions of
the level as they are. -/
theorem frame_tail_map (sqrt : F → F) (dt : F) (gameLevel : GameLevel F) (s : Rand) :
    (handleShakeEffect dt
      (handleUpdatePowerUpEffect dt
        (handleUpdatePowerUpObject sqrt dt
          (handleBallObjectParticles dt
            (handleGameLevelPlayerCollision sqrt gameLevel) s).1))).map = gameLevel.map := by
  simp only [handleShakeEffect, handleUpdatePowerUpEffect, handleUpdatePowerUpEffectLoop_map,
    handleUpdatePowerUpObject, handleBallObjectParticles]
  rw [handleGameLevelPlayerCollision_frame]

theorem wideningConfig_fresh :
    (createGameLevel BallObjectCollisionType.default wideningConfig).map.bricks
      = [⟨⟨0, 0⟩, ⟨100, 50⟩, 0, ⟨1 / 5, 3 / 5, 1⟩, GameObjectBodyType.destroyable,
          GameObjectStatus.alive, 7⟩] ∧
    (createGameLevel BallObjectCollisionType.default wideningConfig).ball.position = ⟨40, 45⟩ ∧
    (createGameLevel BallObjectCollisionType.default wideningConfig).ball.size = ⟨20, 20⟩ ∧
    (createGameLevel BallObjectCollisionType.default wideningConfig).player.position = ⟨10, 65⟩ ∧
    (createGameLevel BallObjectCollisionType.default wideningConfig).player.size = ⟨80, 35⟩ := by
  refine ⟨?_, ?_, ?_, ?_, ?_⟩ <;>
    norm_num [createGameLevel, createPlayerObject, createBallObject, createGameLevelMap,
      createGridBricks, createRowBricks, wideningConfig, Vec2.add, Vec2.mul, Vec2.splat,
      show ¬ TileType.destroyable = TileType.solid by decide]

/-- The circle of the resting ball of the small level collides with its brick. -/
theorem wideningConfig_brick_hit :
    checkCircleToBoxCollision Rat.sqrt (⟨10, ⟨40 + 10, 45 + 10⟩⟩ : AabbCollisionCircle ℚ)
      ⟨⟨0, 0⟩, ⟨0 + 100, 0 + 50⟩⟩ = some ⟨Direction.down, ⟨0, -5⟩⟩ := by
  have hc : closestPoint (⟨10, ⟨40 + 10, 45 + 10⟩⟩ : AabbCollisionCircle ℚ)
      ⟨⟨0, 0⟩, ⟨0 + 100, 0 + 50⟩⟩ = ⟨50, 50⟩ := by
    norm_num [closestPoint, clamp, clampScalar, Vec2.add, Vec2.sub, Vec2.divs, Vec2.neg]
  have hsub : (⟨50, 50⟩ : Vec2 ℚ).sub ⟨40 + 10, 45 + 10⟩ = ⟨0, -5⟩ := by
    norm_num [Vec2.sub]
  have hd : dot (⟨0, -5⟩ : Vec2 ℚ) ⟨0, -5⟩ = 25 := by norm_num [dot]
  have hs : Rat.sqrt 25 = 5 := by norm_num
  simp only [checkCircleToBoxCollision, hc, hsub, length, directionFromTarget, normalize, hd, hs]
  norm_num [bestMatchLoop_eq, Vec2.muls]

/-- C24 fails on the code.  In the fresh level of `wideningConfig` (level
width 100, paddle width 80 ≤ 100, paddle at x = 10) one frame with no key
pressed and dt = 1/60 destroys the brick that the resting ball touches, spawns
the PaddleSizeUp power-up, picks it up and activates it: the paddle is still
at x = 10 but 130 wide, so position.x + size.x = 140 exceeds the level
width. -/
theorem paddle_leaves_playfield_on_size_up :
    wideningConfig.playerConfig.size.x ≤ (wideningConfig.width : ℚ) ∧
    (updateGameLevel Rat.sqrt BallObjectCollisionType.default false false false (1 / 60)
      (createGameLevel BallObjectCollisionType.default wideningConfig)
      (fun _ => 0)).1.player.position.x = 10 ∧
    (updateGameLevel Rat.sqrt BallObjectCollisionType.default false false false (1 / 60)
      (createGameLevel BallObjectCollisionType.default wideningConfig)
      (fun _ => 0)).1.player.size.x = 130 ∧
    ((updateGameLevel Rat.sqrt BallObjectCollisionType.default false false false (1 / 60)
      (createGameLevel BallObjectCollisionType.default wideningConfig)
      (fun _ => 0)).1.map.width : ℚ) = 100 ∧
    ¬ ((updateGameLevel Rat.sqrt BallObjectCollisionType.default false false false (1 / 60)
        (createGameLevel BallObjectCollisionType.default wideningConfig)
        (fun _ => 0)).1.player.position.x +
      (updateGameLevel Rat.sqrt BallObjectCollisionType.default false false false (1 / 60)
        (createGameLevel BallObjectCollisionType.default wideningConfig)
        (fun _ => 0)).1.player.size.x
      ≤ ((updateGameLevel Rat.sqrt BallObjectCollisionType.default false false false (1 / 60)
        (createGameLevel BallObjectCollisionType.default wideningConfig)
        (fun _ => 0)).1.map.width : ℚ)) := by
  obtain ⟨hbricks, hpos, hsize, hppos, hpsize⟩ := wideningConfig_fresh
  have hvel : (createGameLevel BallObjectCollisionType.default wideningConfig).ball.velocity
      = ⟨0, 0⟩ := rfl
  have hmoved : (createGameLevel BallObjectCollisionType.default wideningConfig).ball.position.add
      (Vec2.smul (1 / 60)
        (createGameLevel BallObjectCollisionType.default wideningConfig).ball.velocity)
      = ⟨40, 45⟩ := by
    rw [hpos, hvel]; norm_num [Vec2.add, Vec2.smul]
  have hmove := handleBallObjectMovement_inside BallObjectCollisionType.default (1 / 60 : ℚ)
    (createGameLevel BallObjectCollisionType.default wideningConfig)
    (by rw [hmoved]; norm_num) (by rw [hmoved, hsize]; norm_num [createGameLevel, createGameLevelMap, wideningConfig])
    (by rw [hmoved]; norm_num) (by rw [hmoved, hsize]; norm_num [createGameLevel, createGameLevelMap, wideningConfig])
  rw [hmoved] at hmove
  have hcircle : ballObjectToAabbCollisionCircle
      ({ (createGameLevel BallObjectCollisionType.default wideningConfig).ball with
        position := ⟨40, 45⟩ } : BallObject ℚ) = ⟨10, ⟨40 + 10, 45 + 10⟩⟩ := rfl
  have hspawn := handleGameLevelBrickCollision_spawn Rat.sqrt
    { createGameLevel BallObjectCollisionType.default wideningConfig with
      ball := { (createGameLevel BallObjectCollisionType.default wideningConfig).ball with
        position := ⟨40, 45⟩ } } (fun _ => 0)
    ⟨⟨0, 0⟩, ⟨100, 50⟩, 0, ⟨1 / 5, 3 / 5, 1⟩, GameObjectBodyType.destroyable,
      GameObjectStatus.alive, 7⟩ ⟨Direction.down, ⟨0, -5⟩⟩
    { type := PowerUpType.paddleSizeUp, chance := 1, ttl := 10, sprite := 4,
      velocity := ⟨0, 60⟩, size := ⟨40, 83⟩, color := ⟨1, 3 / 5, 2 / 5⟩ }
    hbricks rfl rfl (by rw [hcircle]; exact wideningConfig_brick_hit) rfl (by decide)
  have hframe : (updateGameLevel Rat.sqrt BallObjectCollisionType.default false false false
      (1 / 60) (createGameLevel BallObjectCollisionType.default wideningConfig)
      (fun _ => 0)).1.player
      = { (createGameLevel BallObjectCollisionType.default wideningConfig).player with
          size := ⟨(createGameLevel BallObjectCollisionType.default wideningConfig).player.size.x
            + 50,
            (createGameLevel BallObjectCollisionType.default wideningConfig).player.size.y⟩ } := by
    simp only [updateGameLevel, handlePlayerInput, handleGameLevelCollision, Bool.false_eq_true,
      if_false]
    rw [hmove, hspawn]
    have hout : ∀ level : GameLevel ℚ, level.map.height = 100 →
        level.player.position = ⟨10, 65⟩ → level.player.size = ⟨80, 35⟩ →
        powerUpOutcome Rat.sqrt (1 / 60) level
          (createPowerUp
            { type := PowerUpType.paddleSizeUp, chance := 1, ttl := 10, sprite := 4,
              velocity := ⟨0, 60⟩, size := ⟨40, 83⟩, color := ⟨1, 3 / 5, 2 / 5⟩ } ⟨0, 0⟩)
          = PowerUpOutcome.pickedUp := by
      intro level h1 h2 h3
      unfold powerUpOutcome
      rw [if_neg (by norm_num [fallenPowerUp, createPowerUp, Vec2.add, Vec2.smul, h1]),
        if_pos ((checkBoxToBoxCollision_isSome _ _ _).2
          (by norm_num [fallenPowerUp, createPowerUp, Vec2.add, Vec2.smul,
            gameObjectToAabbCollisionBox, h2, h3]))]
    exact frame_tail_size_up Rat.sqrt (1 / 60) _ _
      (createPowerUp
        { type := PowerUpType.paddleSizeUp, chance := 1, ttl := 10, sprite := 4,
          velocity := ⟨0, 60⟩, size := ⟨40, 83⟩, color := ⟨1, 3 / 5, 2 / 5⟩ } ⟨0, 0⟩)
      (createPowerUpEffect
        { type := PowerUpType.paddleSizeUp, chance := 1, ttl := 10, sprite := 4,
          velocity := ⟨0, 60⟩, size := ⟨40, 83⟩, color := ⟨1, 3 / 5, 2 / 5⟩ })
      rfl rfl (hout _ rfl hppos hpsize) (by simp [effectsOfType, wideningConfig, createGameLevel, createPowerUp]) rfl rfl
  have hwidth : (updateGameLevel Rat.sqrt BallObjectCollisionType.default false false false
      (1 / 60) (createGameLevel BallObjectCollisionType.default wideningConfig)
      (fun _ => 0)).1.map.width = 100 := by
    simp only [updateGameLevel, handlePlayerInput, handleGameLevelCollision, Bool.false_eq_true,
      if_false]
    rw [hmove, hspawn, frame_tail_map]
    rfl
  rw [hframe, hwidth, hppos, hpsize]
  norm_num [wideningConfig]

end PlayfieldProperties

/-! ## Overlapping effects -/

theorem deactivatePowerUp_atBaseline {F : Type} (e : PowerUpEffect F)
    (gameLevel : GameLevel F) :
    atBaseline e.type (deactivatePowerUp e gameLevel) := by
  unfold atBaseline deactivatePowerUp
  cases e.type <;> simp

theorem deactivatePowerUp_type {F : Type} (e e2 : PowerUpEffect F) (gameLevel : GameLevel F)
    (h : e.type = e2.type) :
    deactivatePowerUp e gameLevel = deactivatePowerUp e2 gameLevel := by
  unfold deactivatePowerUp
  rw [h]

section OverlapProperties

variable {F : Type} [LinearOrderedField F]

theorem powerUpEffectStep_running_eq (dt : F) (e : PowerUpEffect F)
    (h : e.status = PowerUpEffectStatus.activated) (ht : 0 < e.ttl - dt) :
    powerUpEffectStep dt e = (some { e with ttl := e.ttl - dt }, none) := by
  have hm : max (e.ttl - dt) 0 = e.ttl - dt := max_eq_left ht.le
  simp only [powerUpEffectStep, h, hm]
  rw [if_neg (by decide), if_neg (fun hc => absurd hc.2 (not_le.2 ht)), if_neg (by decide),
    if_neg (by decide)]

/-- C25.  Two effects of the same type in the effect list, `expiring` in
status Deactivate and `running` Activated with time left after this frame, in
either order: after `handleUpdatePowerUpEffect` the attribute of that type is
at its configured baseline, `expiring` is Deactivated and `running` is still in
the list, Activated, with ttl - dt > 0.  The deactivation that `running` gets
at its own expiry is the same function of the level as that of `expiring`, and
leaves the attribute at the baseline again.  For PaddleSizeUp: the two
activations widen the paddle by 50 and then 100, and one deactivation returns
it to the configured size.  In an effect list of any length, the step of the
loop for `expiring` passes on the level with that deactivation applied, at
the baseline, whatever the other effects are. -/
theorem overlapping_effects_reset (dt : F) (expiring running : PowerUpEffect F)
    (gameLevel : GameLevel F)
    (htype : expiring.type = running.type)
    (hfirst : expiring.status = PowerUpEffectStatus.deactivate)
    (hother : running.status = PowerUpEffectStatus.activated)
    (httl : 0 < running.ttl - dt)
    (heffects : gameLevel.powerUpEffects = [expiring, running] ∨
      gameLevel.powerUpEffects = [running, expiring]) :
    atBaseline expiring.type (handleUpdatePowerUpEffect dt gameLevel) ∧
    ({ expiring with ttl := max (expiring.ttl - dt) 0, status := PowerUpEffectStatus.deactivated }
        ∈ (handleUpdatePowerUpEffect dt gameLevel).powerUpEffects) ∧
    ({ running with ttl := running.ttl - dt } ∈
        (handleUpdatePowerUpEffect dt gameLevel).powerUpEffects) ∧
    (handleUpdatePowerUpEffect dt gameLevel).powerUpEffects.length = 2 ∧
    (∀ later : GameLevel F,
      deactivatePowerUp running later = deactivatePowerUp expiring later ∧
      atBaseline running.type (deactivatePowerUp running later)) ∧
    (expiring.type = PowerUpType.paddleSizeUp → ∀ level : GameLevel F,
      (activatePowerUp expiring level).player.size.x = level.player.size.x + 50 ∧
      (activatePowerUp running (activatePowerUp expiring level)).player.size.x
        = level.player.size.x + 100 ∧
      (deactivatePowerUp expiring
        (activatePowerUp running (activatePowerUp expiring level))).player.size
        = level.config.playerConfig.size) ∧
    (∀ (rest : List (PowerUpEffect F)) (level : GameLevel F),
      handleUpdatePowerUpEffectLoop dt (expiring :: rest) level =
        (({ expiring with
              ttl := max (expiring.ttl - dt) 0
              status := PowerUpEffectStatus.deactivated } : PowerUpEffect F) ::
            (handleUpdatePowerUpEffectLoop dt rest
              (deactivatePowerUp { expiring with ttl := max (expiring.ttl - dt) 0 } level)).1,
          (handleUpdatePowerUpEffectLoop dt rest
            (deactivatePowerUp { expiring with ttl := max (expiring.ttl - dt) 0 } level)).2) ∧
      atBaseline expiring.type
        (deactivatePowerUp { expiring with ttl := max (expiring.ttl - dt) 0 } level)) := by
  have hstep1 := powerUpEffectStep_deactivate dt expiring hfirst
  have hstep2 := powerUpEffectStep_running_eq dt running hother httl
  have hlevel : handleUpdatePowerUpEffect dt gameLevel =
      { deactivatePowerUp { expiring with ttl := max (expiring.ttl - dt) 0 } gameLevel with
        powerUpEffects := (handleUpdatePowerUpEffect dt gameLevel).powerUpEffects } ∧
      ((handleUpdatePowerUpEffect dt gameLevel).powerUpEffects =
          [({ expiring with
              ttl := max (expiring.ttl - dt) 0
              status := PowerUpEffectStatus.deactivated } : PowerUpEffect F),
            ({ running with ttl := running.ttl - dt } : PowerUpEffect F)] ∨
        (handleUpdatePowerUpEffect dt gameLevel).powerUpEffects =
          [({ running with ttl := running.ttl - dt } : PowerUpEffect F),
            ({ expiring with
              ttl := max (expiring.ttl - dt) 0
              status := PowerUpEffectStatus.deactivated } : PowerUpEffect F)]) := by
    unfold handleUpdatePowerUpEffect
    rcases heffects with h | h
    · rw [h]
      rw [handleUpdatePowerUpEffectLoop_cons, handleUpdatePowerUpEffectLoop_cons, hstep1, hstep2]
      exact ⟨rfl, Or.inl rfl⟩
    · rw [h]
      rw [handleUpdatePowerUpEffectLoop_cons, handleUpdatePowerUpEffectLoop_cons, hstep1, hstep2]
      exact ⟨rfl, Or.inr rfl⟩
  obtain ⟨hl, hlist⟩ := hlevel
  refine ⟨?_, ?_, ?_, ?_, fun later => ⟨?_, ?_⟩, fun hp level => ?_, fun rest level => ⟨?_, ?_⟩⟩
  · rw [hl]
    exact deactivatePowerUp_atBaseline { expiring with ttl := max (expiring.ttl - dt) 0 } gameLevel
  · rcases hlist with h | h <;> rw [h] <;> simp
  · rcases hlist with h | h <;> rw [h] <;> simp
  · rcases hlist with h | h <;> rw [h] <;> rfl
  · exact deactivatePowerUp_type running expiring later htype.symm
  · exact deactivatePowerUp_atBaseline running later
  · have hp2 : running.type = PowerUpType.paddleSizeUp := htype ▸ hp
    simp only [activatePowerUp, deactivatePowerUp, hp, hp2]
    refine ⟨trivial, ?_, trivial⟩
    ring
  · rw [handleUpdatePowerUpEffectLoop_cons, hstep1]
    rfl
  · exact deactivatePowerUp_atBaseline { expiring with ttl := max (expiring.ttl - dt) 0 } level

/-- C25 at a concrete input: the example level with the paddle widened to
200 by two PaddleSizeUp effects, one in status Deactivate and one Activated
with 5 seconds left; one pass returns the paddle to its configured size. -/
theorem overlapping_effects_reset_witness :
    atBaseline PowerUpType.paddleSizeUp
      (handleUpdatePowerUpEffect (1 / 60 : ℚ)
        { exampleLevel with
          player := { exampleLevel.player with size := ⟨200, 20⟩ }
          powerUpEffects :=
            [⟨PowerUpType.paddleSizeUp, 0, PowerUpEffectStatus.deactivate⟩,
              ⟨PowerUpType.paddleSizeUp, 5, PowerUpEffectStatus.activated⟩] }) :=
  (overlapping_effects_reset (1 / 60 : ℚ)
    ⟨PowerUpType.paddleSizeUp, 0, PowerUpEffectStatus.deactivate⟩
    ⟨PowerUpType.paddleSizeUp, 5, PowerUpEffectStatus.activated⟩
    { exampleLevel with
      player := { exampleLevel.player with size := ⟨200, 20⟩ }
      powerUpEffects :=
        [⟨PowerUpType.paddleSizeUp, 0, PowerUpEffectStatus.deactivate⟩,
          ⟨PowerUpType.paddleSizeUp, 5, PowerUpEffectStatus.activated⟩] }
    rfl rfl rfl (by norm_num) (Or.inl rfl)).1

end OverlapProperties

/-! ## Particle pool -/

section ParticlePoolProperties

variable {F : Type} [LinearOrderedField F]

theorem respawnFirstDeadParticles_zero (ballObject : BallObject F)
    (particles : List (ParticleObject F)) (s : Rand) :
    respawnFirstDeadParticles ballObject 0 particles s = (particles, s) := by
  cases particles <;> rfl

theorem respawnBallObjectParticle_fields (ballObject : BallObject F)
    (particle : ParticleObject F) (s : Rand) :
    (respawnBallObjectParticle ballObject particle s).1.life = 1 ∧
    (respawnBallObjectParticle ballObject particle s).1.color.a = 1 ∧
    (respawnBallObjectParticle ballObject particle s).1.velocity
      = ballObject.velocity.muls (1 / 10) :=
  ⟨rfl, rfl, rfl⟩

/-- One round of the source's respawn phase followed by the walk for `count`
particles is the walk for `count + 1` particles. -/
theorem respawnFirstDeadParticles_succ (ballObject : BallObject F) (count : Nat)
    (particles : List (ParticleObject F)) (s : Rand) :
    respawnFirstDeadParticles ballObject (count + 1) particles s
      = respawnFirstDeadParticles ballObject count
          (respawnFirstDead ballObject particles s).1
          (respawnFirstDead ballObject particles s).2 := by
  induction particles generalizing s with
  | nil => cases count <;> rfl
  | cons p rest ih =>
    by_cases hp : p.life ≤ 0
    · simp only [respawnFirstDeadParticles, respawnFirstDead, if_pos hp]
      cases count with
      | zero => simp only [respawnFirstDeadParticles, respawnFirstDeadParticles_zero]
      | succ m =>
        have h1 : ¬ (respawnBallObjectParticle ballObject p s).1.life ≤ 0 := by
          rw [(respawnBallObjectParticle_fields ballObject p s).1]
          exact not_le.2 one_pos
        simp only [respawnFirstDeadParticles, if_neg h1]
    · simp only [respawnFirstDeadParticles, respawnFirstDead, if_neg hp]
      rw [ih]
      cases count with
      | zero => simp only [respawnFirstDeadParticles, respawnFirstDeadParticles_zero]
      | succ m => simp only [respawnFirstDeadParticles, if_neg hp]

/-- The rounds of the source are the walk of the specification. -/
theorem respawnRounds_eq (ballObject : BallObject F) (count : Nat)
    (particles : List (ParticleObject F)) (s : Rand) :
    respawnRounds ballObject count particles s
      = respawnFirstDeadParticles ballObject count particles s := by
  induction count generalizing particles s with
  | zero => rw [respawnFirstDeadParticles_zero]; rfl
  | succ count ih =>
    rw [respawnFirstDeadParticles_succ, ← ih]
    rfl

theorem respawnFirstDeadParticles_length (ballObject : BallObject F) (count : Nat)
    (particles : List (ParticleObject F)) (s : Rand) :
    (respawnFirstDeadParticles ballObject count particles s).1.length = particles.length := by
  induction particles generalizing count s with
  | nil => cases count <;> rfl
  | cons p rest ih =>
    cases count with
    | zero => rfl
    | succ m =>
      simp only [respawnFirstDeadParticles]
      split_ifs <;> simp [ih]

/-- The walk lowers the number of particles with `life ≤ 0` by
`min count (number of such particles)`. -/
theorem respawnFirstDeadParticles_deadCount (ballObject : BallObject F) (count : Nat)
    (particles : List (ParticleObject F)) (s : Rand) :
    deadCount (respawnFirstDeadParticles ballObject count particles s).1
        + min count (deadCount particles) = deadCount particles := by
  induction particles generalizing count s with
  | nil => cases count <;> simp [respawnFirstDeadParticles, deadCount]
  | cons p rest ih =>
    cases count with
    | zero => simp [respawnFirstDeadParticles, deadCount]
    | succ m =>
      simp only [respawnFirstDeadParticles]
      by_cases hp : p.life ≤ 0
      · have h1 : ¬ (respawnBallObjectParticle ballObject p s).1.life ≤ 0 := by
          rw [(respawnBallObjectParticle_fields ballObject p s).1]
          exact not_le.2 one_pos
        have := ih m (respawnBallObjectParticle ballObject p s).2
        simp only [deadCount] at this ⊢
        simp only [if_pos hp, List.countP_cons, h1, hp, decide_True, decide_False, if_true,
          Bool.false_eq_true, if_false, add_zero]
        omega
      · have := ih (m + 1) s
        simp only [deadCount] at this ⊢
        simp only [if_neg hp, List.countP_cons, hp, decide_False, Bool.false_eq_true, if_false,
          add_zero]
        exact this

/-- The walk leaves a prefix of particles with `life > 0` as it is. -/
theorem respawnFirstDeadParticles_front (ballObject : BallObject F) (count : Nat)
    (front rest : List (ParticleObject F)) (s : Rand) (h : ∀ q ∈ front, 0 < q.life) :
    respawnFirstDeadParticles ballObject count (front ++ rest) s
      = (front ++ (respawnFirstDeadParticles ballObject count rest s).1,
          (respawnFirstDeadParticles ballObject count rest s).2) := by
  induction front with
  | nil => rfl
  | cons p front ih =>
    have hp : ¬ p.life ≤ 0 := not_le.2 (h p (List.mem_cons_self _ _))
    have ih2 := ih (fun q hq => h q (List.mem_cons_of_mem _ hq))
    cases count with
    | zero => simp only [respawnFirstDeadParticles_zero]
    | succ m =>
      rw [List.cons_append]
      simp only [respawnFirstDeadParticles, if_neg hp]
      rw [ih2]
      rfl

/-- C26.  `handleBallObjectParticles` keeps the length of the pool.  Its
respawn phase is the walk that respawns the first 2 particles with
`life ≤ 0` in pool order: it lowers the number of such particles by
`min 2 (their number)`; with no such particle the pool is unchanged, with
one it alone is respawned, with two or more the first two are respawned and
all others are as they were.  A respawned particle has life 1, alpha 1 and
velocity 0.1 * ball velocity before the ageing pass, and life 1 - dt and the
same velocity after it.  A particle with `life > 0` is not respawned: after
the call it is its aged self, with its velocity unchanged. -/
theorem particle_pool_respawn (dt : F) (gameLevel : GameLevel F) (s : Rand) :
    (handleBallObjectParticles dt gameLevel s).1.ball.particles.length
      = gameLevel.ball.particles.length ∧
    (handleBallObjectParticles dt gameLevel s).1.ball.particles
      = (respawnFirstDeadParticles gameLevel.ball 2 gameLevel.ball.particles s).1.map
          (ageParticle dt) ∧
    deadCount (respawnFirstDeadParticles gameLevel.ball 2 gameLevel.ball.particles s).1
        + min 2 (deadCount gameLevel.ball.particles) = deadCount gameLevel.ball.particles ∧
    ((∀ q ∈ gameLevel.ball.particles, 0 < q.life) →
      (respawnFirstDeadParticles gameLevel.ball 2 gameLevel.ball.particles s).1
        = gameLevel.ball.particles) ∧
    (∀ front p back, gameLevel.ball.particles = front ++ p :: back →
      (∀ q ∈ front, 0 < q.life) → p.life ≤ 0 → (∀ q ∈ back, 0 < q.life) →
      (respawnFirstDeadParticles gameLevel.ball 2 gameLevel.ball.particles s).1
        = front ++ (respawnBallObjectParticle gameLevel.ball p s).1 :: back) ∧
    (∀ front p middle q back, gameLevel.ball.particles = front ++ p :: (middle ++ q :: back) →
      (∀ r ∈ front, 0 < r.life) → p.life ≤ 0 → (∀ r ∈ middle, 0 < r.life) → q.life ≤ 0 →
      (respawnFirstDeadParticles gameLevel.ball 2 gameLevel.ball.particles s).1
        = front ++ (respawnBallObjectParticle gameLevel.ball p s).1 ::
            (middle ++ (respawnBallObjectParticle gameLevel.ball q
              (respawnBallObjectParticle gameLevel.ball p s).2).1 :: back)) ∧
    (∀ (p : ParticleObject F) (t : Rand),
      (respawnBallObjectParticle gameLevel.ball p t).1.life = 1 ∧
      (respawnBallObjectParticle gameLevel.ball p t).1.color.a = 1 ∧
      (respawnBallObjectParticle gameLevel.ball p t).1.velocity
        = gameLevel.ball.velocity.muls (1 / 10) ∧
      (ageParticle dt (respawnBallObjectParticle gameLevel.ball p t).1).life = 1 - dt ∧
      (ageParticle dt (respawnBallObjectParticle gameLevel.ball p t).1).velocity
        = gameLevel.ball.velocity.muls (1 / 10)) ∧
    (∀ (i : Nat) (p : ParticleObject F), gameLevel.ball.particles[i]? = some p → 0 < p.life →
      (handleBallObjectParticles dt gameLevel s).1.ball.particles[i]?
        = some (ageParticle dt p) ∧
      (ageParticle dt p).velocity = p.velocity) := by
  have hrounds := respawnRounds_eq gameLevel.ball 2 gameLevel.ball.particles s
  refine ⟨?_, ?_, respawnFirstDeadParticles_deadCount _ _ _ _, ?_, ?_, ?_, ?_, ?_⟩
  · simp only [handleBallObjectParticles, List.length_map, hrounds,
      respawnFirstDeadParticles_length]
  · simp only [handleBallObjectParticles, hrounds]
  · intro h
    have := respawnFirstDeadParticles_front gameLevel.ball 2 gameLevel.ball.particles [] s h
    simp only [List.append_nil] at this
    rw [this]
    simp [respawnFirstDeadParticles]
  · intro front p back hsplit hfront hp hback
    rw [hsplit, respawnFirstDeadParticles_front _ _ _ _ _ hfront]
    simp only [respawnFirstDeadParticles, if_pos hp]
    have := respawnFirstDeadParticles_front gameLevel.ball 1 back []
      (respawnBallObjectParticle gameLevel.ball p s).2 hback
    simp only [List.append_nil] at this
    rw [this]
    simp [respawnFirstDeadParticles]
  · intro front p middle q back hsplit hfront hp hmiddle hq
    rw [hsplit, respawnFirstDeadParticles_front _ _ _ _ _ hfront]
    simp only [respawnFirstDeadParticles, if_pos hp]
    rw [respawnFirstDeadParticles_front _ _ _ _ _ hmiddle]
    simp only [respawnFirstDeadParticles, if_pos hq, respawnFirstDeadParticles_zero]
  · intro p t
    obtain ⟨h1, h2, h3⟩ := respawnBallObjectParticle_fields gameLevel.ball p t
    refine ⟨h1, h2, h3, ?_, ?_⟩
    · rw [ageParticle_life, h1]
    · rw [ageParticle_velocity, h3]
  · intro i p hp hl
    exact ⟨handleBallObjectParticles_alive dt gameLevel s i p hp hl, ageParticle_velocity dt p⟩

end ParticlePoolProperties

/-! ## Multi-brick hits -/

section MultiBrickProperties

variable {F : Type} [LinearOrderedField F]

theorem brickCollisionResponse_collisionType (collision : Collision F) (ball : BallObject F) :
    (brickCollisionResponse collision ball).collisionType = ball.collisionType := by
  unfold brickCollisionResponse
  split_ifs <;> rfl

theorem brickCollisionResponse_radius (collision : Collision F) (ball : BallObject F) :
    (brickCollisionResponse collision ball).radius = ball.radius := by
  unfold brickCollisionResponse
  split_ifs <;> rfl

/-- The ball after one step of the brick loop, for a ball not in PassThrough
mode. -/
theorem brickCollisionBody_ball (sqrt : F → F) (circle : AabbCollisionCircle F)
    (brick : GameObject F) (gameLevel : GameLevel F) (s : Rand)
    (hmode : gameLevel.ball.collisionType ≠ BallObjectCollisionType.passThrough) :
    (brickCollisionBody sqrt circle brick gameLevel s).2.1.ball =
      (brickHits sqrt circle [brick]).foldl
        (fun ball collision => brickCollisionResponse collision ball) gameLevel.ball := by
  by_cases halive : brick.status = GameObjectStatus.alive
  · cases hcol : checkCircleToBoxCollision sqrt circle (gameObjectToAabbCollisionBox brick) with
    | none =>
      rw [brickCollisionBody_miss sqrt circle brick gameLevel s hcol]
      simp [brickHits, halive, hcol]
    | some collision =>
      rw [brickCollisionBody_response sqrt circle brick gameLevel s collision halive hcol
        (Or.inr hmode)]
      simp [brickHits, halive, hcol]
  · rw [brickCollisionBody_not_alive sqrt circle brick gameLevel s halive]
    simp [brickHits, halive]

theorem foldl_response_collisionType (hits : List (Collision F)) (ball : BallObject F) :
    (hits.foldl (fun ball collision => brickCollisionResponse collision ball)
      ball).collisionType = ball.collisionType := by
  induction hits generalizing ball with
  | nil => rfl
  | cons c hits ih =>
    simp only [List.foldl_cons]
    rw [ih, brickCollisionResponse_collisionType]

/-- The ball after the brick loop, for a ball not in PassThrough mode: the
collision responses to the hits, applied in brick order. -/
theorem brickCollisionLoop_ball (sqrt : F → F) (circle : AabbCollisionCircle F)
    (bricks : List (GameObject F)) (gameLevel : GameLevel F) (s : Rand)
    (hmode : gameLevel.ball.collisionType ≠ BallObjectCollisionType.passThrough) :
    (brickCollisionLoop sqrt circle bricks gameLevel s).2.1.ball =
      (brickHits sqrt circle bricks).foldl
        (fun ball collision => brickCollisionResponse collision ball) gameLevel.ball := by
  induction bricks generalizing gameLevel s with
  | nil => rfl
  | cons brick bricks ih =>
    have hb := brickCollisionBody_ball sqrt circle brick gameLevel s hmode
    have hmode2 : (brickCollisionBody sqrt circle brick gameLevel s).2.1.ball.collisionType
        ≠ BallObjectCollisionType.passThrough := by
      rw [hb, foldl_response_collisionType]; exact hmode
    simp only [brickCollisionLoop]
    rw [ih _ _ hmode2, hb]
    have happ : brickHits sqrt circle (brick :: bricks)
        = brickHits sqrt circle [brick] ++ brickHits sqrt circle bricks := by
      unfold brickHits
      rw [← List.filterMap_append]
      rfl
    rw [happ, List.foldl_append]

/-- Responses to collisions that are all classified Up or Down. -/
theorem foldl_response_vertical (hits : List (Collision F)) (ball : BallObject F)
    (h : ∀ c ∈ hits, c.direction = Direction.up ∨ c.direction = Direction.down) :
    (hits.foldl (fun ball collision => brickCollisionResponse collision ball) ball).velocity
      = ⟨ball.velocity.x, (-1) ^ hits.length * ball.velocity.y⟩ ∧
    (hits.foldl (fun ball collision => brickCollisionResponse collision ball) ball).position
      = ⟨ball.position.x, ball.position.y + (hits.map (verticalShift ball.radius)).sum⟩ := by
  induction hits generalizing ball with
  | nil => simp
  | cons c hits ih =>
    obtain ⟨-, -, ru, rd⟩ := brickCollisionResponse_eq c ball
    have ih2 := ih (brickCollisionResponse c ball)
      (fun d hd => h d (List.mem_cons_of_mem _ hd))
    rw [brickCollisionResponse_radius] at ih2
    simp only [List.foldl_cons, List.length_cons, List.map_cons, List.sum_cons]
    rw [ih2.1, ih2.2]
    rcases h c (List.mem_cons_self _ _) with hc | hc
    · rw [ru hc]
      simp only [verticalShift, hc, if_true]
      constructor
      · congr 1; ring
      · congr 1; ring
    · rw [rd hc]
      simp only [verticalShift, hc]
      rw [if_neg (by decide)]
      constructor
      · congr 1; ring
      · congr 1; ring

/-- Responses to collisions that are all classified Left or Right. -/
theorem foldl_response_horizontal (hits : List (Collision F)) (ball : BallObject F)
    (h : ∀ c ∈ hits, c.direction = Direction.left ∨ c.direction = Direction.right) :
    (hits.foldl (fun ball collision => brickCollisionResponse collision ball) ball).velocity
      = ⟨(-1) ^ hits.length * ball.velocity.x, ball.velocity.y⟩ ∧
    (hits.foldl (fun ball collision => brickCollisionResponse collision ball) ball).position
      = ⟨ball.position.x + (hits.map (horizontalShift ball.radius)).sum, ball.position.y⟩ := by
  induction hits generalizing ball with
  | nil => simp
  | cons c hits ih =>
    obtain ⟨rr, rl, -, -⟩ := brickCollisionResponse_eq c ball
    have ih2 := ih (brickCollisionResponse c ball)
      (fun d hd => h d (List.mem_cons_of_mem _ hd))
    rw [brickCollisionResponse_radius] at ih2
    simp only [List.foldl_cons, List.length_cons, List.map_cons, List.sum_cons]
    rw [ih2.1, ih2.2]
    rcases h c (List.mem_cons_self _ _) with hc | hc
    · rw [rl hc]
      simp only [horizontalShift, hc, if_true]
      constructor
      · congr 1; ring
      · congr 1; ring
    · rw [rr hc]
      simp only [horizontalShift, hc]
      rw [if_neg (by decide)]
      constructor
      · congr 1; ring
      · congr 1; ring

/-- C27.  For a Default-mode ball, `handleGameLevelBrickCollision` tests
every brick against the circle computed at the start of the call: the brick
list afterwards is `brickAfterCollision` of that circle on each brick (so
every Alive Destroyable brick the circle collides with is Destroyed), and the
ball afterwards is the ball with the collision responses to all hits applied
in brick order.  When all n hits are classified Up/Down, velocity.y is
multiplied by (-1)^n, velocity.x is unchanged and position.y is shifted by the
sum of the n signed penetrations; when all are classified Left/Right, the
same holds for x.  With n = 2 hits on one axis the velocity after the call
equals the velocity before it. -/
theorem multi_brick_hits (sqrt : F → F) (gameLevel : GameLevel F) (s : Rand)
    (hdefault : gameLevel.ball.collisionType = BallObjectCollisionType.default) :
    (handleGameLevelBrickCollision sqrt gameLevel s).1.map.bricks
      = gameLevel.map.bricks.map
          (brickAfterCollision sqrt (ballObjectToAabbCollisionCircle gameLevel.ball)) ∧
    (∀ brick ∈ gameLevel.map.bricks, brick.status = GameObjectStatus.alive →
      brick.bodyType = GameObjectBodyType.destroyable →
      (checkCircleToBoxCollision sqrt (ballObjectToAabbCollisionCircle gameLevel.ball)
        (gameObjectToAabbCollisionBox brick)).isSome = true →
      (brickAfterCollision sqrt (ballObjectToAabbCollisionCircle gameLevel.ball) brick).status
        = GameObjectStatus.destroyed) ∧
    (handleGameLevelBrickCollision sqrt gameLevel s).1.ball
      = (brickHits sqrt (ballObjectToAabbCollisionCircle gameLevel.ball)
          gameLevel.map.bricks).foldl
        (fun ball collision => brickCollisionResponse collision ball) gameLevel.ball ∧
    ((∀ c ∈ brickHits sqrt (ballObjectToAabbCollisionCircle gameLevel.ball)
        gameLevel.map.bricks, c.direction = Direction.up ∨ c.direction = Direction.down) →
      (handleGameLevelBrickCollision sqrt gameLevel s).1.ball.velocity
        = ⟨gameLevel.ball.velocity.x,
          (-1) ^ (brickHits sqrt (ballObjectToAabbCollisionCircle gameLevel.ball)
            gameLevel.map.bricks).length * gameLevel.ball.velocity.y⟩ ∧
      (handleGameLevelBrickCollision sqrt gameLevel s).1.ball.position
        = ⟨gameLevel.ball.position.x,
          gameLevel.ball.position.y +
            ((brickHits sqrt (ballObjectToAabbCollisionCircle gameLevel.ball)
              gameLevel.map.bricks).map (verticalShift gameLevel.ball.radius)).sum⟩) ∧
    ((∀ c ∈ brickHits sqrt (ballObjectToAabbCollisionCircle gameLevel.ball)
        gameLevel.map.bricks, c.direction = Direction.left ∨ c.direction = Direction.right) →
      (handleGameLevelBrickCollision sqrt gameLevel s).1.ball.velocity
        = ⟨(-1) ^ (brickHits sqrt (ballObjectToAabbCollisionCircle gameLevel.ball)
            gameLevel.map.bricks).length * gameLevel.ball.velocity.x,
          gameLevel.ball.velocity.y⟩ ∧
      (handleGameLevelBrickCollision sqrt gameLevel s).1.ball.position
        = ⟨gameLevel.ball.position.x +
            ((brickHits sqrt (ballObjectToAabbCollisionCircle gameLevel.ball)
              gameLevel.map.bricks).map (horizontalShift gameLevel.ball.radius)).sum,
          gameLevel.ball.position.y⟩) ∧
    ((brickHits sqrt (ballObjectToAabbCollisionCircle gameLevel.ball)
        gameLevel.map.bricks).length = 2 →
      ((∀ c ∈ brickHits sqrt (ballObjectToAabbCollisionCircle gameLevel.ball)
          gameLevel.map.bricks, c.direction = Direction.up ∨ c.direction = Direction.down) ∨
        (∀ c ∈ brickHits sqrt (ballObjectToAabbCollisionCircle gameLevel.ball)
          gameLevel.map.bricks,
          c.direction = Direction.left ∨ c.direction = Direction.right)) →
      (handleGameLevelBrickCollision sqrt gameLevel s).1.ball.velocity
        = gameLevel.ball.velocity) := by
  have hball : (handleGameLevelBrickCollision sqrt gameLevel s).1.ball
      = (brickHits sqrt (ballObjectToAabbCollisionCircle gameLevel.ball)
          gameLevel.map.bricks).foldl
        (fun ball collision => brickCollisionResponse collision ball) gameLevel.ball := by
    simp only [handleGameLevelBrickCollision]
    exact brickCollisionLoop_ball sqrt _ _ gameLevel s (by rw [hdefault]; decide)
  refine ⟨handleGameLevelBrickCollision_bricks sqrt gameLevel s, ?_, hball, ?_, ?_, ?_⟩
  · intro brick _ halive hd hhit
    exact ((brickAfterCollision_status sqrt _ brick).2 halive hd).2 hhit
  · intro h
    rw [hball]
    exact foldl_response_vertical _ gameLevel.ball h
  · intro h
    rw [hball]
    exact foldl_response_horizontal _ gameLevel.ball h
  · intro hn h
    rw [hball]
    rcases h with h | h
    · rw [(foldl_response_vertical _ gameLevel.ball h).1, hn]
      simp
    · rw [(foldl_response_horizontal _ gameLevel.ball h).1, hn]
      simp

/-- C27 at a concrete input: a Default-mode ball of radius 12.5 at (97.5, 95)
moving with (0, 200) rests on the seam of the two Alive Destroyable bricks
(70, 120)-(110, 140) and (110, 120)-(150, 140); both are hit with direction
Up and the velocity after the brick pass is (0, 200) again. -/
theorem multi_brick_hits_witness :
    (handleGameLevelBrickCollision Rat.sqrt
      (scenarioLevel ℚ ⟨195 / 2, 95⟩ ⟨0, 200⟩ BallObjectCollisionType.default
        [⟨⟨70, 120⟩, ⟨40, 20⟩, 0, ⟨1, 1, 1⟩, GameObjectBodyType.destroyable,
          GameObjectStatus.alive, 7⟩,
         ⟨⟨110, 120⟩, ⟨40, 20⟩, 0, ⟨1, 1, 1⟩, GameObjectBodyType.destroyable,
          GameObjectStatus.alive, 7⟩]) (fun _ => 1)).1.ball.velocity = ⟨0, 200⟩ := by
  have hs : IsSqrtOf ((25 / 2 : ℚ) * (25 / 2)) (Rat.sqrt ((25 / 2) * (25 / 2))) :=
    ⟨Rat.sqrt_nonneg _, by rw [Rat.sqrt_eq]; norm_num⟩
  have h1 : checkCircleToBoxCollision Rat.sqrt
      (⟨25 / 2, ⟨195 / 2 + 25 / 2, 95 + 25 / 2⟩⟩ : AabbCollisionCircle ℚ)
      ⟨⟨70, 120⟩, ⟨70 + 40, 120 + 20⟩⟩ = some ⟨Direction.up, ⟨0, 25 / 2⟩⟩ :=
    resting_circle_hit Rat.sqrt _ _ (by norm_num) (by norm_num) (by norm_num) (by norm_num)
      (by norm_num) hs
  have h2 : checkCircleToBoxCollision Rat.sqrt
      (⟨25 / 2, ⟨195 / 2 + 25 / 2, 95 + 25 / 2⟩⟩ : AabbCollisionCircle ℚ)
      ⟨⟨110, 120⟩, ⟨110 + 40, 120 + 20⟩⟩ = some ⟨Direction.up, ⟨0, 25 / 2⟩⟩ :=
    resting_circle_hit Rat.sqrt _ _ (by norm_num) (by norm_num) (by norm_num) (by norm_num)
      (by norm_num) hs
  have hhits : brickHits Rat.sqrt
      (ballObjectToAabbCollisionCircle
        (scenarioLevel ℚ ⟨195 / 2, 95⟩ ⟨0, 200⟩ BallObjectCollisionType.default
          [⟨⟨70, 120⟩, ⟨40, 20⟩, 0, ⟨1, 1, 1⟩, GameObjectBodyType.destroyable,
            GameObjectStatus.alive, 7⟩,
           ⟨⟨110, 120⟩, ⟨40, 20⟩, 0, ⟨1, 1, 1⟩, GameObjectBodyType.destroyable,
            GameObjectStatus.alive, 7⟩]).ball)
      (scenarioLevel ℚ ⟨195 / 2, 95⟩ ⟨0, 200⟩ BallObjectCollisionType.default
        [⟨⟨70, 120⟩, ⟨40, 20⟩, 0, ⟨1, 1, 1⟩, GameObjectBodyType.destroyable,
          GameObjectStatus.alive, 7⟩,
         ⟨⟨110, 120⟩, ⟨40, 20⟩, 0, ⟨1, 1, 1⟩, GameObjectBodyType.destroyable,
          GameObjectStatus.alive, 7⟩]).map.bricks
      = [⟨Direction.up, ⟨0, 25 / 2⟩⟩, ⟨Direction.up, ⟨0, 25 / 2⟩⟩] := by
    show brickHits Rat.sqrt (⟨25 / 2, ⟨195 / 2 + 25 / 2, 95 + 25 / 2⟩⟩ : AabbCollisionCircle ℚ)
      [⟨⟨70, 120⟩, ⟨40, 20⟩, 0, ⟨1, 1, 1⟩, GameObjectBodyType.destroyable,
          GameObjectStatus.alive, 7⟩,
       ⟨⟨110, 120⟩, ⟨40, 20⟩, 0, ⟨1, 1, 1⟩, GameObjectBodyType.destroyable,
          GameObjectStatus.alive, 7⟩] = _
    simp only [brickHits, List.filterMap_cons, List.filterMap_nil, if_true,
      gameObjectToAabbCollisionBox, Vec2.add, h1, h2]
  exact (multi_brick_hits Rat.sqrt _ (fun _ => 1) rfl).2.2.2.2.2
    (by rw [hhits]; rfl) (Or.inl (by rw [hhits]; simp))

end MultiBrickProperties

/-! ## A ball at rest -/

section RestProperties

variable {F : Type} [LinearOrderedField F]

/-- `movePlayerObject` leaves a ball that is not Sticky as it is. -/
theorem movePlayerObject_ball_not_sticky (sqrt : F → F) (gameLevel : GameLevel F) (travel : F)
    (h : gameLevel.ball.surfaceType ≠ BallObjectSurfaceType.sticky) :
    (movePlayerObject sqrt gameLevel travel).ball = gameLevel.ball := by
  unfold movePlayerObject
  simp only
  rw [if_pos h]

/-- Input handling leaves a ball that is not Sticky as it is. -/
theorem handlePlayerInput_ball_not_sticky (sqrt : F → F) (keyA keyD keySpace : Bool) (dt : F)
    (gameLevel : GameLevel F)
    (h : gameLevel.ball.surfaceType ≠ BallObjectSurfaceType.sticky) :
    (handlePlayerInput sqrt keyA keyD keySpace dt gameLevel).ball = gameLevel.ball := by
  have h1 : ∀ t, (movePlayerObject sqrt gameLevel t).ball = gameLevel.ball :=
    fun t => movePlayerObject_ball_not_sticky sqrt gameLevel t h
  have h2 : ∀ t u, (movePlayerObject sqrt (movePlayerObject sqrt gameLevel t) u).ball
      = gameLevel.ball := by
    intro t u
    rw [movePlayerObject_ball_not_sticky sqrt _ u (by rw [h1]; exact h), h1]
  unfold handlePlayerInput
  cases keyA <;> cases keyD <;> cases keySpace <;>
    simp only [if_true, if_false, Bool.false_eq_true, h1, h2, if_neg h]

/-- The ball movement leaves a ball at rest at rest (a recreated level has a
ball at rest). -/
theorem handleBallObjectMovement_rest (indeterminate : BallObjectCollisionType) (dt : F)
    (gameLevel : GameLevel F) (h : gameLevel.ball.velocity = ⟨0, 0⟩) :
    (handleBallObjectMovement indeterminate dt gameLevel).ball.velocity = ⟨0, 0⟩ := by
  unfold handleBallObjectMovement
  simp only
  split_ifs
  · simp [h]
  · simp [h]
  · simp [h]
  · rfl
  · exact h

theorem handleGameLevelBrickCollision_rest (sqrt : F → F) (gameLevel : GameLevel F) (s : Rand)
    (h : gameLevel.ball.velocity = ⟨0, 0⟩) :
    (handleGameLevelBrickCollision sqrt gameLevel s).1.ball.velocity = ⟨0, 0⟩ := by
  have hv := brickCollisionLoop_velocity sqrt (ballObjectToAabbCollisionCircle gameLevel.ball)
    gameLevel.map.bricks gameLevel s
  rw [h] at hv
  obtain ⟨hx, hy⟩ := hv
  simp only [neg_zero, or_self] at hx hy
  simp only [handleGameLevelBrickCollision]
  cases hb : (brickCollisionLoop sqrt (ballObjectToAabbCollisionCircle gameLevel.ball)
    gameLevel.map.bricks gameLevel s).2.1.ball.velocity with
  | mk a b =>
    rw [hb] at hx hy
    simp only at hx hy
    rw [hx, hy]

/-- In the field model, where a quotient by zero is 0, the paddle collision
leaves a ball at rest at rest, for a square root with `sqrt 0 = 0`. -/
theorem handleGameLevelPlayerCollision_rest (sqrt : F → F) (gameLevel : GameLevel F)
    (hsqrt : sqrt 0 = 0) (h : gameLevel.ball.velocity = ⟨0, 0⟩) :
    (handleGameLevelPlayerCollision sqrt gameLevel).ball.velocity = ⟨0, 0⟩ := by
  cases hcol : checkCircleToBoxCollision sqrt (ballObjectToAabbCollisionCircle gameLevel.ball)
      (gameObjectToAabbCollisionBox gameLevel.player.toGameObject) with
  | none =>
    unfold handleGameLevelPlayerCollision
    rw [hcol]
    exact h
  | some collision =>
    cases hst : gameLevel.ball.surfaceType with
    | sticky =>
      rw [handleGameLevelPlayerCollision_sticky sqrt gameLevel collision hcol hst]
      rfl
    | reflect =>
      rw [handleGameLevelPlayerCollision_reflect sqrt gameLevel collision hcol hst]
      have hl : length sqrt gameLevel.ball.velocity = 0 := by
        rw [h]
        simp [length, dot, hsqrt]
      simp [hl, Vec2.muls]

theorem applyPowerUpCall_velocity (dt : F) (e : PowerUpEffect F) (gameLevel : GameLevel F)
    (call : Option PowerUpCall) :
    (applyPowerUpCall dt e gameLevel call).ball.velocity = gameLevel.ball.velocity := by
  rcases call with _ | call
  · rfl
  · cases call <;> cases ht : e.type <;>
      simp [applyPowerUpCall, activatePowerUp, deactivatePowerUp, ht]

theorem handleUpdatePowerUpEffectLoop_velocity (dt : F) (effects : List (PowerUpEffect F))
    (gameLevel : GameLevel F) :
    (handleUpdatePowerUpEffectLoop dt effects gameLevel).2.ball.velocity
      = gameLevel.ball.velocity := by
  induction effects generalizing gameLevel with
  | nil => rfl
  | cons e effects ih =>
    rw [handleUpdatePowerUpEffectLoop_cons]
    simp only
    rw [ih, applyPowerUpCall_velocity]

/-- The stages of a frame after the paddle collision leave the velocity of
the ball as it is. -/
theorem frame_tail_velocity (sqrt : F → F) (dt : F) (gameLevel : GameLevel F) (s : Rand) :
    (handleShakeEffect dt
      (handleUpdatePowerUpEffect dt
        (handleUpdatePowerUpObject sqrt dt
          (handleBallObjectParticles dt gameLevel s).1))).ball.velocity
      = gameLevel.ball.velocity := by
  simp only [handleShakeEffect, handleUpdatePowerUpEffect, handleUpdatePowerUpEffectLoop_velocity,
    handleUpdatePowerUpObject, handleBallObjectParticles]

/-- A ball at rest in Reflect mode stays at rest over a frame, whatever the
keys and the frame delta: input handling leaves the ball as it is (the launch
key acts on a Sticky ball only), wall and brick bounces negate zero, and the
paddle bounce rescales to the previous speed 0.  The paddle bounce is taken
where `glm::normalize` is defined (non-zero intermediate vector, paddle of
non-zero width), which is where the field operations are those of the
source.  A Sticky deactivation leaves a ball at rest at rest, in Reflect
mode. -/
theorem resting_ball_stays_at_rest (sqrt : F → F) (indeterminate : BallObjectCollisionType)
    (keyA keyD keySpace : Bool) (dt : F) (gameLevel : GameLevel F) (s : Rand)
    (hreflect : gameLevel.ball.surfaceType = BallObjectSurfaceType.reflect)
    (hrest : gameLevel.ball.velocity = ⟨0, 0⟩)
    (hsqrt : sqrt 0 = 0)
    (_hdefined : ∀ collision : Collision F,
      checkCircleToBoxCollision sqrt
        (ballObjectToAabbCollisionCircle
          (beforePlayerCollision sqrt indeterminate keyA keyD keySpace dt gameLevel s).ball)
        (gameObjectToAabbCollisionBox
          (beforePlayerCollision sqrt indeterminate keyA keyD keySpace dt
            gameLevel s).player.toGameObject) = some collision →
      (beforePlayerCollision sqrt indeterminate keyA keyD keySpace dt
        gameLevel s).ball.surfaceType = BallObjectSurfaceType.reflect →
      normalizeDefined sqrt
        (paddleRedirected
          (beforePlayerCollision sqrt indeterminate keyA keyD keySpace dt gameLevel s)
          collision) ∧
      (beforePlayerCollision sqrt indeterminate keyA keyD keySpace dt
        gameLevel s).player.size.x ≠ 0) :
    (handlePlayerInput sqrt keyA keyD keySpace dt gameLevel).ball = gameLevel.ball ∧
    (updateGameLevel sqrt indeterminate keyA keyD keySpace dt gameLevel s).1.ball.velocity
      = ⟨0, 0⟩ ∧
    (∀ (e : PowerUpEffect F) (level : GameLevel F), e.type = PowerUpType.sticky →
      (deactivatePowerUp e level).ball.surfaceType = BallObjectSurfaceType.reflect ∧
      (deactivatePowerUp e level).ball.velocity = level.ball.velocity) := by
  have hns : gameLevel.ball.surfaceType ≠ BallObjectSurfaceType.sticky := by
    rw [hreflect]; decide
  have hin := handlePlayerInput_ball_not_sticky sqrt keyA keyD keySpace dt gameLevel hns
  refine ⟨hin, ?_, ?_⟩
  · simp only [updateGameLevel, handleGameLevelCollision]
    rw [frame_tail_velocity]
    apply handleGameLevelPlayerCollision_rest sqrt _ hsqrt
    apply handleGameLevelBrickCollision_rest
    apply handleBallObjectMovement_rest
    rw [hin]
    exact hrest
  · intro e level he
    simp only [deactivatePowerUp, he, and_self]

/-- The level before the paddle collision in a frame without keys, for a
level without bricks whose ball reaches no boundary. -/
theorem beforePlayerCollision_idle (sqrt : F → F) (indeterminate : BallObjectCollisionType)
    (dt : F) (gameLevel : GameLevel F) (s : Rand)
    (hbricks : gameLevel.map.bricks = [])
    (h1 : 0 < (gameLevel.ball.position.add (Vec2.smul dt gameLevel.ball.velocity)).x)
    (h2 : (gameLevel.ball.position.add (Vec2.smul dt gameLevel.ball.velocity)).x
      + gameLevel.ball.size.x < (gameLevel.map.width : F))
    (h3 : 0 < (gameLevel.ball.position.add (Vec2.smul dt gameLevel.ball.velocity)).y)
    (h4 : (gameLevel.ball.position.add (Vec2.smul dt gameLevel.ball.velocity)).y
      + gameLevel.ball.size.y < (gameLevel.map.height : F)) :
    beforePlayerCollision sqrt indeterminate false false false dt gameLevel s =
      { gameLevel with
        ball := { gameLevel.ball with
          position := gameLevel.ball.position.add (Vec2.smul dt gameLevel.ball.velocity) }
        map := { gameLevel.map with bricks := [] } } := by
  unfold beforePlayerCollision
  have hin : handlePlayerInput sqrt false false false dt gameLevel = gameLevel := by
    simp [handlePlayerInput]
  rw [hin, handleBallObjectMovement_inside indeterminate dt gameLevel h1 h2 h3 h4]
  simp only [handleGameLevelBrickCollision, hbricks, brickCollisionLoop]

theorem restingLevel_before :
    beforePlayerCollision Rat.sqrt BallObjectCollisionType.default false false false (1 / 60)
      restingLevel (fun _ => 0) =
      { restingLevel with
        ball := { restingLevel.ball with position := ⟨775 / 2, 555⟩ }
        map := { restingLevel.map with bricks := [] } } := by
  have hmoved : restingLevel.ball.position.add (Vec2.smul (1 / 60) restingLevel.ball.velocity)
      = ⟨775 / 2, 555⟩ := by
    norm_num [restingLevel, scenarioLevel, Vec2.add, Vec2.smul]
  have h := beforePlayerCollision_idle Rat.sqrt BallObjectCollisionType.default (1 / 60 : ℚ)
    restingLevel (fun _ => 0) rfl
    (by rw [hmoved]; norm_num)
    (by rw [hmoved]; norm_num [restingLevel, scenarioLevel, createGameLevel, createBallObject,
      createGameLevelMap, scenarioConfig, Vec2.splat])
    (by rw [hmoved]; norm_num)
    (by rw [hmoved]; norm_num [restingLevel, scenarioLevel, createGameLevel, createBallObject,
      createGameLevelMap, scenarioConfig, Vec2.splat])
  rw [hmoved] at h
  exact h

/-- The resting theorem at a concrete input: a Reflect ball at rest on the
example paddle, 10 to the right of its middle, is still at rest after a frame
with the launch key pressed. -/
theorem resting_ball_stays_at_rest_witness :
    (updateGameLevel Rat.sqrt BallObjectCollisionType.default false false true (1 / 60)
      (scenarioLevel ℚ ⟨795 / 2, 555⟩ ⟨0, 0⟩ BallObjectCollisionType.default [])
      (fun _ => 0)).1.ball.velocity = ⟨0, 0⟩ := by
  have hb : beforePlayerCollision Rat.sqrt BallObjectCollisionType.default false false true
      (1 / 60) (scenarioLevel ℚ ⟨795 / 2, 555⟩ ⟨0, 0⟩ BallObjectCollisionType.default [])
      (fun _ => 0)
      = beforePlayerCollision Rat.sqrt BallObjectCollisionType.default false false false
      (1 / 60) (scenarioLevel ℚ ⟨795 / 2, 555⟩ ⟨0, 0⟩ BallObjectCollisionType.default [])
      (fun _ => 0) := by
    simp [beforePlayerCollision, handlePlayerInput, scenarioLevel]
  have hmoved : (scenarioLevel ℚ ⟨795 / 2, 555⟩ ⟨0, 0⟩
      BallObjectCollisionType.default []).ball.position.add
      (Vec2.smul (1 / 60) (scenarioLevel ℚ ⟨795 / 2, 555⟩ ⟨0, 0⟩
        BallObjectCollisionType.default []).ball.velocity) = ⟨795 / 2, 555⟩ := by
    norm_num [scenarioLevel, Vec2.add, Vec2.smul]
  have h := beforePlayerCollision_idle Rat.sqrt BallObjectCollisionType.default (1 / 60 : ℚ)
    (scenarioLevel ℚ ⟨795 / 2, 555⟩ ⟨0, 0⟩ BallObjectCollisionType.default []) (fun _ => 0) rfl
    (by rw [hmoved]; norm_num)
    (by rw [hmoved]; norm_num [scenarioLevel, createGameLevel, createBallObject,
      createGameLevelMap, scenarioConfig, Vec2.splat])
    (by rw [hmoved]; norm_num)
    (by rw [hmoved]; norm_num [scenarioLevel, createGameLevel, createBallObject,
      createGameLevelMap, scenarioConfig, Vec2.splat])
  rw [hmoved] at h
  refine (resting_ball_stays_at_rest Rat.sqrt BallObjectCollisionType.default false false true
    (1 / 60) (scenarioLevel ℚ ⟨795 / 2, 555⟩ ⟨0, 0⟩ BallObjectCollisionType.default [])
    (fun _ => 0) rfl rfl (by norm_num) ?_).2.1
  intro collision hcol _
  rw [hb, h] at hcol ⊢
  have hbox : gameObjectToAabbCollisionBox
      (scenarioLevel ℚ ⟨795 / 2, 555⟩ ⟨0, 0⟩
        BallObjectCollisionType.default []).player.toGameObject
      = ⟨⟨350, 580⟩, ⟨450, 600⟩⟩ := by
    norm_num [scenarioLevel, createGameLevel, createPlayerObject,
      createGameLevelMap, scenarioConfig, gameObjectToAabbCollisionBox, Vec2.add]
  have hcircle : ballObjectToAabbCollisionCircle
      ({ (scenarioLevel ℚ ⟨795 / 2, 555⟩ ⟨0, 0⟩ BallObjectCollisionType.default []).ball with
        position := ⟨795 / 2, 555⟩ } : BallObject ℚ)
      = ⟨25 / 2, ⟨410, 580 - 25 / 2⟩⟩ := by
    norm_num [scenarioLevel, createGameLevel, createBallObject,
      scenarioConfig, ballObjectToAabbCollisionCircle, Vec2.add, Vec2.splat]
  have hhit := resting_circle_hit Rat.sqrt ⟨25 / 2, ⟨410, 580 - 25 / 2⟩⟩
    ⟨⟨350, 580⟩, ⟨450, 600⟩⟩
    (by norm_num) (by norm_num) rfl (by norm_num) (by norm_num)
    ⟨Rat.sqrt_nonneg _, by rw [Rat.sqrt_eq]; norm_num⟩
  change checkCircleToBoxCollision Rat.sqrt
    (ballObjectToAabbCollisionCircle
      ({ (scenarioLevel ℚ ⟨795 / 2, 555⟩ ⟨0, 0⟩ BallObjectCollisionType.default []).ball with
        position := ⟨795 / 2, 555⟩ } : BallObject ℚ))
    (gameObjectToAabbCollisionBox
      (scenarioLevel ℚ ⟨795 / 2, 555⟩ ⟨0, 0⟩
        BallObjectCollisionType.default []).player.toGameObject) = some collision at hcol
  rw [hbox, hcircle, hhit] at hcol
  simp only [Option.some.injEq] at hcol
  rw [← hcol]
  have hs : Rat.sqrt 25600 = 160 := by norm_num
  constructor
  · norm_num [normalizeDefined, paddleRedirected, paddlePercentage, paddleRepositioned, dot,
      scenarioLevel, createGameLevel, createBallObject, createPlayerObject, createGameLevelMap,
      scenarioConfig, hs]
  · norm_num [scenarioLevel, createGameLevel, createPlayerObject, createGameLevelMap,
      scenarioConfig]

/-- C28 fails on the code.  In `restingLevel` (no bricks, no power-ups, no
effects; Reflect ball at rest on the middle of the paddle) a frame with no
key pressed and dt = 1/60 brings the ball unchanged to the paddle collision;
its circle collides with the paddle, the percentage is 0 and the
intermediate vector of the bounce is (0, 0), so the divisor of
`glm::normalize` is 0: the source computes (0, 0) * inversesqrt(0), which is
not the velocity (0, 0) in float arithmetic. -/
theorem resting_ball_centred_divides_by_zero :
    restingLevel.ball.surfaceType = BallObjectSurfaceType.reflect ∧
    restingLevel.ball.velocity = ⟨0, 0⟩ ∧
    restingLevel.powerUps = [] ∧ restingLevel.powerUpEffects = [] ∧
    (beforePlayerCollision Rat.sqrt BallObjectCollisionType.default false false false (1 / 60)
      restingLevel (fun _ => 0)).ball = restingLevel.ball ∧
    checkCircleToBoxCollision Rat.sqrt
      (ballObjectToAabbCollisionCircle
        (beforePlayerCollision Rat.sqrt BallObjectCollisionType.default false false false (1 / 60)
          restingLevel (fun _ => 0)).ball)
      (gameObjectToAabbCollisionBox
        (beforePlayerCollision Rat.sqrt BallObjectCollisionType.default false false false (1 / 60)
          restingLevel (fun _ => 0)).player.toGameObject)
      = some ⟨Direction.up, ⟨0, 25 / 2⟩⟩ ∧
    paddlePercentage
      (beforePlayerCollision Rat.sqrt BallObjectCollisionType.default false false false (1 / 60)
        restingLevel (fun _ => 0)) ⟨Direction.up, ⟨0, 25 / 2⟩⟩ = 0 ∧
    paddleRedirected
      (beforePlayerCollision Rat.sqrt BallObjectCollisionType.default false false false (1 / 60)
        restingLevel (fun _ => 0)) ⟨Direction.up, ⟨0, 25 / 2⟩⟩ = ⟨0, 0⟩ ∧
    ¬ normalizeDefined Rat.sqrt
      (paddleRedirected
        (beforePlayerCollision Rat.sqrt BallObjectCollisionType.default false false false
          (1 / 60) restingLevel (fun _ => 0)) ⟨Direction.up, ⟨0, 25 / 2⟩⟩) := by
  have hpct : paddlePercentage
      (beforePlayerCollision Rat.sqrt BallObjectCollisionType.default false false false (1 / 60)
        restingLevel (fun _ => 0)) ⟨Direction.up, ⟨0, 25 / 2⟩⟩ = 0 := by
    rw [restingLevel_before]
    norm_num [paddlePercentage, paddleRepositioned, restingLevel, scenarioLevel, createGameLevel,
      createBallObject, createPlayerObject, createGameLevelMap, scenarioConfig]
  have hred : paddleRedirected
      (beforePlayerCollision Rat.sqrt BallObjectCollisionType.default false false false (1 / 60)
        restingLevel (fun _ => 0)) ⟨Direction.up, ⟨0, 25 / 2⟩⟩ = ⟨0, 0⟩ := by
    unfold paddleRedirected
    rw [hpct, restingLevel_before]
    norm_num [restingLevel, scenarioLevel]
  refine ⟨rfl, rfl, rfl, rfl, ?_, ?_, hpct, hred, ?_⟩
  · rw [restingLevel_before]
    rfl
  · rw [restingLevel_before]
    have hbox : gameObjectToAabbCollisionBox restingLevel.player.toGameObject
        = ⟨⟨350, 580⟩, ⟨450, 600⟩⟩ := by
      norm_num [restingLevel, scenarioLevel, createGameLevel, createPlayerObject,
        createGameLevelMap, scenarioConfig, gameObjectToAabbCollisionBox, Vec2.add]
    have hcircle : ballObjectToAabbCollisionCircle
        ({ restingLevel.ball with position := ⟨775 / 2, 555⟩ } : BallObject ℚ)
        = ⟨25 / 2, ⟨400, 580 - 25 / 2⟩⟩ := by
      norm_num [restingLevel, scenarioLevel, createGameLevel, createBallObject,
        scenarioConfig, ballObjectToAabbCollisionCircle, Vec2.add, Vec2.splat]
    show checkCircleToBoxCollision Rat.sqrt
      (ballObjectToAabbCollisionCircle
        ({ restingLevel.ball with position := ⟨775 / 2, 555⟩ } : BallObject ℚ))
      (gameObjectToAabbCollisionBox restingLevel.player.toGameObject) = _
    rw [hbox, hcircle]
    exact resting_circle_hit Rat.sqrt ⟨25 / 2, ⟨400, 580 - 25 / 2⟩⟩ ⟨⟨350, 580⟩, ⟨450, 600⟩⟩
      (by norm_num) (by norm_num) rfl (by norm_num) (by norm_num)
      ⟨Rat.sqrt_nonneg _, by rw [Rat.sqrt_eq]; norm_num⟩
  · rw [hred]
    norm_num [normalizeDefined, dot]

end RestProperties

/-! ## Fresh level -/

section FreshLevelProperties

variable {F : Type} [LinearOrderedField F]

end FreshLevelProperties

/-! ## Brick layout -/

section LayoutProperties

variable {F : Type} [LinearOrderedField F]

end LayoutProperties

end Breakout
